import Mathlib

/-!
Verification development for the bible-scripts repository.

The repository consists of three Python programs:
  * `dutch-diatheke.py` — reference normalization, alias lookup, shorthand
    expansion and canonical reference building;
  * `bible-to-format_v2.py` — a two-mode verse/markup parser, a passage
    grouper and multi-format renderers;
  * `bible-format-wrapper.py` — a formatting wrapper with its own passage
    formatter and citation logic.

The Python code is shallowly embedded below.  Strings are modelled as
`List Char` (lifted to `String` at the interfaces); every regular-expression
substitution of the source is implemented as an explicit, deterministic
scanner that follows the behaviour of the concrete pattern (all the patterns
used by the source are backtracking-free, so the scanners are exact).
-/

namespace BibleScripts

/-! ### Generic character and list utilities (Python string semantics) -/

/-- The characters Python's `str.strip()`, `str.split()` and the regex class
`\s` treat as whitespace (ASCII range). -/
def pyIsWs (c : Char) : Bool :=
  c = ' ' || c = '\t' || c = '\n' || c = '\r' || c = '\x0b' || c = '\x0c'

/-- Python `str.strip()`: drop leading and trailing whitespace. -/
def pyStrip (l : List Char) : List Char :=
  ((l.dropWhile pyIsWs).reverse.dropWhile pyIsWs).reverse

/-- Python `str.split(sep)` for a one-character separator: splits at every
occurrence, keeping empty pieces. -/
def splitOnChar (sep : Char) : List Char → List (List Char)
  | [] => [[]]
  | c :: cs =>
    if c = sep then [] :: splitOnChar sep cs
    else
      match splitOnChar sep cs with
      | [] => [[c]]
      | g :: gs => (c :: g) :: gs

/-- First-found lookup in a character table. -/
def tableLookup (c : Char) : List (Char × Char) → Option Char
  | [] => none
  | (k, v) :: rest => if c = k then some v else tableLookup c rest

/-! ### `dutch-diatheke.py`: `normalize_text` -/

/-- Modelled from the source's `unicodedata.normalize('NFD', ...)` pass:
finite table of the precomposed Latin letters relevant to this repository's
data, each mapped to its base letter (NFD decomposition followed by removal
of the combining marks). Characters outside the table are left alone. -/
def diaTable : List (Char × Char) :=
  [('á', 'a'), ('à', 'a'), ('â', 'a'), ('ä', 'a'), ('ã', 'a'), ('å', 'a'),
   ('é', 'e'), ('è', 'e'), ('ê', 'e'), ('ë', 'e'),
   ('í', 'i'), ('ì', 'i'), ('î', 'i'), ('ï', 'i'),
   ('ó', 'o'), ('ò', 'o'), ('ô', 'o'), ('ö', 'o'), ('õ', 'o'),
   ('ú', 'u'), ('ù', 'u'), ('û', 'u'), ('ü', 'u'),
   ('ý', 'y'), ('ÿ', 'y'), ('ñ', 'n'), ('ç', 'c'),
   ('Á', 'A'), ('À', 'A'), ('Â', 'A'), ('Ä', 'A'), ('Ã', 'A'), ('Å', 'A'),
   ('É', 'E'), ('È', 'E'), ('Ê', 'E'), ('Ë', 'E'),
   ('Í', 'I'), ('Ì', 'I'), ('Î', 'I'), ('Ï', 'I'),
   ('Ó', 'O'), ('Ò', 'O'), ('Ô', 'O'), ('Ö', 'O'), ('Õ', 'O'),
   ('Ú', 'U'), ('Ù', 'U'), ('Û', 'U'), ('Ü', 'U'),
   ('Ý', 'Y'), ('Ñ', 'N'), ('Ç', 'C')]

/-- Free-standing combining marks are dropped by the source's NFD pass. -/
def combiningMarks : List Char :=
  ['̀', '́', '̂', '̃', '̄', '̅', '̆',
   '̇', '̈', '̊', '̋', '̌', '̧']

/-- `''.join(c for c in unicodedata.normalize('NFD', text)
if not unicodedata.combining(c))`. -/
def stripDiacritics (l : List Char) : List Char :=
  l.filterMap (fun c =>
    if c.toNat < 128 then some c
    else if combiningMarks.contains c then none
    else some ((tableLookup c diaTable).getD c))

/-- ASCII lowercase table for `str.lower()` (after diacritic stripping,
all letters handled by the source's data are ASCII). -/
def lowerTable : List (Char × Char) :=
  [('A', 'a'), ('B', 'b'), ('C', 'c'), ('D', 'd'), ('E', 'e'), ('F', 'f'),
   ('G', 'g'), ('H', 'h'), ('I', 'i'), ('J', 'j'), ('K', 'k'), ('L', 'l'),
   ('M', 'm'), ('N', 'n'), ('O', 'o'), ('P', 'p'), ('Q', 'q'), ('R', 'r'),
   ('S', 's'), ('T', 't'), ('U', 'u'), ('V', 'v'), ('W', 'w'), ('X', 'x'),
   ('Y', 'y'), ('Z', 'z')]

def asciiLowerChar (c : Char) : Char :=
  if c.toNat < 65 || 90 < c.toNat then c else (tableLookup c lowerTable).getD c

/-- `text.lower()`. -/
def lowerAll (l : List Char) : List Char := l.map asciiLowerChar

/-- `text.replace('–', '-').replace('—', '-')`. -/
def dashReplace (l : List Char) : List Char :=
  l.map (fun c => if c = '–' || c = '—' then '-' else c)

/-! ### Substitution and run-mapping combinators

The regex substitutions of the source are deterministic (none of the
patterns needs backtracking), so each one is an exact left-to-right scanner:
a *matcher* recognises the pattern at the current position and returns the
replacement together with the input remaining after the match.  The
combinators take an explicit fuel argument (instantiated with the input
length) so that they compute by structural recursion. -/

def Matcher : Type := List Char → Option (List Char × List Char)

/-- `re.sub` semantics: scan left to right; where the matcher fires, emit its
replacement and continue after the matched text; otherwise keep the
character and move on. -/
def applySubF (m : Matcher) : Nat → List Char → List Char
  | 0, l => l
  | _ + 1, [] => []
  | n + 1, c :: cs =>
    match m (c :: cs) with
    | some (r, rest) => r ++ applySubF m n rest
    | none => c :: applySubF m n cs

def applySub (m : Matcher) (l : List Char) : List Char := applySubF m l.length l

/-- A matcher is well-formed when it fails on empty input and, on success,
the remainder is a suffix of the tail (so at least one character is
consumed). -/
def MatcherOk (m : Matcher) : Prop :=
  m [] = none ∧ ∀ c cs r rest, m (c :: cs) = some (r, rest) → rest <:+ cs

/-- Is there a position at which the matcher fires? -/
def existsMatch (m : Matcher) : List Char → Bool
  | [] => false
  | c :: cs => (m (c :: cs)).isSome || existsMatch m cs

/-- Apply `f` to every maximal run of characters satisfying `p`, leaving the
characters outside the runs alone.  A regex substitution whose pattern is a
whole `\b`-delimited word (or a whole `\s+` run) is exactly of this shape. -/
def mapRunsF (p : Char → Bool) (f : List Char → List Char) :
    Nat → List Char → List Char
  | 0, l => l
  | _ + 1, [] => []
  | n + 1, c :: cs =>
    if p c then f (c :: cs.takeWhile p) ++ mapRunsF p f n (cs.dropWhile p)
    else c :: mapRunsF p f n cs

def mapRuns (p : Char → Bool) (f : List Char → List Char) (l : List Char) :
    List Char :=
  mapRunsF p f l.length l

/-- The maximal runs themselves (used to state facts about `mapRuns`). -/
def runsOfF (p : Char → Bool) : Nat → List Char → List (List Char)
  | 0, _ => []
  | _ + 1, [] => []
  | n + 1, c :: cs =>
    if p c then (c :: cs.takeWhile p) :: runsOfF p n (cs.dropWhile p)
    else runsOfF p n cs

def runsOf (p : Char → Bool) (l : List Char) : List (List Char) :=
  runsOfF p l.length l

/-- Python `str.split()` with no argument: the maximal non-whitespace runs. -/
def pyWords (l : List Char) : List (List Char) :=
  runsOf (fun c => !pyIsWs c) l

/-! ### `dutch-diatheke.py`: remaining stages of `normalize_text` -/

/-- The character class actually denoted by the source's regex
`[.,;!?()[]\x7b\x7d]`: the class is closed by the first unescaped `]`, so it
contains exactly `.` `,` `;` `!` `?` `(` `)` `[`. -/
def punctClassChar (c : Char) : Bool :=
  c = '.' || c = ',' || c = ';' || c = '!' || c = '?' || c = '(' ||
  c = ')' || c = '['

/-- The pattern of `re.sub(r'[.,;!?()[]\x7b\x7d]', ' ', text)` as Python
reads it: a class character immediately followed by the literal three
characters `\x7b\x7d]`; the four matched characters become one space. -/
def punctMatch : Matcher
  | c :: c1 :: c2 :: c3 :: rest =>
    if punctClassChar c && c1 = '{' && c2 = '}' && c3 = ']' then
      some ([' '], rest)
    else none
  | _ => none

def punctSub (l : List Char) : List Char := applySub punctMatch l

/-- Python's `\w` on the data handled here: ASCII letters, digits, `_`. -/
def wordChar (c : Char) : Bool := c.isAlphanum || c = '_'

/-- The source's `roman_map`, in its Python insertion order. -/
def romanPairs : List (List Char × List Char) :=
  [(['i'], ['1']), (['i', 'i'], ['2']), (['i', 'i', 'i'], ['3']),
   (['i', 'v'], ['4']), (['v'], ['5']), (['v', 'i'], ['6'])]

/-- Effect of the six sequential substitutions
`re.sub(rf'\b{roman}\b', arabic, text)` on one whole word: each pattern is a
complete `\b`-delimited word, so a maximal word run is replaced exactly when
it equals the roman numeral, and the six substitutions chain in order. -/
def romanFold (w : List Char) : List Char :=
  romanPairs.foldl (fun w p => if w = p.1 then p.2 else w) w

/-- The six roman-numeral substitutions together. -/
def romanSub (l : List Char) : List Char := mapRuns wordChar romanFold l

def isLowerAZ (c : Char) : Bool := 'a' ≤ c && c ≤ 'z'

/-- `re.sub(r'(\d)([a-z])', r'\1 \2', text)` (left-to-right,
non-overlapping). -/
def digitLetterMatch : Matcher
  | c :: d :: rest =>
    if c.isDigit && isLowerAZ d then some ([c, ' ', d], rest) else none
  | _ => none

def subDigitLetter (l : List Char) : List Char := applySub digitLetterMatch l

/-- `re.sub(r'([a-z])(\d)', r'\1 \2', text)`. -/
def letterDigitMatch : Matcher
  | c :: d :: rest =>
    if isLowerAZ c && d.isDigit then some ([c, ' ', d], rest) else none
  | _ => none

def subLetterDigit (l : List Char) : List Char := applySub letterDigitMatch l

/-- `re.sub(r'\s+', ' ', text)`: every maximal whitespace run becomes one
space. -/
def collapseWs (l : List Char) : List Char :=
  mapRuns pyIsWs (fun _ => [' ']) l


/-- `normalize_text` of `dutch-diatheke.py`, stage by stage in source order. -/
def normalizeList (l : List Char) : List Char :=
  pyStrip (collapseWs (subLetterDigit (subDigitLetter (romanSub
    (punctSub (dashReplace (lowerAll (stripDiacritics l))))))))

/-- `normalize_text(text)`. -/
def normalize_text (s : String) : String := ⟨normalizeList s.data⟩

/-! ### `dutch-diatheke.py`: alias tables and reference parsing -/

def CANONICAL_BOOKS : List (String × String) :=
  [("genesis", "Genesis"), ("gen", "Genesis"), ("ge", "Genesis"), ("gn", "Genesis"), 
   ("exodus", "Exodus"), ("ex", "Exodus"), ("exo", "Exodus"), ("exod", "Exodus"), 
   ("leviticus", "Leviticus"), ("lev", "Leviticus"), ("le", "Leviticus"), 
   ("levit", "Leviticus"), ("lv", "Leviticus"), ("numeri", "Numbers"), ("numbers", "Numbers"), 
   ("num", "Numbers"), ("nu", "Numbers"), ("numb", "Numbers"), ("nm", "Numbers"), 
   ("nb", "Numbers"), ("deuteronomium", "Deuteronomy"), ("deuteronomy", "Deuteronomy"), 
   ("deut", "Deuteronomy"), ("deu", "Deuteronomy"), ("dt", "Deuteronomy"), ("jozua", "Joshua"), 
   ("joshua", "Joshua"), ("joz", "Joshua"), ("jos", "Joshua"), ("jo", "Joshua"), 
   ("josh", "Joshua"), ("richteren", "Judges"), ("rechters", "Judges"), ("richt", "Judges"), 
   ("rech", "Judges"), ("ri", "Judges"), ("judges", "Judges"), ("judg", "Judges"), 
   ("jdg", "Judges"), ("jgs", "Judges"), ("ruth", "Ruth"), ("ru", "Ruth"), ("rt", "Ruth"), 
   ("rut", "Ruth"), ("rth", "Ruth"), ("1 samuel", "1Samuel"), ("1 samuelconsole", "1Samuel"), 
   ("1sam", "1Samuel"), ("1 sam", "1Samuel"), ("i samuel", "1Samuel"), ("i sam", "1Samuel"), 
   ("1 sm", "1Samuel"), ("1sa", "1Samuel"), ("1s", "1Samuel"), ("2 samuel", "2Samuel"), 
   ("2 samuelconsole", "2Samuel"), ("2sam", "2Samuel"), ("2 sam", "2Samuel"), 
   ("ii samuel", "2Samuel"), ("ii sam", "2Samuel"), ("2 sm", "2Samuel"), ("2sa", "2Samuel"), 
   ("2s", "2Samuel"), ("1 koningen", "1Kings"), ("1kings", "1Kings"), ("1 kings", "1Kings"), 
   ("1kon", "1Kings"), ("1 kon", "1Kings"), ("i koningen", "1Kings"), ("i kon", "1Kings"), 
   ("1kgs", "1Kings"), ("1 kgs", "1Kings"), ("1ki", "1Kings"), ("1k", "1Kings"), 
   ("2 koningen", "2Kings"), ("2kings", "2Kings"), ("2 kings", "2Kings"), ("2kon", "2Kings"), 
   ("2 kon", "2Kings"), ("ii koningen", "2Kings"), ("ii kon", "2Kings"), ("2kgs", "2Kings"), 
   ("2 kgs", "2Kings"), ("2ki", "2Kings"), ("2k", "2Kings"), ("1 kronieken", "1Chronicles"), 
   ("1chronicles", "1Chronicles"), ("1 chronicles", "1Chronicles"), ("1kron", "1Chronicles"), 
   ("1 kron", "1Chronicles"), ("1 kr", "1Chronicles"), ("i kronieken", "1Chronicles"), 
   ("i kron", "1Chronicles"), ("1chr", "1Chronicles"), ("1 chr", "1Chronicles"), 
   ("1chron", "1Chronicles"), ("1 chron", "1Chronicles"), ("1ch", "1Chronicles"), 
   ("2 kronieken", "2Chronicles"), ("2chronicles", "2Chronicles"), 
   ("2 chronicles", "2Chronicles"), ("2kron", "2Chronicles"), ("2 kron", "2Chronicles"), 
   ("2 kr", "2Chronicles"), ("ii kronieken", "2Chronicles"), ("ii kron", "2Chronicles"), 
   ("2chr", "2Chronicles"), ("2 chr", "2Chronicles"), ("2chron", "2Chronicles"), 
   ("2 chron", "2Chronicles"), ("2ch", "2Chronicles"), ("ezra", "Ezra"), ("ezr", "Ezra"), 
   ("ez", "Ezra"), ("nehemia", "Nehemiah"), ("nehemiah", "Nehemiah"), ("neh", "Nehemiah"), 
   ("ne", "Nehemiah"), ("ester", "Esther"), ("esther", "Esther"), ("est", "Esther"), 
   ("es", "Esther"), ("job", "Job"), ("jb", "Job"), ("psalm", "Psalms"), ("psalms", "Psalms"), 
   ("psalmen", "Psalms"), ("ps", "Psalms"), ("psa", "Psalms"), ("pss", "Psalms"), 
   ("psm", "Psalms"), ("spreuken", "Proverbs"), ("proverbs", "Proverbs"), ("spr", "Proverbs"), 
   ("sp", "Proverbs"), ("prov", "Proverbs"), ("pro", "Proverbs"), ("pr", "Proverbs"), 
   ("prv", "Proverbs"), ("prediker", "Ecclesiastes"), ("ecclesiastes", "Ecclesiastes"), 
   ("pred", "Ecclesiastes"), ("eccl", "Ecclesiastes"), ("ecc", "Ecclesiastes"), 
   ("ec", "Ecclesiastes"), ("qoh", "Ecclesiastes"), ("hooglied", "Song of Solomon"), 
   ("song of solomon", "Song of Solomon"), ("song of songs", "Song of Solomon"), 
   ("hoogl", "Song of Solomon"), ("hl", "Song of Solomon"), 
   ("lied der liederen", "Song of Solomon"), ("ldl", "Song of Solomon"), 
   ("sos", "Song of Solomon"), ("ss", "Song of Solomon"), ("cant", "Song of Solomon"), 
   ("song", "Song of Solomon"), ("jesaja", "Isaiah"), ("isaiah", "Isaiah"), ("jes", "Isaiah"), 
   ("js", "Isaiah"), ("isa", "Isaiah"), ("is", "Isaiah"), ("jeremia", "Jeremiah"), 
   ("jeremiah", "Jeremiah"), ("jer", "Jeremiah"), ("je", "Jeremiah"), ("klaagliederen", "Lam"), 
   ("lamentations", "Lam"), ("klaagl", "Lam"), ("kla", "Lam"), ("lam", "Lam"), ("la", "Lam"), 
   ("ezechiel", "Ezekiel"), ("ezekiel", "Ezekiel"), ("ezech", "Ezekiel"), ("eze", "Ezekiel"), 
   ("ezk", "Ezekiel"), ("ek", "Ezekiel"), ("daniel", "Daniel"), ("dan", "Daniel"), 
   ("dn", "Daniel"), ("da", "Daniel"), ("hosea", "Hosea"), ("hos", "Hosea"), ("ho", "Hosea"), 
   ("joel", "Joel"), ("jl", "Joel"), ("joe", "Joel"), ("jol", "Joel"), ("amos", "Amos"), 
   ("am", "Amos"), ("amo", "Amos"), ("obadja", "Obadiah"), ("obadiah", "Obadiah"), 
   ("ob", "Obadiah"), ("obad", "Obadiah"), ("oba", "Obadiah"), ("jona", "Jonah"), 
   ("jonah", "Jonah"), ("jon", "Jonah"), ("jnh", "Jonah"), ("micha", "Micah"), 
   ("micah", "Micah"), ("mi", "Micah"), ("mic", "Micah"), ("nahum", "Nahum"), ("nah", "Nahum"), 
   ("na", "Nahum"), ("nah", "Nahum"), ("habakuk", "Habakkuk"), ("habakkuk", "Habakkuk"), 
   ("hab", "Habakkuk"), ("hb", "Habakkuk"), ("sefanja", "Zephaniah"), ("zefanja", "Zephaniah"), 
   ("zephaniah", "Zephaniah"), ("sef", "Zephaniah"), ("zef", "Zephaniah"), 
   ("zep", "Zephaniah"), ("zph", "Zephaniah"), ("haggai", "Haggai"), ("hag", "Haggai"), 
   ("hg", "Haggai"), ("zacharia", "Zechariah"), ("zechariah", "Zechariah"), 
   ("zach", "Zechariah"), ("zac", "Zechariah"), ("zec", "Zechariah"), ("zch", "Zechariah"), 
   ("maleachi", "Malachi"), ("malachi", "Malachi"), ("mal", "Malachi"), ("matteus", "Matthew"), 
   ("mattheüs", "Matthew"), ("matthéüs", "Matthew"), ("matth", "Matthew"), 
   ("matthew", "Matthew"), ("mat", "Matthew"), ("matt", "Matthew"), ("mt", "Matthew"), 
   ("marcus", "Mark"), ("markus", "Mark"), ("mark", "Mark"), ("mar", "Mark"), ("marc", "Mark"), 
   ("mr", "Mark"), ("mk", "Mark"), ("mrk", "Mark"), ("lucas", "Luke"), ("lukas", "Luke"), 
   ("luke", "Luke"), ("luc", "Luke"), ("lc", "Luke"), ("lu", "Luke"), ("luk", "Luke"), 
   ("lk", "Luke"), ("johannes", "John"), ("john", "John"), ("joh", "John"), ("jn", "John"), 
   ("handelingen", "Acts"), ("acts", "Acts"), ("hand", "Acts"), ("hd", "Acts"), 
   ("hnd", "Acts"), ("ac", "Acts"), ("act", "Acts"), ("romeinen", "Romans"), 
   ("romans", "Romans"), ("rom", "Romans"), ("rm", "Romans"), ("ro", "Romans"), 
   ("1 korinthe", "1Corinthians"), ("1 korintiers", "1Corinthians"), 
   ("1corinthians", "1Corinthians"), ("1 corinthians", "1Corinthians"), 
   ("1kor", "1Corinthians"), ("1 kor", "1Corinthians"), ("1 cor", "1Corinthians"), 
   ("1cor", "1Corinthians"), ("i korinthe", "1Corinthians"), ("i kor", "1Corinthians"), 
   ("1co", "1Corinthians"), ("2 korinthe", "2Corinthians"), ("2 korintiers", "2Corinthians"), 
   ("2corinthians", "2Corinthians"), ("2 corinthians", "2Corinthians"), 
   ("2kor", "2Corinthians"), ("2 kor", "2Corinthians"), ("2 cor", "2Corinthians"), 
   ("2cor", "2Corinthians"), ("ii korinthe", "2Corinthians"), ("ii kor", "2Corinthians"), 
   ("2co", "2Corinthians"), ("galaten", "Galatians"), ("galatians", "Galatians"), 
   ("gal", "Galatians"), ("ga", "Galatians"), ("glt", "Galatians"), ("efeze", "Ephesians"), 
   ("efeziers", "Ephesians"), ("ephesians", "Ephesians"), ("ef", "Ephesians"), 
   ("eph", "Ephesians"), ("ep", "Ephesians"), ("filippenzen", "Philippians"), 
   ("filipenzen", "Philippians"), ("philippians", "Philippians"), ("fil", "Philippians"), 
   ("phil", "Philippians"), ("php", "Philippians"), ("pp", "Philippians"), 
   ("kolossenzen", "Colossians"), ("colossenzen", "Colossians"), ("colossians", "Colossians"), 
   ("kol", "Colossians"), ("col", "Colossians"), ("co", "Colossians"), 
   ("1 thessalonicenzen", "1Thessalonians"), ("1 tessalonicenzen", "1Thessalonians"), 
   ("1thessalonians", "1Thessalonians"), ("1 thessalonians", "1Thessalonians"), 
   ("1thess", "1Thessalonians"), ("1 thess", "1Thessalonians"), ("1thes", "1Thessalonians"), 
   ("1 thes", "1Thessalonians"), ("1 tes", "1Thessalonians"), ("1th", "1Thessalonians"), 
   ("i thessalonicenzen", "1Thessalonians"), ("i thess", "1Thessalonians"), 
   ("i tes", "1Thessalonians"), ("1ts", "1Thessalonians"), 
   ("2 thessalonicenzen", "2Thessalonians"), ("2 tessalonicenzen", "2Thessalonians"), 
   ("2thessalonians", "2Thessalonians"), ("2 thessalonians", "2Thessalonians"), 
   ("2thess", "2Thessalonians"), ("2 thess", "2Thessalonians"), ("2thes", "2Thessalonians"), 
   ("2 thes", "2Thessalonians"), ("2 tes", "2Thessalonians"), ("2th", "2Thessalonians"), 
   ("ii thessalonicenzen", "2Thessalonians"), ("ii thess", "2Thessalonians"), 
   ("ii tes", "2Thessalonians"), ("2ts", "2Thessalonians"), ("1 timoteus", "1Timothy"), 
   ("1 timotheus", "1Timothy"), ("1timothy", "1Timothy"), ("1 timothy", "1Timothy"), 
   ("1tim", "1Timothy"), ("1 tim", "1Timothy"), ("1ti", "1Timothy"), 
   ("i timoteus", "1Timothy"), ("i tim", "1Timothy"), ("1tm", "1Timothy"), 
   ("2 timoteus", "2Timothy"), ("2 timotheus", "2Timothy"), ("2timothy", "2Timothy"), 
   ("2 timothy", "2Timothy"), ("2tim", "2Timothy"), ("2 tim", "2Timothy"), ("2ti", "2Timothy"), 
   ("ii timoteus", "2Timothy"), ("ii tim", "2Timothy"), ("2tm", "2Timothy"), 
   ("titus", "Titus"), ("tit", "Titus"), ("ti", "Titus"), ("tt", "Titus"), 
   ("filemon", "Philemon"), ("philemon", "Philemon"), ("filem", "Philemon"), 
   ("flm", "Philemon"), ("phm", "Philemon"), ("pm", "Philemon"), ("phlm", "Philemon"), 
   ("hebreeen", "Hebrews"), ("hebrews", "Hebrews"), ("hebr", "Hebrews"), ("heb", "Hebrews"), 
   ("he", "Hebrews"), ("jakobus", "James"), ("jacobus", "James"), ("james", "James"), 
   ("jak", "James"), ("jac", "James"), ("jas", "James"), ("jms", "James"), ("jam", "James"), 
   ("jm", "James"), ("1 petrus", "1Peter"), ("1peter", "1Peter"), ("1 peter", "1Peter"), 
   ("1 petr", "1Peter"), ("1 pet", "1Peter"), ("1pe", "1Peter"), ("i petrus", "1Peter"), 
   ("i petr", "1Peter"), ("i pet", "1Peter"), ("1pt", "1Peter"), ("1p", "1Peter"), 
   ("2 petrus", "2Peter"), ("2peter", "2Peter"), ("2 peter", "2Peter"), ("2 petr", "2Peter"), 
   ("2 pet", "2Peter"), ("2pe", "2Peter"), ("ii petrus", "2Peter"), ("ii petr", "2Peter"), 
   ("ii pet", "2Peter"), ("2pt", "2Peter"), ("2p", "2Peter"), ("1 johannes", "1John"), 
   ("1john", "1John"), ("1 john", "1John"), ("1joh", "1John"), ("1 joh", "1John"), 
   ("1jn", "1John"), ("i johannes", "1John"), ("i joh", "1John"), ("1j", "1John"), 
   ("2 johannes", "2John"), ("2john", "2John"), ("2 john", "2John"), ("2joh", "2John"), 
   ("2 joh", "2John"), ("2jn", "2John"), ("ii johannes", "2John"), ("ii joh", "2John"), 
   ("2j", "2John"), ("3 johannes", "3John"), ("3john", "3John"), ("3 john", "3John"), 
   ("3joh", "3John"), ("3 joh", "3John"), ("3jn", "3John"), ("iii johannes", "3John"), 
   ("iii joh", "3John"), ("3j", "3John"), ("judas", "Jude"), ("jude", "Jude"), ("jud", "Jude"), 
   ("jd", "Jude"), ("openbaring", "Revelation"), ("revelation", "Revelation"), 
   ("openb", "Revelation"), ("opb", "Revelation"), ("op", "Revelation"), 
   ("apocalyps", "Revelation"), ("apokalyps", "Revelation"), ("rev", "Revelation"), 
   ("re", "Revelation"), ("rv", "Revelation")]

def APOCRYPHAL_BOOKS : List (String × String) :=
  [("tobit", "Tobit"), ("tobias", "Tobit"), ("tob", "Tobit"), ("judit", "Judith"), 
   ("judith", "Judith"), ("jdt", "Judith"), ("wijsheid", "Wisdom"), 
   ("wijsheid van salomo", "Wisdom"), ("wijsh", "Wisdom"), ("wis", "Wisdom"), 
   ("sirach", "Sirach"), ("jezus sirach", "Sirach"), ("jesus sirach", "Sirach"), 
   ("sir", "Sirach"), ("ecclesiasticus", "Sirach"), ("eccli", "Sirach"), ("baruch", "Baruch"), 
   ("bar", "Baruch"), ("brief van jeremia", "Letter of Jeremiah"), 
   ("brief van jeremias", "Letter of Jeremiah"), ("brief jeremia", "Letter of Jeremiah"), 
   ("letjer", "Letter of Jeremiah"), ("1 makkabeeen", "1Maccabees"), 
   ("1 makkabeen", "1Maccabees"), ("1 makk", "1Maccabees"), ("1 mak", "1Maccabees"), 
   ("1macc", "1Maccabees"), ("1 maccabeeen", "1Maccabees"), ("2 makkabeeen", "2Maccabees"), 
   ("2 makkabeen", "2Maccabees"), ("2 makk", "2Maccabees"), ("2 mak", "2Maccabees"), 
   ("2macc", "2Maccabees"), ("2 maccabeeen", "2Maccabees"), ("3 makkabeeen", "3Maccabees"), 
   ("3 makkabeen", "3Maccabees"), ("3 makk", "3Maccabees"), ("3 mak", "3Maccabees"), 
   ("3macc", "3Maccabees"), ("3 maccabeeen", "3Maccabees"), ("4 makkabeeen", "4Maccabees"), 
   ("4 makkabeen", "4Maccabees"), ("4 makk", "4Maccabees"), ("4 mak", "4Maccabees"), 
   ("4macc", "4Maccabees"), ("4 maccabeeen", "4Maccabees"), 
   ("toevoegingen bij ester", "Additions to Esther"), 
   ("toevoegingen bij esther", "Additions to Esther"), ("addesther", "Additions to Esther"), 
   ("gebed van azarja", "Prayer of Azariah"), ("gebed azarja", "Prayer of Azariah"), 
   ("azariah", "Prayer of Azariah"), ("song of the three", "Prayer of Azariah"), 
   ("songofthree", "Prayer of Azariah"), ("susanna", "Susanna"), ("sus", "Susanna"), 
   ("bel en de draak", "Bel and the Dragon"), ("bel en draak", "Bel and the Dragon"), 
   ("belandthedragon", "Bel and the Dragon"), ("gebed van manasse", "Prayer of Manasseh"), 
   ("manasse", "Prayer of Manasseh")]

/-- Join tokens with single spaces (`" ".join(...)`). -/
def joinSp (ts : List String) : String := String.intercalate (" ") ts

/-- `s.replace(" ", "")`. -/
def removeSpaces (s : String) : String := ⟨s.data.filter (fun c => c ≠ ' ')⟩

/-- Membership test `key in mapping` for the Python dict modelled as its
insertion-ordered binding list. -/
def dictMem (k : String) (l : List (String × String)) : Bool :=
  l.any (fun p => p.1 = k)

/-- Python dict lookup `mapping[key]` for the binding list: the value of the
LAST binding of the key (later assignments override earlier ones). -/
def lookupLast (k : String) (l : List (String × String)) : Option String :=
  l.foldl (fun acc p => if p.1 = k then some p.2 else acc) none

/-- `build_book_mapping`: canonical books, optionally the apocrypha, and for
every key also its normalized and space-free normalized variants, in
insertion order. -/
def build_book_mapping (includeApocrypha : Bool) : List (String × String) :=
  (CANONICAL_BOOKS ++ (if includeApocrypha then APOCRYPHAL_BOOKS else [])).flatMap
    (fun kv =>
      [(kv.1, kv.2), (normalize_text kv.1, kv.2),
       (removeSpaces (normalize_text kv.1), kv.2)])

/-- Error taxonomy of the `ValueError`s raised by `dutch-diatheke.py`. -/
inductive RefError
  | emptyReference
  | invalidFormat
  | unknownBook (tok : String)
  | noBookContext (frag : String)
  | noContext (frag : String)
deriving DecidableEq, Repr

/-- The book-matching loop of `parse_reference`: for `i` from the number of
tokens down to 1, try the first `i` tokens joined with spaces, then without
spaces; return the candidate length together with the key that hit. -/
def matchBookAux (mapping : List (String × String)) (tokens : List String) :
    Nat → Option (Nat × String)
  | 0 => none
  | i + 1 =>
    let pb := joinSp (tokens.take (i + 1))
    if dictMem pb mapping then some (i + 1, pb)
    else
      let pbn := removeSpaces pb
      if dictMem pbn mapping then some (i + 1, pbn)
      else matchBookAux mapping tokens i

/-- The fixed single-chapter book set of `parse_reference`. -/
def singleChapterBooks : List String :=
  ["Jude", "Obadiah", "Philemon", "2John", "3John"]

/-- The token list `normalize_text(reference).split()` of `parse_reference`. -/
def tokensOf (reference : String) : List String :=
  (pyWords (normalize_text reference).data).map (fun w => (⟨w⟩ : String))

/-- `parse_reference(reference, include_apocrypha)`, parameterized by the
built mapping (the source rebuilds the same immutable mapping value on each
call). -/
def parseReferenceWith (mapping : List (String × String)) (reference : String) :
    Except RefError String :=
  if pyStrip reference.data = [] then .error .emptyReference
  else
    let tokens := tokensOf reference
    if tokens.isEmpty then .error .invalidFormat
    else
      match matchBookAux mapping tokens tokens.length with
      | none => .error (.unknownBook (tokens.headD ("")))
      | some (i, key) =>
        let english := (lookupLast key mapping).getD ("")
        let rest := joinSp (tokens.drop i)
        if rest = "" then .ok english
        else if !rest.data.contains ':' && !(pyStrip rest.data).isEmpty &&
            singleChapterBooks.contains english then
          .ok (english ++ " 1:" ++ (⟨pyStrip rest.data⟩ : String))
        else .ok (english ++ " " ++ (⟨pyStrip rest.data⟩ : String))

/-- `parse_reference(reference, include_apocrypha)`. -/
def parse_reference (includeApocrypha : Bool) (reference : String) :
    Except RefError String :=
  parseReferenceWith (build_book_mapping includeApocrypha) reference

/-- The value of `build_book_mapping false`, tabulated in chunks so that
concrete evaluations need not re-normalize every alias key at each lookup
(see `build_book_mapping_false_eval`). -/
def mapLit1 : List (String × String) :=
  [("genesis", "Genesis"), ("genesis", "Genesis"), ("genesis", "Genesis"), ("gen", "Genesis"),
   ("gen", "Genesis"), ("gen", "Genesis"), ("ge", "Genesis"), ("ge", "Genesis"),
   ("ge", "Genesis"), ("gn", "Genesis"), ("gn", "Genesis"), ("gn", "Genesis"),
   ("exodus", "Exodus"), ("exodus", "Exodus"), ("exodus", "Exodus"), ("ex", "Exodus"),
   ("ex", "Exodus"), ("ex", "Exodus"), ("exo", "Exodus"), ("exo", "Exodus"), ("exo", "Exodus"),
   ("exod", "Exodus"), ("exod", "Exodus"), ("exod", "Exodus"), ("leviticus", "Leviticus"),
   ("leviticus", "Leviticus"), ("leviticus", "Leviticus"), ("lev", "Leviticus"),
   ("lev", "Leviticus"), ("lev", "Leviticus"), ("le", "Leviticus"), ("le", "Leviticus"),
   ("le", "Leviticus"), ("levit", "Leviticus"), ("levit", "Leviticus"), ("levit", "Leviticus"),
   ("lv", "Leviticus"), ("lv", "Leviticus"), ("lv", "Leviticus"), ("numeri", "Numbers"),
   ("numeri", "Numbers"), ("numeri", "Numbers"), ("numbers", "Numbers"), ("numbers", "Numbers"),
   ("numbers", "Numbers"), ("num", "Numbers"), ("num", "Numbers"), ("num", "Numbers"),
   ("nu", "Numbers"), ("nu", "Numbers"), ("nu", "Numbers"), ("numb", "Numbers"),
   ("numb", "Numbers"), ("numb", "Numbers"), ("nm", "Numbers"), ("nm", "Numbers"),
   ("nm", "Numbers"), ("nb", "Numbers"), ("nb", "Numbers"), ("nb", "Numbers"),
   ("deuteronomium", "Deuteronomy"), ("deuteronomium", "Deuteronomy"),
   ("deuteronomium", "Deuteronomy"), ("deuteronomy", "Deuteronomy"),
   ("deuteronomy", "Deuteronomy"), ("deuteronomy", "Deuteronomy"), ("deut", "Deuteronomy"),
   ("deut", "Deuteronomy"), ("deut", "Deuteronomy"), ("deu", "Deuteronomy"),
   ("deu", "Deuteronomy"), ("deu", "Deuteronomy"), ("dt", "Deuteronomy"), ("dt", "Deuteronomy"),
   ("dt", "Deuteronomy"), ("jozua", "Joshua"), ("jozua", "Joshua"), ("jozua", "Joshua"),
   ("joshua", "Joshua"), ("joshua", "Joshua"), ("joshua", "Joshua"), ("joz", "Joshua"),
   ("joz", "Joshua"), ("joz", "Joshua"), ("jos", "Joshua"), ("jos", "Joshua"), ("jos", "Joshua"),
   ("jo", "Joshua"), ("jo", "Joshua"), ("jo", "Joshua"), ("josh", "Joshua"), ("josh", "Joshua"),
   ("josh", "Joshua"), ("richteren", "Judges"), ("richteren", "Judges"), ("richteren", "Judges"),
   ("rechters", "Judges"), ("rechters", "Judges"), ("rechters", "Judges"), ("richt", "Judges"),
   ("richt", "Judges"), ("richt", "Judges"), ("rech", "Judges"), ("rech", "Judges"),
   ("rech", "Judges"), ("ri", "Judges"), ("ri", "Judges"), ("ri", "Judges"),
   ("judges", "Judges"), ("judges", "Judges"), ("judges", "Judges"), ("judg", "Judges"),
   ("judg", "Judges"), ("judg", "Judges"), ("jdg", "Judges"), ("jdg", "Judges"),
   ("jdg", "Judges"), ("jgs", "Judges"), ("jgs", "Judges"), ("jgs", "Judges"), ("ruth", "Ruth"),
   ("ruth", "Ruth"), ("ruth", "Ruth"), ("ru", "Ruth"), ("ru", "Ruth"), ("ru", "Ruth"),
   ("rt", "Ruth"), ("rt", "Ruth"), ("rt", "Ruth"), ("rut", "Ruth"), ("rut", "Ruth"),
   ("rut", "Ruth"), ("rth", "Ruth"), ("rth", "Ruth"), ("rth", "Ruth"), ("1 samuel", "1Samuel"),
   ("1 samuel", "1Samuel"), ("1samuel", "1Samuel"), ("1 samuelconsole", "1Samuel"),
   ("1 samuelconsole", "1Samuel"), ("1samuelconsole", "1Samuel"), ("1sam", "1Samuel"),
   ("1 sam", "1Samuel"), ("1sam", "1Samuel"), ("1 sam", "1Samuel"), ("1 sam", "1Samuel"),
   ("1sam", "1Samuel"), ("i samuel", "1Samuel"), ("1 samuel", "1Samuel"), ("1samuel", "1Samuel"),
   ("i sam", "1Samuel"), ("1 sam", "1Samuel"), ("1sam", "1Samuel"), ("1 sm", "1Samuel"),
   ("1 sm", "1Samuel"), ("1sm", "1Samuel"), ("1sa", "1Samuel"), ("1 sa", "1Samuel"),
   ("1sa", "1Samuel"), ("1s", "1Samuel"), ("1 s", "1Samuel"), ("1s", "1Samuel"),
   ("2 samuel", "2Samuel"), ("2 samuel", "2Samuel"), ("2samuel", "2Samuel"),
   ("2 samuelconsole", "2Samuel"), ("2 samuelconsole", "2Samuel"), ("2samuelconsole", "2Samuel"),
   ("2sam", "2Samuel"), ("2 sam", "2Samuel"), ("2sam", "2Samuel"), ("2 sam", "2Samuel"),
   ("2 sam", "2Samuel"), ("2sam", "2Samuel"), ("ii samuel", "2Samuel"), ("2 samuel", "2Samuel"),
   ("2samuel", "2Samuel"), ("ii sam", "2Samuel"), ("2 sam", "2Samuel"), ("2sam", "2Samuel"),
   ("2 sm", "2Samuel"), ("2 sm", "2Samuel"), ("2sm", "2Samuel"), ("2sa", "2Samuel"),
   ("2 sa", "2Samuel"), ("2sa", "2Samuel"), ("2s", "2Samuel"), ("2 s", "2Samuel"),
   ("2s", "2Samuel"), ("1 koningen", "1Kings"), ("1 koningen", "1Kings"),
   ("1koningen", "1Kings"), ("1kings", "1Kings"), ("1 kings", "1Kings"), ("1kings", "1Kings"),
   ("1 kings", "1Kings"), ("1 kings", "1Kings"), ("1kings", "1Kings"), ("1kon", "1Kings"),
   ("1 kon", "1Kings")]

def mapLit2 : List (String × String) :=
  [("1kon", "1Kings"), ("1 kon", "1Kings"), ("1 kon", "1Kings"), ("1kon", "1Kings"),
   ("i koningen", "1Kings"), ("1 koningen", "1Kings"), ("1koningen", "1Kings"),
   ("i kon", "1Kings"), ("1 kon", "1Kings"), ("1kon", "1Kings"), ("1kgs", "1Kings"),
   ("1 kgs", "1Kings"), ("1kgs", "1Kings"), ("1 kgs", "1Kings"), ("1 kgs", "1Kings"),
   ("1kgs", "1Kings"), ("1ki", "1Kings"), ("1 ki", "1Kings"), ("1ki", "1Kings"),
   ("1k", "1Kings"), ("1 k", "1Kings"), ("1k", "1Kings"), ("2 koningen", "2Kings"),
   ("2 koningen", "2Kings"), ("2koningen", "2Kings"), ("2kings", "2Kings"),
   ("2 kings", "2Kings"), ("2kings", "2Kings"), ("2 kings", "2Kings"), ("2 kings", "2Kings"),
   ("2kings", "2Kings"), ("2kon", "2Kings"), ("2 kon", "2Kings"), ("2kon", "2Kings"),
   ("2 kon", "2Kings"), ("2 kon", "2Kings"), ("2kon", "2Kings"), ("ii koningen", "2Kings"),
   ("2 koningen", "2Kings"), ("2koningen", "2Kings"), ("ii kon", "2Kings"), ("2 kon", "2Kings"),
   ("2kon", "2Kings"), ("2kgs", "2Kings"), ("2 kgs", "2Kings"), ("2kgs", "2Kings"),
   ("2 kgs", "2Kings"), ("2 kgs", "2Kings"), ("2kgs", "2Kings"), ("2ki", "2Kings"),
   ("2 ki", "2Kings"), ("2ki", "2Kings"), ("2k", "2Kings"), ("2 k", "2Kings"), ("2k", "2Kings"),
   ("1 kronieken", "1Chronicles"), ("1 kronieken", "1Chronicles"), ("1kronieken", "1Chronicles"),
   ("1chronicles", "1Chronicles"), ("1 chronicles", "1Chronicles"),
   ("1chronicles", "1Chronicles"), ("1 chronicles", "1Chronicles"),
   ("1 chronicles", "1Chronicles"), ("1chronicles", "1Chronicles"), ("1kron", "1Chronicles"),
   ("1 kron", "1Chronicles"), ("1kron", "1Chronicles"), ("1 kron", "1Chronicles"),
   ("1 kron", "1Chronicles"), ("1kron", "1Chronicles"), ("1 kr", "1Chronicles"),
   ("1 kr", "1Chronicles"), ("1kr", "1Chronicles"), ("i kronieken", "1Chronicles"),
   ("1 kronieken", "1Chronicles"), ("1kronieken", "1Chronicles"), ("i kron", "1Chronicles"),
   ("1 kron", "1Chronicles"), ("1kron", "1Chronicles"), ("1chr", "1Chronicles"),
   ("1 chr", "1Chronicles"), ("1chr", "1Chronicles"), ("1 chr", "1Chronicles"),
   ("1 chr", "1Chronicles"), ("1chr", "1Chronicles"), ("1chron", "1Chronicles"),
   ("1 chron", "1Chronicles"), ("1chron", "1Chronicles"), ("1 chron", "1Chronicles"),
   ("1 chron", "1Chronicles"), ("1chron", "1Chronicles"), ("1ch", "1Chronicles"),
   ("1 ch", "1Chronicles"), ("1ch", "1Chronicles"), ("2 kronieken", "2Chronicles"),
   ("2 kronieken", "2Chronicles"), ("2kronieken", "2Chronicles"), ("2chronicles", "2Chronicles"),
   ("2 chronicles", "2Chronicles"), ("2chronicles", "2Chronicles"),
   ("2 chronicles", "2Chronicles"), ("2 chronicles", "2Chronicles"),
   ("2chronicles", "2Chronicles"), ("2kron", "2Chronicles"), ("2 kron", "2Chronicles"),
   ("2kron", "2Chronicles"), ("2 kron", "2Chronicles"), ("2 kron", "2Chronicles"),
   ("2kron", "2Chronicles"), ("2 kr", "2Chronicles"), ("2 kr", "2Chronicles"),
   ("2kr", "2Chronicles"), ("ii kronieken", "2Chronicles"), ("2 kronieken", "2Chronicles"),
   ("2kronieken", "2Chronicles"), ("ii kron", "2Chronicles"), ("2 kron", "2Chronicles"),
   ("2kron", "2Chronicles"), ("2chr", "2Chronicles"), ("2 chr", "2Chronicles"),
   ("2chr", "2Chronicles"), ("2 chr", "2Chronicles"), ("2 chr", "2Chronicles"),
   ("2chr", "2Chronicles"), ("2chron", "2Chronicles"), ("2 chron", "2Chronicles"),
   ("2chron", "2Chronicles"), ("2 chron", "2Chronicles"), ("2 chron", "2Chronicles"),
   ("2chron", "2Chronicles"), ("2ch", "2Chronicles"), ("2 ch", "2Chronicles"),
   ("2ch", "2Chronicles"), ("ezra", "Ezra"), ("ezra", "Ezra"), ("ezra", "Ezra"), ("ezr", "Ezra"),
   ("ezr", "Ezra"), ("ezr", "Ezra"), ("ez", "Ezra"), ("ez", "Ezra"), ("ez", "Ezra"),
   ("nehemia", "Nehemiah"), ("nehemia", "Nehemiah"), ("nehemia", "Nehemiah"),
   ("nehemiah", "Nehemiah"), ("nehemiah", "Nehemiah"), ("nehemiah", "Nehemiah"),
   ("neh", "Nehemiah"), ("neh", "Nehemiah"), ("neh", "Nehemiah"), ("ne", "Nehemiah"),
   ("ne", "Nehemiah"), ("ne", "Nehemiah"), ("ester", "Esther"), ("ester", "Esther"),
   ("ester", "Esther"), ("esther", "Esther"), ("esther", "Esther"), ("esther", "Esther"),
   ("est", "Esther"), ("est", "Esther"), ("est", "Esther"), ("es", "Esther"), ("es", "Esther"),
   ("es", "Esther"), ("job", "Job"), ("job", "Job"), ("job", "Job"), ("jb", "Job"),
   ("jb", "Job"), ("jb", "Job"), ("psalm", "Psalms"), ("psalm", "Psalms"), ("psalm", "Psalms"),
   ("psalms", "Psalms"), ("psalms", "Psalms"), ("psalms", "Psalms"), ("psalmen", "Psalms"),
   ("psalmen", "Psalms"), ("psalmen", "Psalms"), ("ps", "Psalms"), ("ps", "Psalms"),
   ("ps", "Psalms"), ("psa", "Psalms"), ("psa", "Psalms"), ("psa", "Psalms"), ("pss", "Psalms"),
   ("pss", "Psalms"), ("pss", "Psalms"), ("psm", "Psalms"), ("psm", "Psalms"), ("psm", "Psalms"),
   ("spreuken", "Proverbs"), ("spreuken", "Proverbs"), ("spreuken", "Proverbs"),
   ("proverbs", "Proverbs"), ("proverbs", "Proverbs"), ("proverbs", "Proverbs"),
   ("spr", "Proverbs")]

def mapLit3 : List (String × String) :=
  [("spr", "Proverbs"), ("spr", "Proverbs"), ("sp", "Proverbs"), ("sp", "Proverbs"),
   ("sp", "Proverbs"), ("prov", "Proverbs"), ("prov", "Proverbs"), ("prov", "Proverbs"),
   ("pro", "Proverbs"), ("pro", "Proverbs"), ("pro", "Proverbs"), ("pr", "Proverbs"),
   ("pr", "Proverbs"), ("pr", "Proverbs"), ("prv", "Proverbs"), ("prv", "Proverbs"),
   ("prv", "Proverbs"), ("prediker", "Ecclesiastes"), ("prediker", "Ecclesiastes"),
   ("prediker", "Ecclesiastes"), ("ecclesiastes", "Ecclesiastes"),
   ("ecclesiastes", "Ecclesiastes"), ("ecclesiastes", "Ecclesiastes"), ("pred", "Ecclesiastes"),
   ("pred", "Ecclesiastes"), ("pred", "Ecclesiastes"), ("eccl", "Ecclesiastes"),
   ("eccl", "Ecclesiastes"), ("eccl", "Ecclesiastes"), ("ecc", "Ecclesiastes"),
   ("ecc", "Ecclesiastes"), ("ecc", "Ecclesiastes"), ("ec", "Ecclesiastes"),
   ("ec", "Ecclesiastes"), ("ec", "Ecclesiastes"), ("qoh", "Ecclesiastes"),
   ("qoh", "Ecclesiastes"), ("qoh", "Ecclesiastes"), ("hooglied", "Song of Solomon"),
   ("hooglied", "Song of Solomon"), ("hooglied", "Song of Solomon"),
   ("song of solomon", "Song of Solomon"), ("song of solomon", "Song of Solomon"),
   ("songofsolomon", "Song of Solomon"), ("song of songs", "Song of Solomon"),
   ("song of songs", "Song of Solomon"), ("songofsongs", "Song of Solomon"),
   ("hoogl", "Song of Solomon"), ("hoogl", "Song of Solomon"), ("hoogl", "Song of Solomon"),
   ("hl", "Song of Solomon"), ("hl", "Song of Solomon"), ("hl", "Song of Solomon"),
   ("lied der liederen", "Song of Solomon"), ("lied der liederen", "Song of Solomon"),
   ("liedderliederen", "Song of Solomon"), ("ldl", "Song of Solomon"),
   ("ldl", "Song of Solomon"), ("ldl", "Song of Solomon"), ("sos", "Song of Solomon"),
   ("sos", "Song of Solomon"), ("sos", "Song of Solomon"), ("ss", "Song of Solomon"),
   ("ss", "Song of Solomon"), ("ss", "Song of Solomon"), ("cant", "Song of Solomon"),
   ("cant", "Song of Solomon"), ("cant", "Song of Solomon"), ("song", "Song of Solomon"),
   ("song", "Song of Solomon"), ("song", "Song of Solomon"), ("jesaja", "Isaiah"),
   ("jesaja", "Isaiah"), ("jesaja", "Isaiah"), ("isaiah", "Isaiah"), ("isaiah", "Isaiah"),
   ("isaiah", "Isaiah"), ("jes", "Isaiah"), ("jes", "Isaiah"), ("jes", "Isaiah"),
   ("js", "Isaiah"), ("js", "Isaiah"), ("js", "Isaiah"), ("isa", "Isaiah"), ("isa", "Isaiah"),
   ("isa", "Isaiah"), ("is", "Isaiah"), ("is", "Isaiah"), ("is", "Isaiah"),
   ("jeremia", "Jeremiah"), ("jeremia", "Jeremiah"), ("jeremia", "Jeremiah"),
   ("jeremiah", "Jeremiah"), ("jeremiah", "Jeremiah"), ("jeremiah", "Jeremiah"),
   ("jer", "Jeremiah"), ("jer", "Jeremiah"), ("jer", "Jeremiah"), ("je", "Jeremiah"),
   ("je", "Jeremiah"), ("je", "Jeremiah"), ("klaagliederen", "Lam"), ("klaagliederen", "Lam"),
   ("klaagliederen", "Lam"), ("lamentations", "Lam"), ("lamentations", "Lam"),
   ("lamentations", "Lam"), ("klaagl", "Lam"), ("klaagl", "Lam"), ("klaagl", "Lam"),
   ("kla", "Lam"), ("kla", "Lam"), ("kla", "Lam"), ("lam", "Lam"), ("lam", "Lam"),
   ("lam", "Lam"), ("la", "Lam"), ("la", "Lam"), ("la", "Lam"), ("ezechiel", "Ezekiel"),
   ("ezechiel", "Ezekiel"), ("ezechiel", "Ezekiel"), ("ezekiel", "Ezekiel"),
   ("ezekiel", "Ezekiel"), ("ezekiel", "Ezekiel"), ("ezech", "Ezekiel"), ("ezech", "Ezekiel"),
   ("ezech", "Ezekiel"), ("eze", "Ezekiel"), ("eze", "Ezekiel"), ("eze", "Ezekiel"),
   ("ezk", "Ezekiel"), ("ezk", "Ezekiel"), ("ezk", "Ezekiel"), ("ek", "Ezekiel"),
   ("ek", "Ezekiel"), ("ek", "Ezekiel"), ("daniel", "Daniel"), ("daniel", "Daniel"),
   ("daniel", "Daniel"), ("dan", "Daniel"), ("dan", "Daniel"), ("dan", "Daniel"),
   ("dn", "Daniel"), ("dn", "Daniel"), ("dn", "Daniel"), ("da", "Daniel"), ("da", "Daniel"),
   ("da", "Daniel"), ("hosea", "Hosea"), ("hosea", "Hosea"), ("hosea", "Hosea"),
   ("hos", "Hosea"), ("hos", "Hosea"), ("hos", "Hosea"), ("ho", "Hosea"), ("ho", "Hosea"),
   ("ho", "Hosea"), ("joel", "Joel"), ("joel", "Joel"), ("joel", "Joel"), ("jl", "Joel"),
   ("jl", "Joel"), ("jl", "Joel"), ("joe", "Joel"), ("joe", "Joel"), ("joe", "Joel"),
   ("jol", "Joel"), ("jol", "Joel"), ("jol", "Joel"), ("amos", "Amos"), ("amos", "Amos"),
   ("amos", "Amos"), ("am", "Amos"), ("am", "Amos"), ("am", "Amos"), ("amo", "Amos"),
   ("amo", "Amos"), ("amo", "Amos"), ("obadja", "Obadiah"), ("obadja", "Obadiah"),
   ("obadja", "Obadiah"), ("obadiah", "Obadiah"), ("obadiah", "Obadiah"), ("obadiah", "Obadiah"),
   ("ob", "Obadiah"), ("ob", "Obadiah"), ("ob", "Obadiah"), ("obad", "Obadiah"),
   ("obad", "Obadiah"), ("obad", "Obadiah"), ("oba", "Obadiah"), ("oba", "Obadiah"),
   ("oba", "Obadiah"), ("jona", "Jonah"), ("jona", "Jonah"), ("jona", "Jonah"),
   ("jonah", "Jonah"), ("jonah", "Jonah"), ("jonah", "Jonah")]

def mapLit4 : List (String × String) :=
  [("jon", "Jonah"), ("jon", "Jonah"), ("jon", "Jonah"), ("jnh", "Jonah"), ("jnh", "Jonah"),
   ("jnh", "Jonah"), ("micha", "Micah"), ("micha", "Micah"), ("micha", "Micah"),
   ("micah", "Micah"), ("micah", "Micah"), ("micah", "Micah"), ("mi", "Micah"), ("mi", "Micah"),
   ("mi", "Micah"), ("mic", "Micah"), ("mic", "Micah"), ("mic", "Micah"), ("nahum", "Nahum"),
   ("nahum", "Nahum"), ("nahum", "Nahum"), ("nah", "Nahum"), ("nah", "Nahum"), ("nah", "Nahum"),
   ("na", "Nahum"), ("na", "Nahum"), ("na", "Nahum"), ("nah", "Nahum"), ("nah", "Nahum"),
   ("nah", "Nahum"), ("habakuk", "Habakkuk"), ("habakuk", "Habakkuk"), ("habakuk", "Habakkuk"),
   ("habakkuk", "Habakkuk"), ("habakkuk", "Habakkuk"), ("habakkuk", "Habakkuk"),
   ("hab", "Habakkuk"), ("hab", "Habakkuk"), ("hab", "Habakkuk"), ("hb", "Habakkuk"),
   ("hb", "Habakkuk"), ("hb", "Habakkuk"), ("sefanja", "Zephaniah"), ("sefanja", "Zephaniah"),
   ("sefanja", "Zephaniah"), ("zefanja", "Zephaniah"), ("zefanja", "Zephaniah"),
   ("zefanja", "Zephaniah"), ("zephaniah", "Zephaniah"), ("zephaniah", "Zephaniah"),
   ("zephaniah", "Zephaniah"), ("sef", "Zephaniah"), ("sef", "Zephaniah"), ("sef", "Zephaniah"),
   ("zef", "Zephaniah"), ("zef", "Zephaniah"), ("zef", "Zephaniah"), ("zep", "Zephaniah"),
   ("zep", "Zephaniah"), ("zep", "Zephaniah"), ("zph", "Zephaniah"), ("zph", "Zephaniah"),
   ("zph", "Zephaniah"), ("haggai", "Haggai"), ("haggai", "Haggai"), ("haggai", "Haggai"),
   ("hag", "Haggai"), ("hag", "Haggai"), ("hag", "Haggai"), ("hg", "Haggai"), ("hg", "Haggai"),
   ("hg", "Haggai"), ("zacharia", "Zechariah"), ("zacharia", "Zechariah"),
   ("zacharia", "Zechariah"), ("zechariah", "Zechariah"), ("zechariah", "Zechariah"),
   ("zechariah", "Zechariah"), ("zach", "Zechariah"), ("zach", "Zechariah"),
   ("zach", "Zechariah"), ("zac", "Zechariah"), ("zac", "Zechariah"), ("zac", "Zechariah"),
   ("zec", "Zechariah"), ("zec", "Zechariah"), ("zec", "Zechariah"), ("zch", "Zechariah"),
   ("zch", "Zechariah"), ("zch", "Zechariah"), ("maleachi", "Malachi"), ("maleachi", "Malachi"),
   ("maleachi", "Malachi"), ("malachi", "Malachi"), ("malachi", "Malachi"),
   ("malachi", "Malachi"), ("mal", "Malachi"), ("mal", "Malachi"), ("mal", "Malachi"),
   ("matteus", "Matthew"), ("matteus", "Matthew"), ("matteus", "Matthew"),
   ("mattheüs", "Matthew"), ("mattheus", "Matthew"), ("mattheus", "Matthew"),
   ("matthéüs", "Matthew"), ("mattheus", "Matthew"), ("mattheus", "Matthew"),
   ("matth", "Matthew"), ("matth", "Matthew"), ("matth", "Matthew"), ("matthew", "Matthew"),
   ("matthew", "Matthew"), ("matthew", "Matthew"), ("mat", "Matthew"), ("mat", "Matthew"),
   ("mat", "Matthew"), ("matt", "Matthew"), ("matt", "Matthew"), ("matt", "Matthew"),
   ("mt", "Matthew"), ("mt", "Matthew"), ("mt", "Matthew"), ("marcus", "Mark"),
   ("marcus", "Mark"), ("marcus", "Mark"), ("markus", "Mark"), ("markus", "Mark"),
   ("markus", "Mark"), ("mark", "Mark"), ("mark", "Mark"), ("mark", "Mark"), ("mar", "Mark"),
   ("mar", "Mark"), ("mar", "Mark"), ("marc", "Mark"), ("marc", "Mark"), ("marc", "Mark"),
   ("mr", "Mark"), ("mr", "Mark"), ("mr", "Mark"), ("mk", "Mark"), ("mk", "Mark"),
   ("mk", "Mark"), ("mrk", "Mark"), ("mrk", "Mark"), ("mrk", "Mark"), ("lucas", "Luke"),
   ("lucas", "Luke"), ("lucas", "Luke"), ("lukas", "Luke"), ("lukas", "Luke"), ("lukas", "Luke"),
   ("luke", "Luke"), ("luke", "Luke"), ("luke", "Luke"), ("luc", "Luke"), ("luc", "Luke"),
   ("luc", "Luke"), ("lc", "Luke"), ("lc", "Luke"), ("lc", "Luke"), ("lu", "Luke"),
   ("lu", "Luke"), ("lu", "Luke"), ("luk", "Luke"), ("luk", "Luke"), ("luk", "Luke"),
   ("lk", "Luke"), ("lk", "Luke"), ("lk", "Luke"), ("johannes", "John"), ("johannes", "John"),
   ("johannes", "John"), ("john", "John"), ("john", "John"), ("john", "John"), ("joh", "John"),
   ("joh", "John"), ("joh", "John"), ("jn", "John"), ("jn", "John"), ("jn", "John"),
   ("handelingen", "Acts"), ("handelingen", "Acts"), ("handelingen", "Acts"), ("acts", "Acts"),
   ("acts", "Acts"), ("acts", "Acts"), ("hand", "Acts"), ("hand", "Acts"), ("hand", "Acts"),
   ("hd", "Acts"), ("hd", "Acts"), ("hd", "Acts"), ("hnd", "Acts"), ("hnd", "Acts"),
   ("hnd", "Acts"), ("ac", "Acts"), ("ac", "Acts")]

def mapLit5 : List (String × String) :=
  [("ac", "Acts"), ("act", "Acts"), ("act", "Acts"), ("act", "Acts"), ("romeinen", "Romans"),
   ("romeinen", "Romans"), ("romeinen", "Romans"), ("romans", "Romans"), ("romans", "Romans"),
   ("romans", "Romans"), ("rom", "Romans"), ("rom", "Romans"), ("rom", "Romans"),
   ("rm", "Romans"), ("rm", "Romans"), ("rm", "Romans"), ("ro", "Romans"), ("ro", "Romans"),
   ("ro", "Romans"), ("1 korinthe", "1Corinthians"), ("1 korinthe", "1Corinthians"),
   ("1korinthe", "1Corinthians"), ("1 korintiers", "1Corinthians"),
   ("1 korintiers", "1Corinthians"), ("1korintiers", "1Corinthians"),
   ("1corinthians", "1Corinthians"), ("1 corinthians", "1Corinthians"),
   ("1corinthians", "1Corinthians"), ("1 corinthians", "1Corinthians"),
   ("1 corinthians", "1Corinthians"), ("1corinthians", "1Corinthians"), ("1kor", "1Corinthians"),
   ("1 kor", "1Corinthians"), ("1kor", "1Corinthians"), ("1 kor", "1Corinthians"),
   ("1 kor", "1Corinthians"), ("1kor", "1Corinthians"), ("1 cor", "1Corinthians"),
   ("1 cor", "1Corinthians"), ("1cor", "1Corinthians"), ("1cor", "1Corinthians"),
   ("1 cor", "1Corinthians"), ("1cor", "1Corinthians"), ("i korinthe", "1Corinthians"),
   ("1 korinthe", "1Corinthians"), ("1korinthe", "1Corinthians"), ("i kor", "1Corinthians"),
   ("1 kor", "1Corinthians"), ("1kor", "1Corinthians"), ("1co", "1Corinthians"),
   ("1 co", "1Corinthians"), ("1co", "1Corinthians"), ("2 korinthe", "2Corinthians"),
   ("2 korinthe", "2Corinthians"), ("2korinthe", "2Corinthians"),
   ("2 korintiers", "2Corinthians"), ("2 korintiers", "2Corinthians"),
   ("2korintiers", "2Corinthians"), ("2corinthians", "2Corinthians"),
   ("2 corinthians", "2Corinthians"), ("2corinthians", "2Corinthians"),
   ("2 corinthians", "2Corinthians"), ("2 corinthians", "2Corinthians"),
   ("2corinthians", "2Corinthians"), ("2kor", "2Corinthians"), ("2 kor", "2Corinthians"),
   ("2kor", "2Corinthians"), ("2 kor", "2Corinthians"), ("2 kor", "2Corinthians"),
   ("2kor", "2Corinthians"), ("2 cor", "2Corinthians"), ("2 cor", "2Corinthians"),
   ("2cor", "2Corinthians"), ("2cor", "2Corinthians"), ("2 cor", "2Corinthians"),
   ("2cor", "2Corinthians"), ("ii korinthe", "2Corinthians"), ("2 korinthe", "2Corinthians"),
   ("2korinthe", "2Corinthians"), ("ii kor", "2Corinthians"), ("2 kor", "2Corinthians"),
   ("2kor", "2Corinthians"), ("2co", "2Corinthians"), ("2 co", "2Corinthians"),
   ("2co", "2Corinthians"), ("galaten", "Galatians"), ("galaten", "Galatians"),
   ("galaten", "Galatians"), ("galatians", "Galatians"), ("galatians", "Galatians"),
   ("galatians", "Galatians"), ("gal", "Galatians"), ("gal", "Galatians"), ("gal", "Galatians"),
   ("ga", "Galatians"), ("ga", "Galatians"), ("ga", "Galatians"), ("glt", "Galatians"),
   ("glt", "Galatians"), ("glt", "Galatians"), ("efeze", "Ephesians"), ("efeze", "Ephesians"),
   ("efeze", "Ephesians"), ("efeziers", "Ephesians"), ("efeziers", "Ephesians"),
   ("efeziers", "Ephesians"), ("ephesians", "Ephesians"), ("ephesians", "Ephesians"),
   ("ephesians", "Ephesians"), ("ef", "Ephesians"), ("ef", "Ephesians"), ("ef", "Ephesians"),
   ("eph", "Ephesians"), ("eph", "Ephesians"), ("eph", "Ephesians"), ("ep", "Ephesians"),
   ("ep", "Ephesians"), ("ep", "Ephesians"), ("filippenzen", "Philippians"),
   ("filippenzen", "Philippians"), ("filippenzen", "Philippians"), ("filipenzen", "Philippians"),
   ("filipenzen", "Philippians"), ("filipenzen", "Philippians"), ("philippians", "Philippians"),
   ("philippians", "Philippians"), ("philippians", "Philippians"), ("fil", "Philippians"),
   ("fil", "Philippians"), ("fil", "Philippians"), ("phil", "Philippians"),
   ("phil", "Philippians"), ("phil", "Philippians"), ("php", "Philippians"),
   ("php", "Philippians"), ("php", "Philippians"), ("pp", "Philippians"), ("pp", "Philippians"),
   ("pp", "Philippians"), ("kolossenzen", "Colossians"), ("kolossenzen", "Colossians"),
   ("kolossenzen", "Colossians"), ("colossenzen", "Colossians"), ("colossenzen", "Colossians"),
   ("colossenzen", "Colossians"), ("colossians", "Colossians"), ("colossians", "Colossians"),
   ("colossians", "Colossians"), ("kol", "Colossians"), ("kol", "Colossians"),
   ("kol", "Colossians"), ("col", "Colossians"), ("col", "Colossians"), ("col", "Colossians"),
   ("co", "Colossians"), ("co", "Colossians"), ("co", "Colossians"),
   ("1 thessalonicenzen", "1Thessalonians"), ("1 thessalonicenzen", "1Thessalonians"),
   ("1thessalonicenzen", "1Thessalonians"), ("1 tessalonicenzen", "1Thessalonians"),
   ("1 tessalonicenzen", "1Thessalonians"), ("1tessalonicenzen", "1Thessalonians"),
   ("1thessalonians", "1Thessalonians"), ("1 thessalonians", "1Thessalonians"),
   ("1thessalonians", "1Thessalonians"), ("1 thessalonians", "1Thessalonians"),
   ("1 thessalonians", "1Thessalonians"), ("1thessalonians", "1Thessalonians"),
   ("1thess", "1Thessalonians"), ("1 thess", "1Thessalonians"), ("1thess", "1Thessalonians"),
   ("1 thess", "1Thessalonians"), ("1 thess", "1Thessalonians"), ("1thess", "1Thessalonians"),
   ("1thes", "1Thessalonians"), ("1 thes", "1Thessalonians"), ("1thes", "1Thessalonians"),
   ("1 thes", "1Thessalonians"), ("1 thes", "1Thessalonians"), ("1thes", "1Thessalonians"),
   ("1 tes", "1Thessalonians"), ("1 tes", "1Thessalonians"), ("1tes", "1Thessalonians"),
   ("1th", "1Thessalonians"), ("1 th", "1Thessalonians"), ("1th", "1Thessalonians"),
   ("i thessalonicenzen", "1Thessalonians"), ("1 thessalonicenzen", "1Thessalonians"),
   ("1thessalonicenzen", "1Thessalonians"), ("i thess", "1Thessalonians"),
   ("1 thess", "1Thessalonians"), ("1thess", "1Thessalonians"), ("i tes", "1Thessalonians"),
   ("1 tes", "1Thessalonians"), ("1tes", "1Thessalonians"), ("1ts", "1Thessalonians"),
   ("1 ts", "1Thessalonians"), ("1ts", "1Thessalonians"),
   ("2 thessalonicenzen", "2Thessalonians")]

def mapLit6 : List (String × String) :=
  [("2 thessalonicenzen", "2Thessalonians"), ("2thessalonicenzen", "2Thessalonians"),
   ("2 tessalonicenzen", "2Thessalonians"), ("2 tessalonicenzen", "2Thessalonians"),
   ("2tessalonicenzen", "2Thessalonians"), ("2thessalonians", "2Thessalonians"),
   ("2 thessalonians", "2Thessalonians"), ("2thessalonians", "2Thessalonians"),
   ("2 thessalonians", "2Thessalonians"), ("2 thessalonians", "2Thessalonians"),
   ("2thessalonians", "2Thessalonians"), ("2thess", "2Thessalonians"),
   ("2 thess", "2Thessalonians"), ("2thess", "2Thessalonians"), ("2 thess", "2Thessalonians"),
   ("2 thess", "2Thessalonians"), ("2thess", "2Thessalonians"), ("2thes", "2Thessalonians"),
   ("2 thes", "2Thessalonians"), ("2thes", "2Thessalonians"), ("2 thes", "2Thessalonians"),
   ("2 thes", "2Thessalonians"), ("2thes", "2Thessalonians"), ("2 tes", "2Thessalonians"),
   ("2 tes", "2Thessalonians"), ("2tes", "2Thessalonians"), ("2th", "2Thessalonians"),
   ("2 th", "2Thessalonians"), ("2th", "2Thessalonians"),
   ("ii thessalonicenzen", "2Thessalonians"), ("2 thessalonicenzen", "2Thessalonians"),
   ("2thessalonicenzen", "2Thessalonians"), ("ii thess", "2Thessalonians"),
   ("2 thess", "2Thessalonians"), ("2thess", "2Thessalonians"), ("ii tes", "2Thessalonians"),
   ("2 tes", "2Thessalonians"), ("2tes", "2Thessalonians"), ("2ts", "2Thessalonians"),
   ("2 ts", "2Thessalonians"), ("2ts", "2Thessalonians"), ("1 timoteus", "1Timothy"),
   ("1 timoteus", "1Timothy"), ("1timoteus", "1Timothy"), ("1 timotheus", "1Timothy"),
   ("1 timotheus", "1Timothy"), ("1timotheus", "1Timothy"), ("1timothy", "1Timothy"),
   ("1 timothy", "1Timothy"), ("1timothy", "1Timothy"), ("1 timothy", "1Timothy"),
   ("1 timothy", "1Timothy"), ("1timothy", "1Timothy"), ("1tim", "1Timothy"),
   ("1 tim", "1Timothy"), ("1tim", "1Timothy"), ("1 tim", "1Timothy"), ("1 tim", "1Timothy"),
   ("1tim", "1Timothy"), ("1ti", "1Timothy"), ("1 ti", "1Timothy"), ("1ti", "1Timothy"),
   ("i timoteus", "1Timothy"), ("1 timoteus", "1Timothy"), ("1timoteus", "1Timothy"),
   ("i tim", "1Timothy"), ("1 tim", "1Timothy"), ("1tim", "1Timothy"), ("1tm", "1Timothy"),
   ("1 tm", "1Timothy"), ("1tm", "1Timothy"), ("2 timoteus", "2Timothy"),
   ("2 timoteus", "2Timothy"), ("2timoteus", "2Timothy"), ("2 timotheus", "2Timothy"),
   ("2 timotheus", "2Timothy"), ("2timotheus", "2Timothy"), ("2timothy", "2Timothy"),
   ("2 timothy", "2Timothy"), ("2timothy", "2Timothy"), ("2 timothy", "2Timothy"),
   ("2 timothy", "2Timothy"), ("2timothy", "2Timothy"), ("2tim", "2Timothy"),
   ("2 tim", "2Timothy"), ("2tim", "2Timothy"), ("2 tim", "2Timothy"), ("2 tim", "2Timothy"),
   ("2tim", "2Timothy"), ("2ti", "2Timothy"), ("2 ti", "2Timothy"), ("2ti", "2Timothy"),
   ("ii timoteus", "2Timothy"), ("2 timoteus", "2Timothy"), ("2timoteus", "2Timothy"),
   ("ii tim", "2Timothy"), ("2 tim", "2Timothy"), ("2tim", "2Timothy"), ("2tm", "2Timothy"),
   ("2 tm", "2Timothy"), ("2tm", "2Timothy"), ("titus", "Titus"), ("titus", "Titus"),
   ("titus", "Titus"), ("tit", "Titus"), ("tit", "Titus"), ("tit", "Titus"), ("ti", "Titus"),
   ("ti", "Titus"), ("ti", "Titus"), ("tt", "Titus"), ("tt", "Titus"), ("tt", "Titus"),
   ("filemon", "Philemon"), ("filemon", "Philemon"), ("filemon", "Philemon"),
   ("philemon", "Philemon"), ("philemon", "Philemon"), ("philemon", "Philemon"),
   ("filem", "Philemon"), ("filem", "Philemon"), ("filem", "Philemon"), ("flm", "Philemon"),
   ("flm", "Philemon"), ("flm", "Philemon"), ("phm", "Philemon"), ("phm", "Philemon"),
   ("phm", "Philemon"), ("pm", "Philemon"), ("pm", "Philemon"), ("pm", "Philemon"),
   ("phlm", "Philemon"), ("phlm", "Philemon"), ("phlm", "Philemon"), ("hebreeen", "Hebrews"),
   ("hebreeen", "Hebrews"), ("hebreeen", "Hebrews"), ("hebrews", "Hebrews"),
   ("hebrews", "Hebrews"), ("hebrews", "Hebrews"), ("hebr", "Hebrews"), ("hebr", "Hebrews"),
   ("hebr", "Hebrews"), ("heb", "Hebrews"), ("heb", "Hebrews"), ("heb", "Hebrews"),
   ("he", "Hebrews"), ("he", "Hebrews"), ("he", "Hebrews"), ("jakobus", "James"),
   ("jakobus", "James"), ("jakobus", "James"), ("jacobus", "James"), ("jacobus", "James"),
   ("jacobus", "James"), ("james", "James"), ("james", "James"), ("james", "James"),
   ("jak", "James"), ("jak", "James"), ("jak", "James"), ("jac", "James"), ("jac", "James"),
   ("jac", "James"), ("jas", "James"), ("jas", "James"), ("jas", "James"), ("jms", "James"),
   ("jms", "James"), ("jms", "James"), ("jam", "James"), ("jam", "James"), ("jam", "James"),
   ("jm", "James"), ("jm", "James"), ("jm", "James"), ("1 petrus", "1Peter"),
   ("1 petrus", "1Peter"), ("1petrus", "1Peter"), ("1peter", "1Peter"), ("1 peter", "1Peter"),
   ("1peter", "1Peter"), ("1 peter", "1Peter"), ("1 peter", "1Peter"), ("1peter", "1Peter"),
   ("1 petr", "1Peter"), ("1 petr", "1Peter"), ("1petr", "1Peter"), ("1 pet", "1Peter"),
   ("1 pet", "1Peter"), ("1pet", "1Peter"), ("1pe", "1Peter"), ("1 pe", "1Peter"),
   ("1pe", "1Peter"), ("i petrus", "1Peter"), ("1 petrus", "1Peter"), ("1petrus", "1Peter"),
   ("i petr", "1Peter"), ("1 petr", "1Peter"), ("1petr", "1Peter")]

def mapLit7 : List (String × String) :=
  [("i pet", "1Peter"), ("1 pet", "1Peter"), ("1pet", "1Peter"), ("1pt", "1Peter"),
   ("1 pt", "1Peter"), ("1pt", "1Peter"), ("1p", "1Peter"), ("1 p", "1Peter"), ("1p", "1Peter"),
   ("2 petrus", "2Peter"), ("2 petrus", "2Peter"), ("2petrus", "2Peter"), ("2peter", "2Peter"),
   ("2 peter", "2Peter"), ("2peter", "2Peter"), ("2 peter", "2Peter"), ("2 peter", "2Peter"),
   ("2peter", "2Peter"), ("2 petr", "2Peter"), ("2 petr", "2Peter"), ("2petr", "2Peter"),
   ("2 pet", "2Peter"), ("2 pet", "2Peter"), ("2pet", "2Peter"), ("2pe", "2Peter"),
   ("2 pe", "2Peter"), ("2pe", "2Peter"), ("ii petrus", "2Peter"), ("2 petrus", "2Peter"),
   ("2petrus", "2Peter"), ("ii petr", "2Peter"), ("2 petr", "2Peter"), ("2petr", "2Peter"),
   ("ii pet", "2Peter"), ("2 pet", "2Peter"), ("2pet", "2Peter"), ("2pt", "2Peter"),
   ("2 pt", "2Peter"), ("2pt", "2Peter"), ("2p", "2Peter"), ("2 p", "2Peter"), ("2p", "2Peter"),
   ("1 johannes", "1John"), ("1 johannes", "1John"), ("1johannes", "1John"), ("1john", "1John"),
   ("1 john", "1John"), ("1john", "1John"), ("1 john", "1John"), ("1 john", "1John"),
   ("1john", "1John"), ("1joh", "1John"), ("1 joh", "1John"), ("1joh", "1John"),
   ("1 joh", "1John"), ("1 joh", "1John"), ("1joh", "1John"), ("1jn", "1John"),
   ("1 jn", "1John"), ("1jn", "1John"), ("i johannes", "1John"), ("1 johannes", "1John"),
   ("1johannes", "1John"), ("i joh", "1John"), ("1 joh", "1John"), ("1joh", "1John"),
   ("1j", "1John"), ("1 j", "1John"), ("1j", "1John"), ("2 johannes", "2John"),
   ("2 johannes", "2John"), ("2johannes", "2John"), ("2john", "2John"), ("2 john", "2John"),
   ("2john", "2John"), ("2 john", "2John"), ("2 john", "2John"), ("2john", "2John"),
   ("2joh", "2John"), ("2 joh", "2John"), ("2joh", "2John"), ("2 joh", "2John"),
   ("2 joh", "2John"), ("2joh", "2John"), ("2jn", "2John"), ("2 jn", "2John"), ("2jn", "2John"),
   ("ii johannes", "2John"), ("2 johannes", "2John"), ("2johannes", "2John"),
   ("ii joh", "2John"), ("2 joh", "2John"), ("2joh", "2John"), ("2j", "2John"), ("2 j", "2John"),
   ("2j", "2John"), ("3 johannes", "3John"), ("3 johannes", "3John"), ("3johannes", "3John"),
   ("3john", "3John"), ("3 john", "3John"), ("3john", "3John"), ("3 john", "3John"),
   ("3 john", "3John"), ("3john", "3John"), ("3joh", "3John"), ("3 joh", "3John"),
   ("3joh", "3John"), ("3 joh", "3John"), ("3 joh", "3John"), ("3joh", "3John"),
   ("3jn", "3John"), ("3 jn", "3John"), ("3jn", "3John"), ("iii johannes", "3John"),
   ("3 johannes", "3John"), ("3johannes", "3John"), ("iii joh", "3John"), ("3 joh", "3John"),
   ("3joh", "3John"), ("3j", "3John"), ("3 j", "3John"), ("3j", "3John"), ("judas", "Jude"),
   ("judas", "Jude"), ("judas", "Jude"), ("jude", "Jude"), ("jude", "Jude"), ("jude", "Jude"),
   ("jud", "Jude"), ("jud", "Jude"), ("jud", "Jude"), ("jd", "Jude"), ("jd", "Jude"),
   ("jd", "Jude"), ("openbaring", "Revelation"), ("openbaring", "Revelation"),
   ("openbaring", "Revelation"), ("revelation", "Revelation"), ("revelation", "Revelation"),
   ("revelation", "Revelation"), ("openb", "Revelation"), ("openb", "Revelation"),
   ("openb", "Revelation"), ("opb", "Revelation"), ("opb", "Revelation"), ("opb", "Revelation"),
   ("op", "Revelation"), ("op", "Revelation"), ("op", "Revelation"), ("apocalyps", "Revelation"),
   ("apocalyps", "Revelation"), ("apocalyps", "Revelation"), ("apokalyps", "Revelation"),
   ("apokalyps", "Revelation"), ("apokalyps", "Revelation"), ("rev", "Revelation"),
   ("rev", "Revelation"), ("rev", "Revelation"), ("re", "Revelation"), ("re", "Revelation"),
   ("re", "Revelation"), ("rv", "Revelation"), ("rv", "Revelation"), ("rv", "Revelation")]

def canonicalMappingLit : List (String × String) :=
  mapLit1 ++ (mapLit2 ++ (mapLit3 ++ (mapLit4 ++ (mapLit5 ++ (mapLit6 ++ mapLit7)))))

/-! ### `dutch-diatheke.py`: `expand_reference_shorthand` and the batch loop -/

/-- The regex `^\d+(-\d+)?$`: a verse number or verse range. -/
def isIntOrRange (s : String) : Bool :=
  let l := s.data
  let d1 := l.takeWhile (fun c => c.isDigit)
  let r1 := l.dropWhile (fun c => c.isDigit)
  if d1.isEmpty then false
  else
    match r1 with
    | [] => true
    | '-' :: r2 =>
      !(r2.takeWhile (fun c => c.isDigit)).isEmpty &&
        (r2.dropWhile (fun c => c.isDigit)).isEmpty
    | _ => false

/-- `rest.split(':')[0].strip()`. -/
def beforeColon (s : String) : String :=
  ⟨pyStrip (s.data.takeWhile (fun c => c ≠ ':'))⟩

/-- The mutable state of the expander loop: emitted references, `last_book`,
`last_chapter`. -/
structure ExpSt where
  acc : List String
  lastBook : Option String
  lastChapter : Option String
deriving Repr

/-- The expander's book-detection loop: for `i` from the token count down to
1, normalize each of the first `i` tokens, join with spaces, and test the
joined form and its space-free form against the mapping. -/
def expandMatchAux (mapping : List (String × String)) (tokens : List String) :
    Nat → Option Nat
  | 0 => none
  | i + 1 =>
    let pb := joinSp ((tokens.take (i + 1)).map normalize_text)
    if dictMem pb mapping || dictMem (removeSpaces pb) mapping then some (i + 1)
    else expandMatchAux mapping tokens i

/-- One comma-separated fragment of `expand_reference_shorthand`. -/
def processCommaPart (mapping : List (String × String)) (st : ExpSt)
    (cp : String) : Except RefError ExpSt :=
  let tokens := (pyWords cp.data).map (fun w => (⟨w⟩ : String))
  match expandMatchAux mapping tokens tokens.length with
  | some i =>
    let lastBook := joinSp (tokens.take i)
    let rest := joinSp (tokens.drop i)
    let lastChapter :=
      if rest ≠ "" && rest.data.contains ':' then some (beforeColon rest)
      else st.lastChapter
    .ok ⟨st.acc ++ [cp], some lastBook, lastChapter⟩
  | none =>
    if cp.data.contains ':' then
      match st.lastBook with
      | some b =>
        .ok ⟨st.acc ++ [b ++ " " ++ cp], st.lastBook, some (beforeColon cp)⟩
      | none => .error (.noBookContext cp)
    else if isIntOrRange cp then
      match st.lastBook, st.lastChapter with
      | some b, some ch =>
        .ok ⟨st.acc ++ [b ++ " " ++ ch ++ ":" ++ cp], st.lastBook,
          st.lastChapter⟩
      | some b, none => .ok ⟨st.acc ++ [b ++ " " ++ cp], st.lastBook, some cp⟩
      | none, _ => .error (.noContext cp)
    else .ok ⟨st.acc ++ [cp], st.lastBook, st.lastChapter⟩

/-- One semicolon-separated part: process its comma fragments in order, then
clear the chapter context but keep the book context. -/
def processSemiPart (mapping : List (String × String)) (st : ExpSt)
    (sp : String) : Except RefError ExpSt := do
  let commaParts := ((splitOnChar ',' sp.data).map pyStrip).filter
    (fun l => !l.isEmpty)
  let st2 ← commaParts.foldlM
    (fun st l => processCommaPart mapping st (⟨l⟩ : String)) st
  pure ⟨st2.acc, st2.lastBook, none⟩

/-- `expand_reference_shorthand`, parameterized by the built mapping (the
source rebuilds the same immutable mapping value inside the loop). -/
def expandWith (mapping : List (String × String)) (reference : String) :
    Except RefError (List String) :=
  if pyStrip reference.data = [] then .ok []
  else
    let semiParts := ((splitOnChar ';' reference.data).map pyStrip).filter
      (fun l => !l.isEmpty)
    (semiParts.foldlM
      (fun st l => processSemiPart mapping st (⟨l⟩ : String))
      ⟨[], none, none⟩).map ExpSt.acc

/-- `expand_reference_shorthand(reference, include_apocrypha)`. -/
def expand_reference_shorthand (includeApocrypha : Bool) (reference : String) :
    Except RefError (List String) :=
  expandWith (build_book_mapping includeApocrypha) reference

/-- The per-reference body of `main`'s batch loop: expand the shorthand,
convert each expanded reference to English, join with `"; "`. -/
def processOneWith (mapping : List (String × String)) (ref : String) :
    Except RefError String := do
  let expanded ← expandWith mapping ref
  let eng ← expanded.mapM (parseReferenceWith mapping)
  pure (String.intercalate ("; ") eng)

/-- `main`'s batch loop over the collected references: on success the exit
code is folded with the external tool's result (`runRes`, kept abstract; the
source runs `diatheke` here); on a `ValueError` the error is reported and the
exit code set to 1, and the loop continues with the next reference. -/
def batchStep (mapping : List (String × String)) (runRes : String → Nat)
    (st : List (Except RefError String) × Nat) (ref : String) :
    List (Except RefError String) × Nat :=
  match processOneWith mapping ref with
  | .ok c => (st.1 ++ [.ok c], max st.2 (runRes c))
  | .error e => (st.1 ++ [.error e], 1)

def mainLoopWith (mapping : List (String × String)) (runRes : String → Nat)
    (refs : List String) : List (Except RefError String) × Nat :=
  refs.foldl (batchStep mapping runRes) ([], 0)

/-! ### `bible-to-format_v2.py`: notes and the verse/markup parser -/

/-- A footnote or cross-reference: `(label, content, marker)`. -/
structure NoteT where
  label : String
  content : String
  marker : String
deriving DecidableEq, Repr

/-- A structured verse as produced by `parse_html_verses`. -/
structure VerseT where
  book : String
  chapter : String
  verseNumber : Nat
  lines : List String
  hasSmallCaps : Bool
  notes : List NoteT
deriving DecidableEq, Repr

/-- Parse a run of decimal digits (`int(...)` on the regex group `\d+`). -/
def natOfDigits (l : List Char) : Nat :=
  l.foldl (fun a c => a * 10 + (c.toNat - 48)) 0

/-- Split at the first occurrence of `pat`: the text before it and the text
after it (the leftmost match of a lazy `(.*?)pat`). -/
def splitAtSub (pat : List Char) : List Char → Option (List Char × List Char)
  | [] => none
  | c :: cs =>
    if pat.isPrefixOf (c :: cs) then some ([], (c :: cs).drop pat.length)
    else
      match splitAtSub pat cs with
      | some (pre, post) => some (c :: pre, post)
      | none => none

/-- Substring containment (`pat in text` / `re.search` of a literal). -/
def containsSub (pat : List Char) (l : List Char) : Bool :=
  pat.isPrefixOf l || (splitAtSub pat l).isSome

/-- Match `<note([^>]*)>(.*?)</note>` (DOTALL) at the current position:
returns attributes, content and the remaining input. -/
def pairedNoteMatch (l : List Char) :
    Option (List Char × List Char × List Char) :=
  if (['<', 'n', 'o', 't', 'e'] : List Char).isPrefixOf l then
    let t := l.drop 5
    let attrs := t.takeWhile (fun c => c ≠ '>')
    match t.dropWhile (fun c => c ≠ '>') with
    | '>' :: afterGt =>
      match splitAtSub ['<', '/', 'n', 'o', 't', 'e', '>'] afterGt with
      | some (content, rest) => some (attrs, content, rest)
      | none => none
    | _ => none
  else none

/-- Match `\bn="([^"]+)"` at the current position (boundary handled by the
caller). -/
def markerMatchAt (l : List Char) : Option (List Char) :=
  match l with
  | 'n' :: '=' :: '"' :: rest =>
    let content := rest.takeWhile (fun c => c ≠ '"')
    if content.isEmpty then none
    else
      match rest.dropWhile (fun c => c ≠ '"') with
      | '"' :: _ => some content
      | _ => none
  | _ => none

/-- `re.search(r'\bn="([^"]+)"', attrs)`: leftmost match, `\b` requiring the
previous character (if any) not to be a word character. -/
def findMarkerF : Bool → List Char → Option (List Char)
  | _, [] => none
  | prevWord, c :: cs =>
    if !prevWord then
      match markerMatchAt (c :: cs) with
      | some m => some m
      | none => findMarkerF (wordChar c) cs
    else findMarkerF (wordChar c) cs

def findMarker (attrs : List Char) : Option (List Char) := findMarkerF false attrs

/-- The replacement function of `extract_notes`' first substitution: empty
content vanishes; otherwise the note is recorded and a `__NOTEk__`
placeholder is left (the counter advances only for recorded notes). -/
def extractNotesF : Nat → Nat → List NoteT → List Char →
    List Char × Nat × List NoteT
  | 0, idx, notes, l => (l, idx, notes)
  | _ + 1, idx, notes, [] => ([], idx, notes)
  | n + 1, idx, notes, c :: cs =>
    match pairedNoteMatch (c :: cs) with
    | some (attrs, content, rest) =>
      let contentS := pyStrip content
      if contentS.isEmpty then extractNotesF n idx notes rest
      else
        let label := if containsSub ("type=\"crossReference\"".data) attrs
          then ("ref" : String) else ("note" : String)
        let idx2 := idx + 1
        let marker := match findMarker attrs with
          | some m => (⟨m⟩ : String)
          | none => Nat.repr idx2
        let rec1 := extractNotesF n idx2
          (notes ++ [⟨label, ⟨contentS⟩, marker⟩]) rest
        ((("__NOTE".data ++ (Nat.repr idx2).data ++ "__".data) ++ rec1.1),
          rec1.2.1, rec1.2.2)
    | none =>
      let rec1 := extractNotesF n idx notes cs
      (c :: rec1.1, rec1.2.1, rec1.2.2)

/-- Match `<note[^>]*/>`: the run up to the first `>` must end in `/`. -/
def selfClosingNoteMatch : Matcher := fun l =>
  if (['<', 'n', 'o', 't', 'e'] : List Char).isPrefixOf l then
    let t := l.drop 5
    let attrs := t.takeWhile (fun c => c ≠ '>')
    match t.dropWhile (fun c => c ≠ '>') with
    | '>' :: rest =>
      if attrs.getLast? = some '/' then some ([], rest) else none
    | _ => none
  else none

/-- Match `<note[^>]*></note>`. -/
def emptyPairNoteMatch : Matcher := fun l =>
  if (['<', 'n', 'o', 't', 'e'] : List Char).isPrefixOf l then
    let t := l.drop 5
    match t.dropWhile (fun c => c ≠ '>') with
    | '>' :: rest =>
      if (['<', '/', 'n', 'o', 't', 'e', '>'] : List Char).isPrefixOf rest then
        some ([], rest.drop 7)
      else none
    | _ => none
  else none

/-- `extract_notes(text, inline_notes)` (the `inline_notes` argument is
unused by the source's body and therefore omitted): paired notes become
placeholders and are collected; leftover self-closing and empty paired note
tags are erased. -/
def extract_notes (l : List Char) : List Char × List NoteT :=
  let r := extractNotesF l.length 0 [] l
  (applySub emptyPairNoteMatch (applySub selfClosingNoteMatch r.1), r.2.2)

/-- Match `<(chapter|div)[^>]*/>`. -/
def structuralTagMatch : Matcher := fun l =>
  let tail3 :=
    if ("<chapter".data).isPrefixOf l then some (l.drop 8)
    else if ("<div".data).isPrefixOf l then some (l.drop 4)
    else none
  match tail3 with
  | some t =>
    let attrs := t.takeWhile (fun c => c ≠ '>')
    match t.dropWhile (fun c => c ≠ '>') with
    | '>' :: rest =>
      if attrs.getLast? = some '/' then some ([], rest) else none
    | _ => none
  | none => none

/-- `re.search(r'<span[^>]*>', ...)`: is there a `<span` with a later `>`? -/
def hasSpanTag (l : List Char) : Bool :=
  match splitAtSub ("<span".data) l with
  | some (_, after) => after.contains '>'
  | none => false

/-- Match `<l sID="[^"]*"/>` at the current position. -/
def lSidMatch : Matcher := fun l =>
  if ("<l sID=\"".data).isPrefixOf l then
    let t := l.drop 8
    match t.dropWhile (fun c => c ≠ '"') with
    | '"' :: '/' :: '>' :: rest => some ([], rest)
    | _ => none
  else none

/-- `bool(re.search(r'<l sID="[^"]*"/>', ...))`. -/
def hasLsidTag (l : List Char) : Bool := existsMatch lSidMatch l

/-- Match `<l eID="[^"]*"/>\s*<l sID="[^"]*"/>`: an end-line marker followed,
with only whitespace between, by a start-line marker; replaced by one
newline. -/
def adjacentLMatch : Matcher := fun l =>
  if ("<l eID=\"".data).isPrefixOf l then
    let t := l.drop 8
    match t.dropWhile (fun c => c ≠ '"') with
    | '"' :: '/' :: '>' :: rest =>
      let rest2 := rest.dropWhile pyIsWs
      match lSidMatch rest2 with
      | some (_, rest3) => some (['\n'], rest3)
      | none => none
    | _ => none
  else none

/-- Match `<l [se]ID="[^"]*"/>` (a remaining line marker; erased). -/
def lMarkerMatch : Matcher := fun l =>
  if ("<l sID=\"".data).isPrefixOf l || ("<l eID=\"".data).isPrefixOf l then
    match (l.drop 8).dropWhile (fun c => c ≠ '"') with
    | '"' :: '/' :: '>' :: rest => some ([], rest)
    | _ => none
  else none

/-- Match `<chapter[^>]*/?>` (erased). -/
def chapterTagMatch : Matcher := fun l =>
  if ("<chapter".data).isPrefixOf l then
    let t := l.drop 8
    match t.dropWhile (fun c => c ≠ '>') with
    | '>' :: rest => some ([], rest)
    | _ => none
  else none

/-- Match `<milestone type="line"[^>]*/?>` (replaced by a newline). -/
def milestoneMatch : Matcher := fun l =>
  if ("<milestone type=\"line\"".data).isPrefixOf l then
    let t := l.drop 22
    match t.dropWhile (fun c => c ≠ '>') with
    | '>' :: rest => some (['\n'], rest)
    | _ => none
  else none

/-- `[line.strip() for line in text.split('\n') if line.strip()]`. -/
def linesOf (l : List Char) : List String :=
  ((splitOnChar '\n' l).map pyStrip).filterMap
    (fun x => if x.isEmpty then none else some (⟨x⟩ : String))

/-- Find the lazy end of the verse content: the first position where
`</span><br\s*/>` matches; returns the content before it and the input after
the whole closer. -/
def spanCloserSplit : Nat → List Char → Option (List Char × List Char)
  | 0, _ => none
  | _ + 1, [] => none
  | n + 1, c :: cs =>
    (if ("</span><br".data).isPrefixOf (c :: cs) then
      let u := ((c :: cs).drop 10).dropWhile pyIsWs
      if ("/>".data).isPrefixOf u then some ([], u.drop 2) else none
    else none).orElse
      (fun _ =>
        match spanCloserSplit n cs with
        | some (pre, post) => some (c :: pre, post)
        | none => none)

/-- The poetic line handling of `parse_html_verses` (lines 263-277): convert
each adjacent end/start line-marker pair to a newline, strip the remaining
line markers and chapter markers, then split into trimmed non-empty lines. -/
def processPoeticLines (l : List Char) : List String :=
  linesOf (applySub chapterTagMatch
    (applySub lMarkerMatch (applySub adjacentLMatch l)))

/-- Match one HTML verse block
`([A-Za-z0-9]+) (\d+):(\d+): <span[^>]*>(.*?)</span><br\s*/>` (DOTALL):
returns `(book, chapter, verse, content)` and the remaining input. -/
def verseBlockMatchHtml (l : List Char) :
    Option ((List Char × List Char × List Char × List Char) × List Char) :=
  let book := l.takeWhile (fun c => c.isAlphanum)
  if book.isEmpty then none
  else
    match l.drop book.length with
    | ' ' :: t1 =>
      let ch := t1.takeWhile (fun c => c.isDigit)
      if ch.isEmpty then none
      else
        match t1.drop ch.length with
        | ':' :: t2 =>
          let vs := t2.takeWhile (fun c => c.isDigit)
          if vs.isEmpty then none
          else
            match t2.drop vs.length with
            | ':' :: ' ' :: t3 =>
              if ("<span".data).isPrefixOf t3 then
                let t4 := t3.drop 5
                match t4.dropWhile (fun c => c ≠ '>') with
                | '>' :: t5 =>
                  match spanCloserSplit t5.length t5 with
                  | some (content, rest) => some ((book, ch, vs, content), rest)
                  | none => none
                | _ => none
              else none
            | _ => none
        | _ => none
    | _ => none

/-- `re.findall` with the HTML verse-block pattern: scan left to right,
emitting each match's groups and continuing after the match. -/
def findVerseBlocksHtmlF :
    Nat → List Char → List (List Char × List Char × List Char × List Char)
  | 0, _ => []
  | _ + 1, [] => []
  | n + 1, c :: cs =>
    match verseBlockMatchHtml (c :: cs) with
    | some (g, rest) => g :: findVerseBlocksHtmlF n rest
    | none => findVerseBlocksHtmlF n cs

def findVerseBlocksHtml (l : List Char) :
    List (List Char × List Char × List Char × List Char) :=
  findVerseBlocksHtmlF l.length l

/-- `[A-Za-z]+ \d+:\d+:` — the look-ahead's verse-header alternative. -/
def plainVerseHeader (u : List Char) : Bool :=
  let b := u.takeWhile (fun c => c.isAlpha)
  if b.isEmpty then false
  else
    match u.drop b.length with
    | ' ' :: t1 =>
      let d1 := t1.takeWhile (fun c => c.isDigit)
      if d1.isEmpty then false
      else
        match t1.drop d1.length with
        | ':' :: t2 =>
          let d2 := t2.takeWhile (fun c => c.isDigit)
          if d2.isEmpty then false
          else
            match t2.drop d2.length with
            | ':' :: _ => true
            | _ => false
        | _ => false
    | _ => false

/-- The look-ahead `(?=\n(?:[A-Za-z]+ \d+:\d+:|\Z))`. -/
def plainLookahead (t : List Char) : Bool :=
  match t with
  | '\n' :: u => u.isEmpty || plainVerseHeader u
  | _ => false

/-- Lazy `(.+?)` up to the look-ahead: at least one character of content; the
look-ahead position is not consumed. -/
def plainContentSplit : List Char → Option (List Char × List Char)
  | [] => none
  | c :: cs =>
    if plainLookahead cs then some ([c], cs)
    else
      match plainContentSplit cs with
      | some (pre, post) => some (c :: pre, post)
      | none => none

/-- Match one plain-text verse block
`([A-Za-z]+) (\d+):(\d+): (.+?)(?=\n(?:[A-Za-z]+ \d+:\d+:|\Z))`. -/
def verseBlockMatchPlain (l : List Char) :
    Option ((List Char × List Char × List Char × List Char) × List Char) :=
  let book := l.takeWhile (fun c => c.isAlpha)
  if book.isEmpty then none
  else
    match l.drop book.length with
    | ' ' :: t1 =>
      let ch := t1.takeWhile (fun c => c.isDigit)
      if ch.isEmpty then none
      else
        match t1.drop ch.length with
        | ':' :: t2 =>
          let vs := t2.takeWhile (fun c => c.isDigit)
          if vs.isEmpty then none
          else
            match t2.drop vs.length with
            | ':' :: ' ' :: t3 =>
              match plainContentSplit t3 with
              | some (content, rest) => some ((book, ch, vs, content), rest)
              | none => none
            | _ => none
        | _ => none
    | _ => none

def findVerseBlocksPlainF :
    Nat → List Char → List (List Char × List Char × List Char × List Char)
  | 0, _ => []
  | _ + 1, [] => []
  | n + 1, c :: cs =>
    match verseBlockMatchPlain (c :: cs) with
    | some (g, rest) => g :: findVerseBlocksPlainF n rest
    | none => findVerseBlocksPlainF n cs

def findVerseBlocksPlain (l : List Char) :
    List (List Char × List Char × List Char × List Char) :=
  findVerseBlocksPlainF l.length l

/-- `parse_html_verses(html_content, inline_notes)` (the `inline_notes`
argument is only forwarded to `extract_notes`, which ignores it, and is
therefore omitted).  Mode detection, per-verse note extraction, poetic
line-break handling and the empty-verse guard, in source order. -/
def parse_html_verses (payload : String) : List VerseT :=
  let content1 := applySub structuralTagMatch payload.data
  if !hasSpanTag content1 then
    (findVerseBlocksPlain content1).filterMap (fun g =>
      let vc1 := applySub milestoneMatch g.2.2.2
      let r := extract_notes vc1
      let lines := linesOf r.1
      let hsc := containsSub ("<hi type=\"small-caps\">".data) r.1
      if lines.isEmpty then none
      else some ⟨⟨g.1⟩, ⟨g.2.1⟩, natOfDigits g.2.2.1, lines, hsc, r.2⟩)
  else
    let hasL := hasLsidTag content1
    (findVerseBlocksHtml content1).filterMap (fun g =>
      let r := extract_notes g.2.2.2
      let hsc := containsSub ("<hi type=\"small-caps\">".data) r.1
      let lines :=
        if hasL then processPoeticLines r.1
        else [(⟨pyStrip r.1⟩ : String)]
      if lines.isEmpty then none
      else some ⟨⟨g.1⟩, ⟨g.2.1⟩, natOfDigits g.2.2.1, lines, hsc, r.2⟩)

/-! ### `bible-to-format_v2.py`: passage grouping and rendering -/

/-- A verse entry inside a passage: `(verse_num, lines, has_smallcaps,
notes)`. -/
abbrev VerseEntry := Nat × List String × Bool × List NoteT

def verseEntryOf (v : VerseT) : VerseEntry :=
  (v.verseNumber, v.lines, v.hasSmallCaps, v.notes)

/-- The inner loop of `group_passages`, carrying the current passage's book,
chapter and collected verses (accumulated in reverse). -/
def groupGo (b c : String) (cur : List VerseEntry) :
    List VerseT → List (String × String × List VerseEntry)
  | [] => [(b, c, cur.reverse)]
  | v :: vs =>
    if v.book = b && v.chapter = c then
      groupGo b c (verseEntryOf v :: cur) vs
    else (b, c, cur.reverse) :: groupGo v.book v.chapter [verseEntryOf v] vs

/-- `group_passages(verses)`: start a new passage whenever book or chapter
differs from the current passage's. -/
def group_passages : List VerseT → List (String × String × List VerseEntry)
  | [] => []
  | v :: vs => groupGo v.book v.chapter [verseEntryOf v] vs

/-- Match `<hi type="small-caps">([^<]+)</hi>` and wrap the content in the
given delimiters. -/
def smallCapsMatch (pre post : List Char) : Matcher := fun l =>
  if ("<hi type=\"small-caps\">".data).isPrefixOf l then
    let t := l.drop 22
    let content := t.takeWhile (fun c => c ≠ '<')
    if content.isEmpty then none
    else if ("</hi>".data).isPrefixOf (t.drop content.length) then
      some (pre ++ content ++ post, (t.drop content.length).drop 5)
    else none
  else none

/-- Lazy `(.*?)</i>` without DOTALL: content up to the first `</i>`, failing
if a newline intervenes. -/
def italSplit : List Char → Option (List Char × List Char)
  | [] => none
  | c :: cs =>
    if ("</i>".data).isPrefixOf (c :: cs) then some ([], (c :: cs).drop 4)
    else if c = '\n' then none
    else
      match italSplit cs with
      | some (pre, post) => some (c :: pre, post)
      | none => none

/-- Match `<i>(.*?)</i>` and wrap the content in the given delimiters. -/
def italicMatch (pre post : List Char) : Matcher := fun l =>
  if ("<i>".data).isPrefixOf l then
    match italSplit (l.drop 3) with
    | some (content, rest) => some (pre ++ content ++ post, rest)
    | none => none
  else none

/-- Match `<[^>]+>` (any remaining tag; erased). -/
def tagStripMatch : Matcher := fun l =>
  match l with
  | '<' :: t =>
    let run := t.takeWhile (fun c => c ≠ '>')
    if run.isEmpty then none
    else
      match t.dropWhile (fun c => c ≠ '>') with
      | '>' :: rest => some ([], rest)
      | _ => none
  | _ => none

/-- `process_text(text, format, options)` (the `options` argument is unused
by the source's body and therefore omitted): format-specific small-caps and
italics markup, then tag stripping, then trimming. -/
def process_text (fmt : String) (l : List Char) : List Char :=
  let l1 :=
    if fmt = "typ" then
      applySub (italicMatch ("#emph[".data) ("]".data))
        (applySub (smallCapsMatch ("#smallcaps[".data) ("]".data)) l)
    else if fmt = "tex" then
      applySub (italicMatch ("\\emph\x7b".data) ("\x7d".data))
        (applySub (smallCapsMatch ("\\textsc\x7b".data) ("\x7d".data)) l)
    else if fmt = "md" then
      applySub (italicMatch ("*".data) ("*".data))
        (applySub (smallCapsMatch ("**".data) ("**".data)) l)
    else if fmt = "org" then
      applySub (italicMatch ("/".data) ("/".data))
        (applySub (smallCapsMatch ("*".data) ("*".data)) l)
    else l
  pyStrip (applySub tagStripMatch l1)

/-- `note_marker(fmt, marker)`. -/
def note_marker (fmt : String) (marker : String) : String :=
  if fmt = "org" then "[fn:" ++ marker ++ "]"
  else if fmt = "md" then "[^" ++ marker ++ "]"
  else "[" ++ marker ++ "]"

/-- The replacement of `render_notes_in_text` for placeholder index `idx`
(the source indexes `notes[idx - 1]`, which its callers keep in range). -/
def noteReplacement (fmt : String) (inlineNotes : Bool) (notes : List NoteT)
    (idx : Nat) : List Char :=
  let nt := (notes.get? (idx - 1)).getD ⟨"", "", ""⟩
  let contentTxt : String := ⟨process_text fmt nt.content.data⟩
  if inlineNotes then
    if fmt = "org" then
      ("[fn:: " ++ nt.marker ++ ". " ++ contentTxt ++ "] ").data
    else if fmt = "md" then
      ("^[" ++ nt.marker ++ ". " ++ contentTxt ++ "] ").data
    else if fmt = "tex" then
      ("\\footnote\x7b" ++ nt.marker ++ ". " ++ contentTxt ++ "\x7d ").data
    else if fmt = "typ" then
      ("#footnote[" ++ nt.marker ++ ". " ++ contentTxt ++ "] ").data
    else ("[" ++ nt.marker ++ ". " ++ contentTxt ++ "] ").data
  else if fmt = "tex" then
    ("\\textsuperscript\x7b" ++ nt.marker ++ "\x7d").data
  else if fmt = "typ" then ("#super[" ++ nt.marker ++ "]").data
  else (note_marker fmt nt.marker).data

/-- Match `__NOTE(\d+)__` and replace it through `noteReplacement`. -/
def notePlaceholderMatch (fmt : String) (inlineNotes : Bool)
    (notes : List NoteT) : Matcher := fun l =>
  if ("__NOTE".data).isPrefixOf l then
    let t := l.drop 6
    let ds := t.takeWhile (fun c => c.isDigit)
    if ds.isEmpty then none
    else if ("__".data).isPrefixOf (t.drop ds.length) then
      some (noteReplacement fmt inlineNotes notes (natOfDigits ds),
        (t.drop ds.length).drop 2)
    else none
  else none

/-- `render_notes_in_text(text, fmt, notes, options, inline_notes)`. -/
def render_notes_in_text (fmt : String) (inlineNotes : Bool)
    (notes : List NoteT) (l : List Char) : List Char :=
  applySub (notePlaceholderMatch fmt inlineNotes notes) l

/-- `format_note_text(fmt, marker, label, content, options)`. -/
def format_note_text (fmt : String) (marker label content : String) : String :=
  let labelTxt := if label = "ref" then ("ref" : String) else ("note" : String)
  let contentTxt : String := ⟨process_text fmt content.data⟩
  if fmt = "tex" then
    "\\textsuperscript\x7b" ++ marker ++ "\x7d " ++ labelTxt ++ ": " ++
      contentTxt
  else if fmt = "typ" then
    "#super[" ++ marker ++ "] " ++ labelTxt ++ ": " ++ contentTxt
  else note_marker fmt marker ++ " " ++ labelTxt ++ ": " ++ contentTxt

/-- `format_verse_prefix(fmt, verse_num, verse_nums)`. -/
def format_verse_prefix (fmt : String) (verseNum : Nat) (verseNums : String) :
    String :=
  if verseNums = "none" then ""
  else if fmt = "tex" || fmt = "typ" then ""
  else if verseNums = "colons" then Nat.repr verseNum ++ ": "
  else Nat.repr verseNum ++ ". "

/-- `format_verse_label(fmt, verse_num, verse_nums)`. -/
def format_verse_label (verseNum : Nat) (verseNums : String) : String :=
  if verseNums = "none" then ""
  else Nat.repr verseNum ++ (if verseNums = "colons" then ":" else ".")

/-- The per-verse output block of `format_latex` (the verse body and, in
block-note mode, one `\quad`-prefixed line per note). -/
def latexVerseBlocks (verseNums : String) (inlineNotes : Bool)
    (vs : List VerseEntry) : List String :=
  vs.flatMap (fun v =>
    let label := format_verse_label v.1 verseNums
    let marker := if label ≠ "" then
        ("\\textsuperscript\x7b" ++ label ++ "\x7d " : String)
      else ""
    let body :=
      match v.2.1 with
      | [line] =>
        marker ++ (⟨render_notes_in_text ("tex") inlineNotes v.2.2.2
          (process_text ("tex") line.data)⟩ : String)
      | lines =>
        String.intercalate ("\\\\\n")
          (lines.enum.map (fun li =>
            let txt : String := ⟨render_notes_in_text ("tex") inlineNotes
              v.2.2.2 (process_text ("tex") li.2.data)⟩
            if li.1 = 0 then marker ++ txt else "\\vin " ++ txt))
    [body] ++
      (if !inlineNotes then
        v.2.2.2.map (fun nt =>
          "\\quad " ++ format_note_text ("tex") nt.marker nt.label nt.content)
      else []))

/-- `format_latex(verses, options, verse_nums, inline_notes)`: the passage
body, wrapped in a `verse` environment exactly when some verse has more than
one line. -/
def format_latex (verseNums : String) (inlineNotes : Bool)
    (vs : List VerseEntry) : String :=
  let output := latexVerseBlocks verseNums inlineNotes vs
  let hasPoetry := vs.any (fun v => 1 < v.2.1.length)
  if hasPoetry then
    "\\begin\x7bverse\x7d\n" ++ String.intercalate ("\\\\\n\n") output ++
      "\n\\end\x7bverse\x7d"
  else String.intercalate ("\n\n") output

/-- The per-verse output block of `format_org_verse`. -/
def orgVerseBlocks (verseNums : String) (inlineNotes : Bool)
    (vs : List VerseEntry) : List String :=
  vs.map (fun v =>
    let verseLines :=
      v.2.1.enum.map (fun li =>
        let txt : String := ⟨render_notes_in_text ("org") inlineNotes v.2.2.2
          (process_text ("org") li.2.data)⟩
        if li.1 = 0 then format_verse_prefix ("org") v.1 verseNums ++ txt
        else "   " ++ txt) ++
      (if !inlineNotes then
        v.2.2.2.map (fun nt =>
          "   " ++ format_note_text ("org") nt.marker nt.label nt.content)
      else [])
    String.intercalate ("\n") verseLines)

/-- `format_org_verse(verses, options, verse_nums, inline_notes)`: the
passage body, wrapped in an Org verse block exactly when some verse has more
than one line. -/
def format_org_verse (verseNums : String) (inlineNotes : Bool)
    (vs : List VerseEntry) : String :=
  let content := String.intercalate ("\n\n") (orgVerseBlocks verseNums inlineNotes vs)
  let hasPoetry := vs.any (fun v => 1 < v.2.1.length)
  if hasPoetry then "#+BEGIN_VERSE\n" ++ content ++ "\n#+END_VERSE"
  else content

/-- The verse-range computation of `bible-to-format_v2.py`'s `main` (lines
738-740): always `first` or `first-last`, with no consecutiveness check. -/
def v2VerseRange (vs : List VerseEntry) : String :=
  let first := Nat.repr ((vs.headD (0, [], false, [])).1)
  let last := Nat.repr (((vs.getLast?).getD (0, [], false, [])).1)
  if first = last then first else first ++ "-" ++ last

/-! ### `bible-format-wrapper.py`: `format_passage` -/

/-- The parts of a `BIBLE_CONFIGS` entry used by `format_passage`:
`tag`, `dutch_names` (possibly `None`) and `abbreviations`. -/
structure WrapConfig where
  tag : String
  dutchNames : Option (List (String × String))
  abbreviations : List (String × String)

/-- `convert_book_name(book, config, use_dutch_names)` (the config tables
have distinct keys, so dict `get` is `lookupLast` with a default). -/
def convert_book_name (book : String) (config : WrapConfig)
    (useDutch : Bool) : String :=
  match config.dutchNames, useDutch with
  | some names, true => (lookupLast book names).getD book
  | _, _ => (lookupLast book config.abbreviations).getD book

/-- `all(verse_nums[i] + 1 == verse_nums[i + 1] ...)`. -/
def isConsecutive : List Nat → Bool
  | [] => true
  | [_] => true
  | a :: b :: rest => (a + 1 = b) && isConsecutive (b :: rest)

/-- The localized book name chosen by `format_passage` for a reference
style. -/
def formatPassageBookName (book : String) (config : WrapConfig)
    (referenceStyle : String) : String :=
  if referenceStyle = "full-with-version" then
    convert_book_name book config config.dutchNames.isSome
  else if referenceStyle = "full-no-version" then
    convert_book_name book config config.dutchNames.isSome
  else if referenceStyle = "abbreviated-with-version" then
    convert_book_name book config false
  else if referenceStyle = "abbreviated-no-version" then
    convert_book_name book config false
  else convert_book_name book config config.dutchNames.isSome

/-- The version tag chosen by `format_passage` for a reference style. -/
def formatPassageVersionTag (config : WrapConfig) (referenceStyle : String) :
    String :=
  if referenceStyle = "full-no-version" ||
      referenceStyle = "abbreviated-no-version" then ""
  else " " ++ config.tag

/-- The verse-range text used by `format_passage` when the first and last
verse numbers differ: a dash range when the passage's verse numbers are
consecutive, else the explicit comma list. -/
def passageVerseRange (first last : String)
    (verseLines : List (String × String)) : String :=
  if isConsecutive (verseLines.map (fun v => natOfDigits v.1.data)) then
    first ++ "-" ++ last
  else String.intercalate (",") (verseLines.map Prod.fst)

/-- `format_passage(book, chapter, first_verse, last_verse, verse_lines,
config, reference_style)`: verse numbering when the passage spans several
verses, and a citation line whose verse range is a dash range when the verse
numbers are consecutive and an explicit comma list otherwise. -/
def format_passage (book chapter first last : String)
    (verseLines : List (String × String)) (config : WrapConfig)
    (referenceStyle : String) : String :=
  let showNums := first ≠ last
  let bodyLines := verseLines.map (fun v =>
    if showNums then v.1 ++ ". " ++ v.2 else v.2)
  let bookName := formatPassageBookName book config referenceStyle
  let versionTag := formatPassageVersionTag config referenceStyle
  let reference :=
    if first = last then
      "(" ++ bookName ++ " " ++ chapter ++ ":" ++ first ++ versionTag ++ ")"
    else
      "(" ++ bookName ++ " " ++ chapter ++ ":" ++
        passageVerseRange first last verseLines ++ versionTag ++ ")"
  String.intercalate ("\n") (bodyLines ++ [reference])

/-- Some prefix of length `i` of the token list, joined with or without
interior spaces, is a key of the mapping. -/
def prefixMatches (mapping : List (String × String)) (tokens : List String)
    (i : Nat) : Prop :=
  dictMem (joinSp (tokens.take i)) mapping = true ∨
  dictMem (removeSpaces (joinSp (tokens.take i))) mapping = true

instance (mapping : List (String × String)) (tokens : List String) (i : Nat) :
    Decidable (prefixMatches mapping tokens i) := by
  unfold prefixMatches; infer_instance


/-! ### Machinery for the idempotence analysis of `normalize_text` -/

/-- Adjacent characters that do not trigger the digit–letter spacing
substitutions of `normalize_text`: never a digit next to a letter. -/
def safePair (a b : Char) : Prop :=
  ¬(a.isDigit = true ∧ b.isAlpha = true) ∧ ¬(a.isAlpha = true ∧ b.isDigit = true)

instance : DecidableRel safePair := fun a b => by
  unfold safePair; infer_instance

/-- No two adjacent whitespace characters (the shape `re.sub(r'\s+', ' ')`
leaves behind). -/
def wsIso (a b : Char) : Prop :=
  ¬(pyIsWs a = true ∧ pyIsWs b = true)

/-- Executable check that no digit is adjacent to a letter. -/
def chainSafe : List Char → Bool
  | a :: b :: l =>
    (!(a.isDigit && b.isAlpha) && !(a.isAlpha && b.isDigit)) &&
      chainSafe (b :: l)
  | _ => true

/-! ## Theorems -/

end BibleScripts

deriving instance DecidableEq for Except

namespace BibleScripts

set_option maxRecDepth 10000

/-- Evaluation of the alias mapping, proved in chunks: all later concrete
evaluations rewrite with this so alias keys are not re-normalized at every
lookup. -/
theorem build_book_mapping_false_eval :
    build_book_mapping false = canonicalMappingLit := by
  have e6 : (build_book_mapping false).drop 1200 = mapLit7 := by decide
  have e5 : (build_book_mapping false).drop 1000 = mapLit6 ++ mapLit7 := by
    have t : ((build_book_mapping false).drop 1000).take 200 = mapLit6 := by decide
    have s : (build_book_mapping false).drop 1000 =
        ((build_book_mapping false).drop 1000).take 200 ++
        ((build_book_mapping false).drop 1000).drop 200 :=
      (List.take_append_drop _ _).symm
    rw [s, t, List.drop_drop, e6]
  have e4 : (build_book_mapping false).drop 800 = mapLit5 ++ (mapLit6 ++ mapLit7) := by
    have t : ((build_book_mapping false).drop 800).take 200 = mapLit5 := by decide
    have s : (build_book_mapping false).drop 800 =
        ((build_book_mapping false).drop 800).take 200 ++
        ((build_book_mapping false).drop 800).drop 200 :=
      (List.take_append_drop _ _).symm
    rw [s, t, List.drop_drop, e5]
  have e3 : (build_book_mapping false).drop 600 =
      mapLit4 ++ (mapLit5 ++ (mapLit6 ++ mapLit7)) := by
    have t : ((build_book_mapping false).drop 600).take 200 = mapLit4 := by decide
    have s : (build_book_mapping false).drop 600 =
        ((build_book_mapping false).drop 600).take 200 ++
        ((build_book_mapping false).drop 600).drop 200 :=
      (List.take_append_drop _ _).symm
    rw [s, t, List.drop_drop, e4]
  have e2 : (build_book_mapping false).drop 400 =
      mapLit3 ++ (mapLit4 ++ (mapLit5 ++ (mapLit6 ++ mapLit7))) := by
    have t : ((build_book_mapping false).drop 400).take 200 = mapLit3 := by decide
    have s : (build_book_mapping false).drop 400 =
        ((build_book_mapping false).drop 400).take 200 ++
        ((build_book_mapping false).drop 400).drop 200 :=
      (List.take_append_drop _ _).symm
    rw [s, t, List.drop_drop, e3]
  have e1 : (build_book_mapping false).drop 200 =
      mapLit2 ++ (mapLit3 ++ (mapLit4 ++ (mapLit5 ++ (mapLit6 ++ mapLit7)))) := by
    have t : ((build_book_mapping false).drop 200).take 200 = mapLit2 := by decide
    have s : (build_book_mapping false).drop 200 =
        ((build_book_mapping false).drop 200).take 200 ++
        ((build_book_mapping false).drop 200).drop 200 :=
      (List.take_append_drop _ _).symm
    rw [s, t, List.drop_drop, e2]
  have t : (build_book_mapping false).take 200 = mapLit1 := by decide
  have s : build_book_mapping false =
      (build_book_mapping false).take 200 ++ (build_book_mapping false).drop 200 :=
    (List.take_append_drop _ _).symm
  rw [s, t, e1]
  rfl

/-- C2 (code bug): the source's comment says sentence punctuation is removed,
but the regex `[.,;!?()[]\x7b\x7d]` only matches a punctuation character
followed by the literal text `\x7b\x7d]`, so `normalize_text "a,b"` keeps the
comma. -/
theorem normalize_text_keeps_sentence_punctuation :
    normalize_text ("a,b") = "a,b" ∧
    ((normalize_text ("a,b")).data.contains ',') = true := by
  exact ⟨by decide, by decide⟩

/-- C1 (counterexample): `normalize_text` is not idempotent; on `"1i"` the
digit/letter spacing runs after the roman-numeral pass, so the freshly
separated word `i` is only converted to `1` by a second application. -/
theorem normalize_text_not_idempotent :
    normalize_text ("1i") = "1 i" ∧
    normalize_text (normalize_text ("1i")) = "1 1" ∧
    normalize_text (normalize_text ("1i")) ≠ normalize_text ("1i") := by
  exact ⟨by decide, by decide, by decide⟩

/-- C4: the shorthand expander produces exactly the spec's literal
expansions for the four documented cases. -/
theorem expand_reference_shorthand_literal_cases :
    expand_reference_shorthand false ("Ex 9:9,25") =
      .ok ["Ex 9:9", "Ex 9:25"] ∧
    expand_reference_shorthand false ("Ex 9:9;25") =
      .ok ["Ex 9:9", "Ex 25"] ∧
    expand_reference_shorthand false ("Ex 9:9,25; 10:1") =
      .ok ["Ex 9:9", "Ex 9:25", "Ex 10:1"] ∧
    expand_reference_shorthand false ("Ex 9:9, Gen 10:10") =
      .ok ["Ex 9:9", "Gen 10:10"] := by
  unfold expand_reference_shorthand
  rw [build_book_mapping_false_eval]
  exact ⟨by decide, by decide, by decide, by decide⟩

/-- The matching loop tries candidate lengths from `n` down to 1 and stops at
the first (longest) hit. -/
theorem matchBookAux_some (mapping : List (String × String))
    (tokens : List String) :
    ∀ n i key, matchBookAux mapping tokens n = some (i, key) →
      1 ≤ i ∧ i ≤ n ∧ prefixMatches mapping tokens i ∧
      ∀ j, i < j → j ≤ n → ¬ prefixMatches mapping tokens j := by
  intro n
  induction n with
  | zero => intro i key h; simp [matchBookAux] at h
  | succ n ih =>
    intro i key h
    rw [matchBookAux] at h
    by_cases h1 : dictMem (joinSp (tokens.take (n + 1))) mapping
    · simp only [h1, if_true, Option.some.injEq, Prod.mk.injEq] at h
      obtain ⟨rfl, rfl⟩ := h
      refine ⟨by omega, le_refl _, Or.inl h1, ?_⟩
      intro j hj1 hj2
      omega
    · simp only [h1, if_false] at h
      by_cases h2 : dictMem (removeSpaces (joinSp (tokens.take (n + 1)))) mapping
      · simp only [h2, if_true, Option.some.injEq, Prod.mk.injEq] at h
        obtain ⟨rfl, rfl⟩ := h
        refine ⟨by omega, le_refl _, Or.inr h2, ?_⟩
        intro j hj1 hj2
        omega
      · simp only [h2, if_false] at h
        obtain ⟨hi1, hi2, hm, hmax⟩ := ih i key h
        refine ⟨hi1, by omega, hm, ?_⟩
        intro j hj1 hj2
        rcases Nat.lt_or_ge j (n + 1) with hlt | hge
        · exact hmax j hj1 (by omega)
        · have : j = n + 1 := by omega
          subst this
          intro hc
          rcases hc with hc | hc
          · exact h1 hc
          · exact h2 hc

/-- If any candidate length in range matches, the loop does not fail. -/
theorem matchBookAux_complete (mapping : List (String × String))
    (tokens : List String) :
    ∀ n i, 1 ≤ i → i ≤ n → prefixMatches mapping tokens i →
      matchBookAux mapping tokens n ≠ none := by
  intro n
  induction n with
  | zero => intro i h1 h2 _; omega
  | succ n ih =>
    intro i h1 h2 hm
    rw [matchBookAux]
    by_cases hc1 : dictMem (joinSp (tokens.take (n + 1))) mapping
    · simp [hc1]
    · simp only [hc1, if_false]
      by_cases hc2 : dictMem (removeSpaces (joinSp (tokens.take (n + 1)))) mapping
      · simp [hc2]
      · simp only [hc2, if_false]
        rcases Nat.lt_or_ge i (n + 1) with hlt | hge
        · exact ih i h1 (by omega) hm
        · have : i = n + 1 := by omega
          subst this
          rcases hm with hm | hm
          · exact absurd hm hc1
          · exact absurd hm hc2

/-- C3 (counterexample): the non-blank reference `".{}]"` normalizes to the
empty token list (the punctuation pattern erases all four characters), so no
prefix of any length matches, yet `parse_reference` fails with the
`"Invalid reference format"` error, not with `UnknownBook`. -/
theorem parse_reference_unknown_book_counterexample :
    parse_reference false (".{}]") = .error (.invalidFormat) ∧
    tokensOf (".{}]") = [] := by
  exact ⟨by decide, by decide⟩

/-- C3 (amended): the matcher consumes the longest prefix that is an alias
key (joined with or without interior spaces) and never misses one;
`"1 Kor 13:4"` resolves to `"1Corinthians 13:4"`; and a reference whose
normalization yields at least one token, none of whose prefixes matches,
fails with `UnknownBook` carrying the first token. -/
theorem parse_reference_longest_prefix :
    (∀ mapping tokens i key,
      matchBookAux mapping tokens tokens.length = some (i, key) →
      1 ≤ i ∧ i ≤ tokens.length ∧ prefixMatches mapping tokens i ∧
      ∀ j, i < j → j ≤ tokens.length → ¬ prefixMatches mapping tokens j) ∧
    (∀ mapping tokens i, 1 ≤ i → i ≤ tokens.length →
      prefixMatches mapping tokens i →
      matchBookAux mapping tokens tokens.length ≠ none) ∧
    parse_reference false ("1 Kor 13:4") = .ok ("1Corinthians 13:4") ∧
    (∀ mapping ref, pyStrip ref.data ≠ [] → tokensOf ref ≠ [] →
      matchBookAux mapping (tokensOf ref) (tokensOf ref).length = none →
      parseReferenceWith mapping ref =
        .error (.unknownBook ((tokensOf ref).headD ("")))) := by
  refine ⟨fun mapping tokens i key h => matchBookAux_some mapping tokens _ i key h,
    fun mapping tokens i h1 h2 hm => matchBookAux_complete mapping tokens _ i h1 h2 hm,
    ?_, ?_⟩
  · show parseReferenceWith (build_book_mapping false) ("1 Kor 13:4") =
      .ok ("1Corinthians 13:4")
    rw [build_book_mapping_false_eval]
    decide
  · intro mapping ref h1 h2 h3
    unfold parseReferenceWith
    rw [if_neg h1]
    simp only [List.isEmpty_iff, h2, if_false, h3]

/-- Witness for `parse_reference_longest_prefix` at concrete inputs. -/
theorem parse_reference_longest_prefix_witness :
    (1 ≤ 2 ∧ 2 ≤ 3 ∧
      prefixMatches canonicalMappingLit ["1", "kor", "13:4"] 2 ∧
      ∀ j, 2 < j → j ≤ 3 → ¬ prefixMatches canonicalMappingLit ["1", "kor", "13:4"] j) ∧
    matchBookAux canonicalMappingLit ["1", "kor", "13:4"] 3 ≠ none ∧
    parseReferenceWith canonicalMappingLit ("Xyz 1:1") =
      .error (.unknownBook ("xyz")) := by
  refine ⟨?_, ?_, ?_⟩
  · exact parse_reference_longest_prefix.1 canonicalMappingLit
      ["1", "kor", "13:4"] 2 "1 kor" (by decide)
  · exact parse_reference_longest_prefix.2.1 canonicalMappingLit
      ["1", "kor", "13:4"] 2 (by decide) (by decide) (by decide)
  · have h := parse_reference_longest_prefix.2.2.2 canonicalMappingLit
      ("Xyz 1:1") (by decide) (by decide) (by decide)
    rw [h]
    decide

/-- C6 (counterexample): in `bible-to-format_v2.py`'s `main`, the citation's
verse range is always `first-last` when they differ — the passage with verse
numbers 9 and 11 gets the range `"9-11"`, not the claimed comma list
`"9,11"`, although the pair is not consecutive. -/
theorem v2_verse_range_counterexample :
    v2VerseRange [(9, ["a"], false, []), (11, ["c"], false, [])] = "9-11" ∧
    isConsecutive [9, 11] = false ∧
    v2VerseRange [(9, ["a"], false, []), (11, ["c"], false, [])] ≠ "9,11" := by
  exact ⟨by decide, by decide, by decide⟩

/-- C6 (amended): the wrapper's `format_passage` renders, when first ≠ last,
a citation whose verse range is the dash range exactly when all adjacent
verse-number pairs increase by one and the explicit comma list otherwise;
`[9,10,11]` renders as `9-11` and `[9,11]` as `9,11`.  (The v2 converter's
own citation always uses the dash range, see the counterexample.) -/
theorem format_passage_verse_range :
    (∀ book chapter first last verseLines config style,
      first ≠ last →
      format_passage book chapter first last verseLines config style =
        String.intercalate ("\n")
          (verseLines.map (fun v => v.1 ++ ". " ++ v.2) ++
            ["(" ++ formatPassageBookName book config style ++ " " ++ chapter ++
              ":" ++ passageVerseRange first last verseLines ++
              formatPassageVersionTag config style ++ ")"])) ∧
    (∀ first last verseLines,
      isConsecutive (verseLines.map (fun v => natOfDigits v.1.data)) = true →
      passageVerseRange first last verseLines = first ++ "-" ++ last) ∧
    (∀ first last verseLines,
      isConsecutive (verseLines.map (fun v => natOfDigits v.1.data)) = false →
      passageVerseRange first last verseLines =
        String.intercalate (",") (verseLines.map Prod.fst)) ∧
    format_passage ("Ex") ("9") ("9") ("11")
      [("9", "a"), ("10", "b"), ("11", "c")] ⟨"SV", none, []⟩
      ("full-with-version") = "9. a\n10. b\n11. c\n(Ex 9:9-11 SV)" ∧
    format_passage ("Ex") ("9") ("9") ("11") [("9", "a"), ("11", "c")]
      ⟨"SV", none, []⟩ ("full-with-version") =
      "9. a\n11. c\n(Ex 9:9,11 SV)" := by
  refine ⟨?_, ?_, ?_, by decide, by decide⟩
  · intro book chapter first last verseLines config style h
    unfold format_passage
    simp [h]
  · intro first last verseLines h
    unfold passageVerseRange
    simp [h]
  · intro first last verseLines h
    unfold passageVerseRange
    simp [h]

/-- Witness for `format_passage_verse_range` at a concrete passage. -/
theorem format_passage_verse_range_witness :
    format_passage ("Ex") ("9") ("9") ("11") [("9", "x")] ⟨"SV", none, []⟩
      ("full-with-version") =
      String.intercalate ("\n")
        ([("9", "x")].map (fun v => v.1 ++ ". " ++ v.2) ++
          ["(" ++
            formatPassageBookName ("Ex") ⟨"SV", none, []⟩ ("full-with-version")
            ++ " " ++ "9" ++ ":" ++ passageVerseRange ("9") ("11") [("9", "x")]
            ++ formatPassageVersionTag ⟨"SV", none, []⟩ ("full-with-version")
            ++ ")"]) :=
  format_passage_verse_range.1 ("Ex") ("9") ("9") ("11") [("9", "x")]
    ⟨"SV", none, []⟩ ("full-with-version") (by decide)

/-- C7 (code bug): in tag-annotated prose mode (span tags present, no line
markers), `lines` is the one-element list `[verse_content.strip()]`, which is
non-empty even when the stripped content is empty, so the `if lines:` guard
never fires: a verse whose only content was an empty footnote placeholder
still appears, with the single line `""`.  (The plain-text branch filters
empty lines and does drop such a verse.) -/
theorem parse_html_verses_empty_verse_bug :
    parse_html_verses ("Gen 1:1: <span><note a/></span><br/>\n") =
      [⟨"Gen", "1", 1, [""], false, []⟩] ∧
    parse_html_verses ("Gen 1:1: <note a/>\nGen 1:2: x\n") =
      [⟨"Gen", "1", 2, ["x"], false, []⟩] := by
  exact ⟨by decide, by decide⟩

/-- Every reference contributes exactly one entry to the batch loop's result
list, in order. -/
theorem batch_results_map (mapping : List (String × String))
    (runRes : String → Nat) :
    ∀ (refs : List String) (acc : List (Except RefError String)) (code : Nat),
      (refs.foldl (batchStep mapping runRes) (acc, code)).1 =
        acc ++ refs.map (processOneWith mapping) := by
  intro refs
  induction refs with
  | nil => intro acc code; simp
  | cons r rs ih =>
    intro acc code
    simp only [List.foldl_cons, List.map_cons]
    rcases h : processOneWith mapping r with e | c
    · rw [show batchStep mapping runRes (acc, code) r = (acc ++ [.error e], 1) by
        simp [batchStep, h]]
      rw [ih]
      simp
    · rw [show batchStep mapping runRes (acc, code) r =
          (acc ++ [.ok c], max code (runRes c)) by simp [batchStep, h]]
      rw [ih]
      simp

/-- A non-zero exit code is never reset by later iterations. -/
theorem batch_code_mono (mapping : List (String × String))
    (runRes : String → Nat) :
    ∀ (refs : List String) (acc : List (Except RefError String)) (code : Nat),
      code ≠ 0 → (refs.foldl (batchStep mapping runRes) (acc, code)).2 ≠ 0 := by
  intro refs
  induction refs with
  | nil => intro acc code h; simpa using h
  | cons r rs ih =>
    intro acc code h
    simp only [List.foldl_cons]
    rcases hr : processOneWith mapping r with e | c
    · rw [show batchStep mapping runRes (acc, code) r = (acc ++ [.error e], 1) by
        simp [batchStep, hr]]
      exact ih _ 1 one_ne_zero
    · rw [show batchStep mapping runRes (acc, code) r =
          (acc ++ [.ok c], max code (runRes c)) by simp [batchStep, hr]]
      exact ih _ _ (by positivity)

/-- C8: when a batch of references is resolved, every reference is attempted
and reported individually (the result list is exactly the per-reference
results, in order), and if any reference fails the batch's exit status is
non-zero. -/
theorem main_batch_isolation :
    ∀ (mapping : List (String × String)) (runRes : String → Nat)
      (refs : List String),
      (mainLoopWith mapping runRes refs).1 =
        refs.map (processOneWith mapping) ∧
      ((∃ r ∈ refs, ∃ e, processOneWith mapping r = .error e) →
        (mainLoopWith mapping runRes refs).2 ≠ 0) := by
  intro mapping runRes refs
  constructor
  · simpa using batch_results_map mapping runRes refs [] 0
  · intro ⟨r, hr, e, he⟩
    unfold mainLoopWith
    obtain ⟨l1, l2, rfl⟩ := List.append_of_mem hr
    rw [List.foldl_append]
    simp only [List.foldl_cons]
    rcases hs : l1.foldl (batchStep mapping runRes) ([], 0) with ⟨acc, code⟩
    rw [show batchStep mapping runRes (acc, code) r = (acc ++ [.error e], 1) by
      simp [batchStep, he]]
    exact batch_code_mono mapping runRes l2 _ 1 one_ne_zero

/-- Witness for `main_batch_isolation`: a failing reference (`"Xyz 1:1"` has
no known book) does not prevent `"Gen 1:1"` from being resolved, and the
exit status is non-zero. -/
theorem main_batch_isolation_witness :
    (mainLoopWith canonicalMappingLit (fun _ => 0) ["Xyz 1:1", "Gen 1:1"]).1 =
      [processOneWith canonicalMappingLit ("Xyz 1:1"),
       processOneWith canonicalMappingLit ("Gen 1:1")] ∧
    (mainLoopWith canonicalMappingLit (fun _ => 0) ["Xyz 1:1", "Gen 1:1"]).2
      ≠ 0 ∧
    processOneWith canonicalMappingLit ("Gen 1:1") = .ok ("Genesis 1:1") := by
  have h := main_batch_isolation canonicalMappingLit (fun _ => 0)
    ["Xyz 1:1", "Gen 1:1"]
  refine ⟨h.1, h.2 ⟨"Xyz 1:1", by decide, .noBookContext ("Xyz 1:1"),
    by decide⟩, by decide⟩

/-- C9: the LaTeX table-style backend and the Org verse-block backend wrap
the passage in their poetry envelope exactly when some verse has two or more
lines: any passage containing a multi-line verse is wrapped, and a passage
in which every verse has exactly one line is rendered as the bare join of
its verse blocks. -/
theorem poetry_envelope_iff :
    (∀ (verseNums : String) (inlineNotes : Bool) (vs : List VerseEntry),
      (∃ v ∈ vs, 2 ≤ v.2.1.length) →
      format_latex verseNums inlineNotes vs =
        "\\begin\x7bverse\x7d\n" ++
          String.intercalate ("\\\\\n\n")
            (latexVerseBlocks verseNums inlineNotes vs) ++
          "\n\\end\x7bverse\x7d") ∧
    (∀ (verseNums : String) (inlineNotes : Bool) (vs : List VerseEntry),
      (∀ v ∈ vs, v.2.1.length = 1) →
      format_latex verseNums inlineNotes vs =
        String.intercalate ("\n\n")
          (latexVerseBlocks verseNums inlineNotes vs)) ∧
    (∀ (verseNums : String) (inlineNotes : Bool) (vs : List VerseEntry),
      (∃ v ∈ vs, 2 ≤ v.2.1.length) →
      format_org_verse verseNums inlineNotes vs =
        "#+BEGIN_VERSE\n" ++
          String.intercalate ("\n\n")
            (orgVerseBlocks verseNums inlineNotes vs) ++
          "\n#+END_VERSE") ∧
    (∀ (verseNums : String) (inlineNotes : Bool) (vs : List VerseEntry),
      (∀ v ∈ vs, v.2.1.length = 1) →
      format_org_verse verseNums inlineNotes vs =
        String.intercalate ("\n\n")
          (orgVerseBlocks verseNums inlineNotes vs)) := by
  have hpos : ∀ (vs : List VerseEntry), (∃ v ∈ vs, 2 ≤ v.2.1.length) →
      vs.any (fun v => 1 < v.2.1.length) = true := by
    intro vs h
    obtain ⟨v, hv, hlen⟩ := h
    refine List.any_eq_true.mpr ⟨v, hv, ?_⟩
    simp only [decide_eq_true_eq]
    omega
  have hneg : ∀ (vs : List VerseEntry), (∀ v ∈ vs, v.2.1.length = 1) →
      vs.any (fun v => 1 < v.2.1.length) = false := by
    intro vs h
    simp only [List.any_eq_false]
    intro v hv
    simp [h v hv]
  refine ⟨?_, ?_, ?_, ?_⟩
  · intro verseNums inlineNotes vs h
    simp [format_latex, hpos vs h]
  · intro verseNums inlineNotes vs h
    simp [format_latex, hneg vs h]
  · intro verseNums inlineNotes vs h
    simp [format_org_verse, hpos vs h]
  · intro verseNums inlineNotes vs h
    simp [format_org_verse, hneg vs h]

/-- Witness for `poetry_envelope_iff`: a two-line verse is wrapped, a
one-line passage is not. -/
theorem poetry_envelope_iff_witness :
    format_latex ("dots") false [(1, ["a", "b"], false, [])] =
      "\\begin\x7bverse\x7d\n" ++
        String.intercalate ("\\\\\n\n")
          (latexVerseBlocks ("dots") false [(1, ["a", "b"], false, [])]) ++
        "\n\\end\x7bverse\x7d" ∧
    format_org_verse ("dots") false [(1, ["a"], false, [])] =
      String.intercalate ("\n\n")
        (orgVerseBlocks ("dots") false [(1, ["a"], false, [])]) := by
  refine ⟨poetry_envelope_iff.1 ("dots") false _ ?_,
    poetry_envelope_iff.2.2.2 ("dots") false _ ?_⟩
  · exact ⟨(1, ["a", "b"], false, []), by decide, by decide⟩
  · intro v hv
    simp only [List.mem_singleton] at hv
    subst hv
    rfl

/-- Rebuild a verse record from a passage's book and chapter and a verse
entry. -/
def rebuildVerse (b c : String) (e : VerseEntry) : VerseT :=
  ⟨b, c, e.1, e.2.1, e.2.2.1, e.2.2.2⟩

/-- Flatten passages back to verse records, each carrying its passage's book
and chapter. -/
def ungroup (ps : List (String × String × List VerseEntry)) : List VerseT :=
  ps.flatMap (fun p => p.2.2.map (rebuildVerse p.1 p.2.1))

theorem rebuildVerse_entry (v : VerseT) :
    rebuildVerse v.book v.chapter (verseEntryOf v) = v := rfl

theorem ungroup_groupGo :
    ∀ (vs : List VerseT) (b c : String) (cur : List VerseEntry),
      ungroup (groupGo b c cur vs) =
        cur.reverse.map (rebuildVerse b c) ++ vs := by
  intro vs
  induction vs with
  | nil =>
    intro b c cur
    simp [groupGo, ungroup]
  | cons v vs ih =>
    intro b c cur
    rw [groupGo]
    by_cases h : (v.book = b && v.chapter = c) = true
    · rw [if_pos h]
      rw [ih]
      simp only [Bool.and_eq_true, decide_eq_true_eq] at h
      obtain ⟨hb, hc⟩ := h
      subst hb; subst hc
      simp [rebuildVerse_entry]
    · rw [if_neg h]
      simp only [ungroup, List.flatMap_cons]
      rw [show (groupGo v.book v.chapter [verseEntryOf v] vs).flatMap
          (fun p => p.2.2.map (rebuildVerse p.1 p.2.1)) =
          ungroup (groupGo v.book v.chapter [verseEntryOf v] vs) from rfl]
      rw [ih]
      simp [rebuildVerse_entry]

theorem groupGo_nonempty :
    ∀ (vs : List VerseT) (b c : String) (cur : List VerseEntry),
      cur ≠ [] → ∀ p ∈ groupGo b c cur vs, p.2.2 ≠ [] := by
  intro vs
  induction vs with
  | nil =>
    intro b c cur hcur p hp
    simp only [groupGo, List.mem_singleton] at hp
    subst hp
    simpa using hcur
  | cons v vs ih =>
    intro b c cur hcur p hp
    rw [groupGo] at hp
    by_cases h : (v.book = b && v.chapter = c) = true
    · rw [if_pos h] at hp
      exact ih b c _ (by simp) p hp
    · rw [if_neg h] at hp
      rcases List.mem_cons.mp hp with rfl | hp2
      · simpa using hcur
      · exact ih v.book v.chapter _ (by simp) p hp2

theorem groupGo_head :
    ∀ (vs : List VerseT) (b c : String) (cur : List VerseEntry),
      ∃ entries rest, groupGo b c cur vs = (b, c, entries) :: rest := by
  intro vs
  induction vs with
  | nil => intro b c cur; exact ⟨cur.reverse, [], rfl⟩
  | cons v vs ih =>
    intro b c cur
    rw [groupGo]
    by_cases h : (v.book = b && v.chapter = c) = true
    · rw [if_pos h]; exact ih b c _
    · rw [if_neg h]; exact ⟨cur.reverse, _, rfl⟩

theorem groupGo_chain :
    ∀ (vs : List VerseT) (b c : String) (cur : List VerseEntry),
      List.Chain' (fun p q : String × String × List VerseEntry =>
        ¬(p.1 = q.1 ∧ p.2.1 = q.2.1)) (groupGo b c cur vs) := by
  intro vs
  induction vs with
  | nil => intro b c cur; simp [groupGo]
  | cons v vs ih =>
    intro b c cur
    rw [groupGo]
    by_cases h : (v.book = b && v.chapter = c) = true
    · rw [if_pos h]; exact ih b c _
    · rw [if_neg h]
      rw [List.chain'_cons']
      refine ⟨?_, ih v.book v.chapter _⟩
      intro q hq
      obtain ⟨entries, rest, heq⟩ := groupGo_head vs v.book v.chapter
        [verseEntryOf v]
      rw [heq] at hq
      simp only [List.head?_cons, Option.mem_def, Option.some.injEq] at hq
      subst hq
      simp only [Bool.and_eq_true, decide_eq_true_eq] at h
      intro hcon
      exact h ⟨hcon.1.symm, hcon.2.symm⟩

/-- C10: `group_passages` is an order-preserving, lossless partition of its
input by (book, chapter): rebuilding every verse from its passage's book and
chapter restores exactly the input sequence (so each verse shares its
passage's key, nothing is dropped, duplicated or reordered), no passage is
empty, and adjacent passages never share a (book, chapter) key (a new
passage starts exactly at a key change). -/
theorem group_passages_partition :
    ∀ vs : List VerseT,
      ungroup (group_passages vs) = vs ∧
      (∀ p ∈ group_passages vs, p.2.2 ≠ []) ∧
      List.Chain' (fun p q : String × String × List VerseEntry =>
        ¬(p.1 = q.1 ∧ p.2.1 = q.2.1)) (group_passages vs) := by
  intro vs
  match vs with
  | [] => exact ⟨rfl, by simp [group_passages], by simp [group_passages]⟩
  | v :: vs =>
    refine ⟨?_, ?_, ?_⟩
    · rw [group_passages, ungroup_groupGo]
      simp [rebuildVerse_entry]
    · rw [group_passages]
      exact groupGo_nonempty vs v.book v.chapter _ (by simp)
    · rw [group_passages]
      exact groupGo_chain vs v.book v.chapter _

/-- Witness for `group_passages_partition` at a concrete verse sequence. -/
theorem group_passages_partition_witness :
    ungroup (group_passages
      [⟨"A", "1", 1, ["x"], false, []⟩, ⟨"A", "1", 2, ["y"], false, []⟩,
       ⟨"B", "2", 3, ["z"], false, []⟩]) =
      [⟨"A", "1", 1, ["x"], false, []⟩, ⟨"A", "1", 2, ["y"], false, []⟩,
       ⟨"B", "2", 3, ["z"], false, []⟩] ∧
    (("A", "1", [(1, ["x"], false, []), (2, ["y"], false, [])]) :
        String × String × List VerseEntry).2.2 ≠ [] := by
  refine ⟨(group_passages_partition _).1, ?_⟩
  exact (group_passages_partition
    [⟨"A", "1", 1, ["x"], false, []⟩, ⟨"A", "1", 2, ["y"], false, []⟩,
     ⟨"B", "2", 3, ["z"], false, []⟩]).2.1 _ (by decide)

/-- Fuel does not matter once it covers the input length. -/
theorem applySubF_congr (m : Matcher) (hm : MatcherOk m) :
    ∀ (n1 n2 : Nat) (l : List Char), l.length ≤ n1 → l.length ≤ n2 →
      applySubF m n1 l = applySubF m n2 l := by
  intro n1
  induction n1 with
  | zero =>
    intro n2 l h1 _
    have : l = [] := List.eq_nil_of_length_eq_zero (by omega)
    subst this
    cases n2 <;> rfl
  | succ n ih =>
    intro n2 l h1 h2
    match l, n2 with
    | [], 0 => rfl
    | [], k + 1 => rfl
    | c :: cs, 0 => simp at h2
    | c :: cs, k + 1 =>
      rcases h : m (c :: cs) with _ | ⟨r, rest⟩
      · simp only [applySubF, h]
        simp only [List.length_cons] at h1 h2
        rw [ih k cs (by omega) (by omega)]
      · have hlen := (hm.2 c cs r rest h).length_le
        simp only [applySubF, h]
        simp only [List.length_cons] at h1 h2
        rw [ih k rest (by omega) (by omega)]

theorem applySub_cons_match (m : Matcher) (hm : MatcherOk m) {c : Char}
    {cs r rest : List Char} (h : m (c :: cs) = some (r, rest)) :
    applySub m (c :: cs) = r ++ applySub m rest := by
  have hlen := (hm.2 c cs r rest h).length_le
  unfold applySub
  simp only [List.length_cons, applySubF, h]
  exact congrArg (r ++ ·)
    (applySubF_congr m hm cs.length rest.length rest hlen (le_refl _))

theorem applySub_cons_nomatch (m : Matcher) {c : Char}
    {cs : List Char} (h : m (c :: cs) = none) :
    applySub m (c :: cs) = c :: applySub m cs := by
  unfold applySub
  simp only [List.length_cons, applySubF, h]

/-- Where the matcher never fires, the substitution is the identity. -/
theorem applySub_id (m : Matcher) :
    ∀ l : List Char, existsMatch m l = false → applySub m l = l := by
  intro l
  induction l with
  | nil => intro _; rfl
  | cons c cs ih =>
    intro h
    rw [existsMatch, Bool.or_eq_false_iff] at h
    have hnone : m (c :: cs) = none := by
      rcases hh : m (c :: cs) with _ | v
      · rfl
      · rw [hh] at h; simp at h
    rw [applySub_cons_nomatch m hnone, ih h.2]

/-- A substitution whose replacements are newline-free cannot introduce a
newline. -/
theorem applySub_no_newline (m : Matcher) (hm : MatcherOk m)
    (hr : ∀ c cs r rest, m (c :: cs) = some (r, rest) → '\n' ∉ r) :
    ∀ (n : Nat) (l : List Char), l.length ≤ n → '\n' ∉ l →
      '\n' ∉ applySub m l := by
  intro n
  induction n with
  | zero =>
    intro l h1 h2
    have : l = [] := List.eq_nil_of_length_eq_zero (by omega)
    subst this
    intro hx
    exact absurd hx (by simp [applySub, applySubF])
  | succ n ih =>
    intro l h1 h2
    match l with
    | [] =>
      intro hx
      exact absurd hx (by simp [applySub, applySubF])
    | c :: cs =>
      rcases h : m (c :: cs) with _ | ⟨r, rest⟩
      · rw [applySub_cons_nomatch m h]
        intro hmem
        rcases List.mem_cons.mp hmem with h' | h'
        · exact h2 (h' ▸ List.mem_cons_self c cs)
        · have hcs : '\n' ∉ cs := fun hx => h2 (List.mem_cons_of_mem c hx)
          simp only [List.length_cons] at h1
          exact ih cs (by omega) hcs h'
      · have hs := hm.2 c cs r rest h
        rw [applySub_cons_match m hm h]
        intro hmem
        rcases List.mem_append.mp hmem with h' | h'
        · exact hr c cs r rest h h'
        · have hrest : '\n' ∉ rest := fun hx =>
            h2 (List.mem_cons_of_mem c (hs.subset hx))
          have := hs.length_le
          simp only [List.length_cons] at h1
          exact ih rest (by omega) hrest h'

/-- On success `lSidMatch` erases text and leaves a suffix of its input. -/
theorem lSidMatch_spec {l r rest : List Char}
    (h : lSidMatch l = some (r, rest)) : r = [] ∧ rest <:+ l := by
  simp only [lSidMatch] at h
  split at h
  · split at h
    · rename_i rest1 heq
      simp only [Option.some.injEq, Prod.mk.injEq] at h
      obtain ⟨rfl, rfl⟩ := h
      have hs3 : rest1 <:+ (l.drop 8).dropWhile (fun c => c ≠ '"') := by
        rw [heq]
        exact ⟨['"', '/', '>'], rfl⟩
      exact ⟨rfl, (hs3.trans (List.dropWhile_suffix _)).trans
        (List.drop_suffix _ _)⟩
    · exact absurd h (by simp)
  · exact absurd h (by simp)

theorem lMarkerMatch_spec {c : Char} {cs r rest : List Char}
    (h : lMarkerMatch (c :: cs) = some (r, rest)) : r = [] ∧ rest <:+ cs := by
  simp only [lMarkerMatch] at h
  split at h
  · split at h
    · rename_i rest1 heq
      simp only [Option.some.injEq, Prod.mk.injEq] at h
      obtain ⟨rfl, rfl⟩ := h
      have h3 : (c :: cs).drop 8 <:+ cs := by
        rw [List.drop_succ_cons]
        exact List.drop_suffix _ _
      have hs3 : rest1 <:+ ((c :: cs).drop 8).dropWhile (fun c => c ≠ '"') := by
        rw [heq]
        exact ⟨['"', '/', '>'], rfl⟩
      exact ⟨rfl, (hs3.trans (List.dropWhile_suffix _)).trans h3⟩
    · exact absurd h (by simp)
  · exact absurd h (by simp)

theorem lMarkerMatch_ok : MatcherOk lMarkerMatch :=
  ⟨rfl, fun _ _ _ _ h => (lMarkerMatch_spec h).2⟩

theorem chapterTagMatch_spec {c : Char} {cs r rest : List Char}
    (h : chapterTagMatch (c :: cs) = some (r, rest)) :
    r = [] ∧ rest <:+ cs := by
  simp only [chapterTagMatch] at h
  split at h
  · split at h
    · rename_i rest1 heq
      simp only [Option.some.injEq, Prod.mk.injEq] at h
      obtain ⟨rfl, rfl⟩ := h
      have h3 : (c :: cs).drop 8 <:+ cs := by
        rw [List.drop_succ_cons]
        exact List.drop_suffix _ _
      have hs3 : rest1 <:+ ((c :: cs).drop 8).dropWhile (fun c => c ≠ '>') := by
        rw [heq]
        exact ⟨['>'], rfl⟩
      exact ⟨rfl, (hs3.trans (List.dropWhile_suffix _)).trans h3⟩
    · exact absurd h (by simp)
  · exact absurd h (by simp)

theorem chapterTagMatch_ok : MatcherOk chapterTagMatch :=
  ⟨rfl, fun _ _ _ _ h => (chapterTagMatch_spec h).2⟩

theorem adjacentLMatch_spec {c : Char} {cs r rest : List Char}
    (h : adjacentLMatch (c :: cs) = some (r, rest)) :
    r = ['\n'] ∧ rest <:+ cs := by
  simp only [adjacentLMatch] at h
  split at h
  · split at h
    · rename_i rest1 heq
      split at h
      · rename_i p rest3 hsid
        simp only [Option.some.injEq, Prod.mk.injEq] at h
        obtain ⟨rfl, rfl⟩ := h
        have hs1 := (lSidMatch_spec hsid).2
        have hs2 : rest1.dropWhile pyIsWs <:+ rest1 := List.dropWhile_suffix _
        have hs3 : rest1 <:+ ((c :: cs).drop 8).dropWhile (fun c => c ≠ '"') := by
          rw [heq]
          exact ⟨['"', '/', '>'], rfl⟩
        have h3 : (c :: cs).drop 8 <:+ cs := by
          rw [List.drop_succ_cons]
          exact List.drop_suffix _ _
        exact ⟨rfl, ((((hs1.trans hs2).trans hs3).trans
          (List.dropWhile_suffix _)).trans h3)⟩
      · exact absurd h (by simp)
    · exact absurd h (by simp)
  · exact absurd h (by simp)

theorem adjacentLMatch_ok : MatcherOk adjacentLMatch :=
  ⟨rfl, fun _ _ _ _ h => (adjacentLMatch_spec h).2⟩

theorem splitOnChar_no_sep (sep : Char) :
    ∀ l : List Char, sep ∉ l → splitOnChar sep l = [l] := by
  intro l
  induction l with
  | nil => intro _; rfl
  | cons c cs ih =>
    intro h
    rw [splitOnChar]
    rw [if_neg (fun hc : c = sep => h (by rw [← hc]; exact List.mem_cons_self c cs))]
    rw [ih (fun hx => h (List.mem_cons_of_mem c hx))]

/-- A newline-free text yields at most one line. -/
theorem linesOf_no_newline (l : List Char) (h : '\n' ∉ l) :
    (linesOf l).length ≤ 1 := by
  unfold linesOf
  rw [splitOnChar_no_sep '\n' l h]
  simp only [List.map_cons, List.map_nil]
  by_cases he : (pyStrip l).isEmpty
  · simp [List.filterMap, he]
  · simp [List.filterMap, he]

/-- C5 (counterexample): a verse content with a literal newline and no
adjacent end/start line-marker pair still yields two lines, so the claim's
"line count exceeds one only due to such adjacent pairs" is false. -/
theorem line_break_newline_counterexample :
    processPoeticLines (("a\nb").data) = ["a", "b"] ∧
    existsMatch adjacentLMatch (("a\nb").data) = false ∧
    1 < (processPoeticLines (("a\nb").data)).length := by
  exact ⟨by decide, by decide, by decide⟩

/-- C5 (amended): an end-line marker followed (up to whitespace) by a
start-line marker becomes one line break; any other line marker is removed
without a break; and a verse content with no such adjacent pair and no
pre-existing literal newline yields at most one line. -/
theorem adjacent_line_marker_rule :
    processPoeticLines (("a<l eID=\"x\"/> <l sID=\"y\"/>b").data) =
      ["a", "b"] ∧
    processPoeticLines (("a<l sID=\"x\"/>b<l eID=\"y\"/>c").data) = ["abc"] ∧
    (∀ l : List Char, '\n' ∉ l → existsMatch adjacentLMatch l = false →
      (processPoeticLines l).length ≤ 1) := by
  refine ⟨by decide, by decide, ?_⟩
  intro l hn hnm
  unfold processPoeticLines
  rw [applySub_id adjacentLMatch l hnm]
  have h1 : '\n' ∉ applySub lMarkerMatch l :=
    applySub_no_newline lMarkerMatch lMarkerMatch_ok
      (fun c cs r rest hr => by
        rw [(lMarkerMatch_spec hr).1]
        simp)
      l.length l (le_refl _) hn
  have h2 : '\n' ∉ applySub chapterTagMatch (applySub lMarkerMatch l) :=
    applySub_no_newline chapterTagMatch chapterTagMatch_ok
      (fun c cs r rest hr => by
        rw [(chapterTagMatch_spec hr).1]
        simp)
      (applySub lMarkerMatch l).length _ (le_refl _) h1
  exact linesOf_no_newline _ h2

/-- Witness for `adjacent_line_marker_rule` at a concrete marker-free
content. -/
theorem adjacent_line_marker_rule_witness :
    (processPoeticLines (("abc").data)).length ≤ 1 :=
  adjacent_line_marker_rule.2.2 (("abc").data) (by decide) (by decide)

theorem mapRunsF_congr (p : Char → Bool) (f : List Char → List Char) :
    ∀ (n1 n2 : Nat) (l : List Char), l.length ≤ n1 → l.length ≤ n2 →
      mapRunsF p f n1 l = mapRunsF p f n2 l := by
  intro n1
  induction n1 with
  | zero =>
    intro n2 l h1 _
    have : l = [] := List.eq_nil_of_length_eq_zero (by omega)
    subst this
    cases n2 <;> rfl
  | succ n ih =>
    intro n2 l h1 h2
    match l, n2 with
    | [], 0 => rfl
    | [], k + 1 => rfl
    | c :: cs, 0 => simp at h2
    | c :: cs, k + 1 =>
      simp only [List.length_cons] at h1 h2
      rcases hc : p c with _ | _
      · simp only [mapRunsF, hc, Bool.false_eq_true, if_false]
        rw [ih k cs (by omega) (by omega)]
      · simp only [mapRunsF, hc, if_true]
        rw [ih k (cs.dropWhile p)
          (le_trans (List.dropWhile_suffix p).length_le (by omega))
          (le_trans (List.dropWhile_suffix p).length_le (by omega))]

theorem runsOfF_congr (p : Char → Bool) :
    ∀ (n1 n2 : Nat) (l : List Char), l.length ≤ n1 → l.length ≤ n2 →
      runsOfF p n1 l = runsOfF p n2 l := by
  intro n1
  induction n1 with
  | zero =>
    intro n2 l h1 _
    have : l = [] := List.eq_nil_of_length_eq_zero (by omega)
    subst this
    cases n2 <;> rfl
  | succ n ih =>
    intro n2 l h1 h2
    match l, n2 with
    | [], 0 => rfl
    | [], k + 1 => rfl
    | c :: cs, 0 => simp at h2
    | c :: cs, k + 1 =>
      simp only [List.length_cons] at h1 h2
      rcases hc : p c with _ | _
      · simp only [runsOfF, hc, Bool.false_eq_true, if_false]
        rw [ih k cs (by omega) (by omega)]
      · simp only [runsOfF, hc, if_true]
        rw [ih k (cs.dropWhile p)
          (le_trans (List.dropWhile_suffix p).length_le (by omega))
          (le_trans (List.dropWhile_suffix p).length_le (by omega))]

theorem mapRuns_nil (p : Char → Bool) (f : List Char → List Char) :
    mapRuns p f [] = [] := rfl

theorem mapRuns_cons_pos (p : Char → Bool) (f : List Char → List Char)
    {c : Char} (cs : List Char) (hc : p c = true) :
    mapRuns p f (c :: cs) =
      f (c :: cs.takeWhile p) ++ mapRuns p f (cs.dropWhile p) := by
  unfold mapRuns
  simp only [List.length_cons, mapRunsF, hc, if_true]
  rw [mapRunsF_congr p f cs.length (cs.dropWhile p).length (cs.dropWhile p)
    (List.dropWhile_suffix p).length_le (le_refl _)]

theorem mapRuns_cons_neg (p : Char → Bool) (f : List Char → List Char)
    {c : Char} (cs : List Char) (hc : p c = false) :
    mapRuns p f (c :: cs) = c :: mapRuns p f cs := by
  unfold mapRuns
  simp only [List.length_cons, mapRunsF, hc, Bool.false_eq_true, if_false]

theorem runsOf_nil (p : Char → Bool) : runsOf p [] = [] := rfl

theorem runsOf_cons_pos (p : Char → Bool) {c : Char} (cs : List Char)
    (hc : p c = true) :
    runsOf p (c :: cs) =
      (c :: cs.takeWhile p) :: runsOf p (cs.dropWhile p) := by
  unfold runsOf
  simp only [List.length_cons, runsOfF, hc, if_true]
  rw [runsOfF_congr p cs.length (cs.dropWhile p).length (cs.dropWhile p)
    (List.dropWhile_suffix p).length_le (le_refl _)]

theorem runsOf_cons_neg (p : Char → Bool) {c : Char} (cs : List Char)
    (hc : p c = false) :
    runsOf p (c :: cs) = runsOf p cs := by
  unfold runsOf
  simp only [List.length_cons, runsOfF, hc, Bool.false_eq_true, if_false]

/-- `takeWhile` does not cross into a right part whose head fails the
predicate. -/
theorem takeWhile_append_stop (q : Char → Bool) (xs ys : List Char)
    (hy : ∀ y ∈ ys.head?, q y = false) :
    (xs ++ ys).takeWhile q = xs.takeWhile q := by
  induction xs with
  | nil =>
    cases ys with
    | nil => rfl
    | cons y ys' =>
      have := hy y rfl
      simp [List.takeWhile_cons, this]
  | cons x xs ih =>
    simp only [List.cons_append, List.takeWhile_cons]
    rcases hx : q x with _ | _
    · simp
    · simp only [if_true, ih]

theorem dropWhile_append_stop (q : Char → Bool) (xs ys : List Char)
    (hy : ∀ y ∈ ys.head?, q y = false) :
    (xs ++ ys).dropWhile q = xs.dropWhile q ++ ys := by
  induction xs with
  | nil =>
    cases ys with
    | nil => rfl
    | cons y ys' =>
      have := hy y rfl
      simp [List.dropWhile_cons, this]
  | cons x xs ih =>
    simp only [List.cons_append, List.dropWhile_cons]
    rcases hx : q x with _ | _
    · simp
    · simp only [if_true, ih]

theorem mapRuns_head_keep (p : Char → Bool) (f : List Char → List Char)
    (m : List Char) (hm : ∀ y ∈ m.head?, p y = false) :
    (mapRuns p f m).head? = m.head? := by
  cases m with
  | nil => rfl
  | cons c cs =>
    rw [mapRuns_cons_neg p f cs (hm c rfl)]
    rfl

/-- Every character of a run-mapping comes from the input unless the run
images provide it. -/
theorem mapRunsF_mem (p : Char → Bool) (f : List Char → List Char)
    (P : Char → Prop) (hf : ∀ w x, x ∈ f w → x ∈ w ∨ P x) :
    ∀ (n : Nat) (m : List Char), m.length ≤ n →
      ∀ x ∈ mapRunsF p f n m, x ∈ m ∨ P x := by
  intro n
  induction n with
  | zero =>
    intro m h1 x hx
    have : m = [] := List.eq_nil_of_length_eq_zero (by omega)
    subst this
    simp [mapRunsF] at hx
  | succ n ih =>
    intro m h1 x hx
    match m with
    | [] => simp [mapRunsF] at hx
    | c :: cs =>
      simp only [List.length_cons] at h1
      rcases hc : p c with _ | _
      · simp only [mapRunsF, hc, Bool.false_eq_true, if_false] at hx
        rcases List.mem_cons.mp hx with rfl | hx
        · exact Or.inl (List.mem_cons_self x cs)
        · rcases ih cs (by omega) x hx with h | h
          · exact Or.inl (List.mem_cons_of_mem c h)
          · exact Or.inr h
      · simp only [mapRunsF, hc, if_true] at hx
        rcases List.mem_append.mp hx with hx | hx
        · rcases hf _ x hx with h | h
          · rcases List.mem_cons.mp h with rfl | h
            · exact Or.inl (List.mem_cons_self x cs)
            · exact Or.inl
                (List.mem_cons_of_mem c ((List.takeWhile_prefix p).subset h))
          · exact Or.inr h
        · rcases ih (cs.dropWhile p)
              (le_trans (List.dropWhile_suffix p).length_le (by omega)) x hx
            with h | h
          · exact Or.inl
              (List.mem_cons_of_mem c ((List.dropWhile_suffix p).subset h))
          · exact Or.inr h

theorem mapRuns_mem (p : Char → Bool) (f : List Char → List Char)
    (P : Char → Prop) (hf : ∀ w x, x ∈ f w → x ∈ w ∨ P x)
    (m : List Char) : ∀ x ∈ mapRuns p f m, x ∈ m ∨ P x :=
  mapRunsF_mem p f P hf m.length m (le_refl _)

/-- A maximal run is nonempty, drawn from the list, and all-`p`. -/
theorem runsOf_sub (p : Char → Bool) :
    ∀ (n : Nat) (m : List Char), m.length ≤ n →
      ∀ r ∈ runsOfF p n m, r ≠ [] ∧ ∀ x ∈ r, x ∈ m ∧ p x = true := by
  intro n
  induction n with
  | zero =>
    intro m h1 r hr
    have : m = [] := List.eq_nil_of_length_eq_zero (by omega)
    subst this
    simp [runsOfF] at hr
  | succ n ih =>
    intro m h1 r hr
    match m with
    | [] => simp [runsOfF] at hr
    | c :: cs =>
      simp only [List.length_cons] at h1
      rcases hc : p c with _ | _
      · simp only [runsOfF, hc, Bool.false_eq_true, if_false] at hr
        rcases ih cs (by omega) r hr with ⟨hne, hall⟩
        exact ⟨hne, fun x hx =>
          ⟨List.mem_cons_of_mem c (hall x hx).1, (hall x hx).2⟩⟩
      · simp only [runsOfF, hc, if_true] at hr
        rcases List.mem_cons.mp hr with rfl | hr
        · refine ⟨by simp, fun x hx => ?_⟩
          rcases List.mem_cons.mp hx with rfl | hx
          · exact ⟨List.mem_cons_self x cs, hc⟩
          · exact ⟨List.mem_cons_of_mem c ((List.takeWhile_prefix p).subset hx),
              List.mem_takeWhile_imp hx⟩
        · rcases ih (cs.dropWhile p)
              (le_trans (List.dropWhile_suffix p).length_le (by omega)) r hr
            with ⟨hne, hall⟩
          exact ⟨hne, fun x hx =>
            ⟨List.mem_cons_of_mem c ((List.dropWhile_suffix p).subset (hall x hx).1),
              (hall x hx).2⟩⟩

/-- When no two `p`-characters are adjacent, every maximal run is a
singleton. -/
theorem runsOf_singleton (p : Char → Bool) :
    ∀ (n : Nat) (m : List Char), m.length ≤ n →
      List.Chain' (fun a b => ¬(p a = true ∧ p b = true)) m →
      ∀ r ∈ runsOfF p n m, ∃ c, r = [c] := by
  intro n
  induction n with
  | zero =>
    intro m h1 _ r hr
    have : m = [] := List.eq_nil_of_length_eq_zero (by omega)
    subst this
    simp [runsOfF] at hr
  | succ n ih =>
    intro m h1 hch r hr
    match m with
    | [] => simp [runsOfF] at hr
    | c :: cs =>
      simp only [List.length_cons] at h1
      rcases hc : p c with _ | _
      · simp only [runsOfF, hc, Bool.false_eq_true, if_false] at hr
        exact ih cs (by omega) hch.tail r hr
      · simp only [runsOfF, hc, if_true] at hr
        rcases List.mem_cons.mp hr with rfl | hr
        · refine ⟨c, ?_⟩
          cases cs with
          | nil => rfl
          | cons d cs' =>
            have hd : p d = false := by
              have := List.chain'_cons.mp hch
              rcases hpd : p d with _ | _
              · rfl
              · exact absurd ⟨hc, hpd⟩ this.1
            simp [List.takeWhile_cons, hd]
        · exact ih (cs.dropWhile p)
            (le_trans (List.dropWhile_suffix p).length_le (by omega))
            (hch.tail.suffix (List.dropWhile_suffix p)) r hr

/-- A run-mapping whose image fixes every maximal run is the identity. -/
theorem mapRunsF_eq_self (p : Char → Bool) (f : List Char → List Char) :
    ∀ (n : Nat) (m : List Char), m.length ≤ n →
      (∀ r ∈ runsOf p m, f r = r) → mapRunsF p f n m = m := by
  intro n
  induction n with
  | zero =>
    intro m h1 _
    have : m = [] := List.eq_nil_of_length_eq_zero (by omega)
    subst this
    rfl
  | succ n ih =>
    intro m h1 hfix
    match m with
    | [] => rfl
    | c :: cs =>
      simp only [List.length_cons] at h1
      rcases hc : p c with _ | _
      · rw [runsOf_cons_neg p cs hc] at hfix
        simp only [mapRunsF, hc, Bool.false_eq_true, if_false]
        rw [ih cs (by omega) hfix]
      · rw [runsOf_cons_pos p cs hc] at hfix
        simp only [mapRunsF, hc, if_true]
        rw [hfix (c :: cs.takeWhile p) (List.mem_cons_self _ _),
          ih (cs.dropWhile p)
            (le_trans (List.dropWhile_suffix p).length_le (by omega))
            (fun r hr => hfix r (List.mem_cons_of_mem _ hr))]
        exact congrArg (c :: ·) (List.takeWhile_append_dropWhile p cs)

theorem mapRuns_eq_self (p : Char → Bool) (f : List Char → List Char)
    (m : List Char) (hfix : ∀ r ∈ runsOf p m, f r = r) :
    mapRuns p f m = m :=
  mapRunsF_eq_self p f m.length m (le_refl _) hfix

/-- Runs ignore a leading block of non-run characters. -/
theorem runsOf_append_nonq (q : Char → Bool) (b r : List Char)
    (hb : ∀ x ∈ b, q x = false) :
    runsOf q (b ++ r) = runsOf q r := by
  induction b with
  | nil => rfl
  | cons x b ih =>
    simp only [List.cons_append]
    rw [runsOf_cons_neg q _ (hb x (List.mem_cons_self x b)),
      ih (fun y hy => hb y (List.mem_cons_of_mem x hy))]

/-- A nonempty all-`q` block followed by a list starting outside `q` is
exactly the first maximal run. -/
theorem runsOf_append_block (q : Char → Bool) (b r : List Char)
    (hb : ∀ x ∈ b, q x = true) (hbne : b ≠ [])
    (hr : ∀ y ∈ r.head?, q y = false) :
    runsOf q (b ++ r) = b :: runsOf q r := by
  cases b with
  | nil => exact absurd rfl hbne
  | cons x b =>
    simp only [List.cons_append]
    rw [runsOf_cons_pos q _ (hb x (List.mem_cons_self x b))]
    rw [takeWhile_append_stop q b r hr, dropWhile_append_stop q b r hr]
    rw [List.takeWhile_eq_self_iff.mpr
      (fun y hy => hb y (List.mem_cons_of_mem x hy))]
    rw [List.dropWhile_eq_nil_iff.mpr
      (fun y hy => hb y (List.mem_cons_of_mem x hy))]
    rfl

/-- A run-mapping passes over a block of non-run characters unchanged. -/
theorem mapRuns_append_nonp (p : Char → Bool) (f : List Char → List Char)
    (b r : List Char) (hb : ∀ x ∈ b, p x = false) :
    mapRuns p f (b ++ r) = b ++ mapRuns p f r := by
  induction b with
  | nil => rfl
  | cons x b ih =>
    simp only [List.cons_append]
    rw [mapRuns_cons_neg p f _ (hb x (List.mem_cons_self x b)),
      ih (fun y hy => hb y (List.mem_cons_of_mem x hy))]

theorem pyStrip_eq_rdropWhile (l : List Char) :
    pyStrip l = List.rdropWhile pyIsWs (l.dropWhile pyIsWs) := rfl

theorem rdropWhile_append_rtakeWhile (p : Char → Bool) (l : List Char) :
    List.rdropWhile p l ++ List.rtakeWhile p l = l := by
  rw [List.rdropWhile, List.rtakeWhile, ← List.reverse_append,
    List.takeWhile_append_dropWhile, List.reverse_reverse]

theorem pyStrip_mem (l : List Char) : ∀ x ∈ pyStrip l, x ∈ l := by
  intro x hx
  rw [pyStrip_eq_rdropWhile] at hx
  exact (List.dropWhile_suffix pyIsWs).subset
    ((List.rdropWhile_prefix pyIsWs _).subset hx)

theorem pyStrip_chain {R : Char → Char → Prop} {l : List Char}
    (h : List.Chain' R l) : List.Chain' R (pyStrip l) := by
  rw [pyStrip_eq_rdropWhile]
  exact List.Chain'.prefix (h.suffix (List.dropWhile_suffix pyIsWs))
    (List.rdropWhile_prefix pyIsWs _)

theorem pyStrip_idem (l : List Char) : pyStrip (pyStrip l) = pyStrip l := by
  rw [pyStrip_eq_rdropWhile, pyStrip_eq_rdropWhile]
  have h1 : (List.rdropWhile pyIsWs (l.dropWhile pyIsWs)).dropWhile pyIsWs
      = List.rdropWhile pyIsWs (l.dropWhile pyIsWs) := by
    rcases hm : List.rdropWhile pyIsWs (l.dropWhile pyIsWs) with _ | ⟨c, cs⟩
    · rfl
    · have hpre := List.rdropWhile_prefix pyIsWs (l.dropWhile pyIsWs)
      rw [hm] at hpre
      rcases hpre with ⟨t, ht⟩
      have hhead : (l.dropWhile pyIsWs).head? = some c := by
        rw [← ht]; rfl
      have hnot := List.head?_dropWhile_not pyIsWs l
      rw [hhead] at hnot
      simp [List.dropWhile_cons, hnot]
  rw [h1, List.rdropWhile_idempotent]

theorem mapRunsF_head_keep (p : Char → Bool) (f : List Char → List Char) :
    ∀ (n : Nat) (m : List Char), (∀ y ∈ m.head?, p y = false) →
      (mapRunsF p f n m).head? = m.head? := by
  intro n m hm
  cases n with
  | zero => rfl
  | succ n =>
    match m with
    | [] => rfl
    | c :: cs =>
      simp only [mapRunsF, hm c rfl, Bool.false_eq_true, if_false]
      rfl

theorem mapRunsF_head_shape (p : Char → Bool) (f : List Char → List Char) :
    ∀ (n : Nat) (m : List Char),
      (∀ c cs2, (c :: cs2) <:+ m → p c = true →
        (∀ x ∈ f (c :: cs2.takeWhile p), p x = true) ∧
          f (c :: cs2.takeWhile p) ≠ []) →
      ∀ y, (mapRunsF p f n m).head? = some y →
        p y = true ∨ m.head? = some y := by
  intro n m hrun y hy
  cases n with
  | zero => exact Or.inr hy
  | succ n =>
    match m with
    | [] => exact Or.inr hy
    | c :: cs =>
      rcases hc : p c with _ | _
      · simp only [mapRunsF, hc, Bool.false_eq_true, if_false] at hy
        exact Or.inr hy
      · simp only [mapRunsF, hc, if_true] at hy
        rcases hrun c cs (List.suffix_refl _) hc with ⟨hall, hne⟩
        rcases hfr : f (c :: cs.takeWhile p) with _ | ⟨z, zs⟩
        · exact absurd hfr hne
        · rw [hfr] at hy
          simp only [List.cons_append, List.head?_cons, Option.some.injEq] at hy
          subst hy
          exact Or.inl (hall z (by rw [hfr]; exact List.mem_cons_self z zs))

/-- The head of a `dropWhile` fails the predicate. -/
theorem head_dropWhile_false (p : Char → Bool) (cs : List Char) :
    ∀ y ∈ (cs.dropWhile p).head?, p y = false := by
  intro y hy
  have hnot := List.head?_dropWhile_not p cs
  cases hdd : (cs.dropWhile p).head? with
  | none => rw [hdd] at hy; cases hy
  | some z =>
    rw [hdd] at hy hnot
    cases hy
    exact hnot

/-- Chain preservation through a run-mapping: kept adjacent pairs were
adjacent in the input, run images are internally chained, all-`p` and
nonempty, and any kept/run-character pair is related both ways. -/
theorem mapRunsF_chain {R : Char → Char → Prop} (p : Char → Bool)
    (f : List Char → List Char)
    (hMix : ∀ a b, p a = false → p b = true → R a b ∧ R b a) :
    ∀ (n : Nat) (m : List Char), m.length ≤ n →
      (∀ c d cs2, (c :: d :: cs2) <:+ m → p c = false → p d = false → R c d) →
      (∀ c cs2, (c :: cs2) <:+ m → p c = true →
        List.Chain' R (f (c :: cs2.takeWhile p)) ∧
          (∀ x ∈ f (c :: cs2.takeWhile p), p x = true) ∧
          f (c :: cs2.takeWhile p) ≠ []) →
      List.Chain' R (mapRunsF p f n m) := by
  intro n
  induction n with
  | zero =>
    intro m h1 _ _
    have : m = [] := List.eq_nil_of_length_eq_zero (by omega)
    subst this
    exact List.chain'_nil
  | succ n ih =>
    intro m h1 hAdj hRun
    match m with
    | [] => exact List.chain'_nil
    | c :: cs =>
      simp only [List.length_cons] at h1
      rcases hc : p c with _ | _
      · simp only [mapRunsF, hc, Bool.false_eq_true, if_false]
        have htail : List.Chain' R (mapRunsF p f n cs) :=
          ih cs (by omega)
            (fun a d cs2 hs => hAdj a d cs2 (hs.trans (List.suffix_cons c cs)))
            (fun a cs2 hs had => hRun a cs2 (hs.trans (List.suffix_cons c cs)) had)
        refine List.chain'_cons'.mpr ⟨?_, htail⟩
        intro y hy
        rcases mapRunsF_head_shape p f n cs
            (fun a cs2 hs had =>
              (hRun a cs2 (hs.trans (List.suffix_cons c cs)) had).2) y hy
          with hpy | hhd
        · exact (hMix c y hc hpy).1
        · cases cs with
          | nil => cases hhd
          | cons d cs' =>
            have hyd : y = d := by
              simp only [List.head?_cons, Option.some.injEq] at hhd
              exact hhd.symm
            subst hyd
            rcases hpd : p y with _ | _
            · exact hAdj c y cs' (List.suffix_refl _) hc hpd
            · exact (hMix c y hc hpd).1
      · simp only [mapRunsF, hc, if_true]
        rcases hRun c cs (List.suffix_refl _) hc with ⟨hch, hall, _⟩
        have hsuffdw : cs.dropWhile p <:+ c :: cs :=
          (List.dropWhile_suffix p).trans (List.suffix_cons c cs)
        have hrest : List.Chain' R (mapRunsF p f n (cs.dropWhile p)) :=
          ih (cs.dropWhile p)
            (le_trans (List.dropWhile_suffix p).length_le (by omega))
            (fun a d cs2 hs => hAdj a d cs2 (hs.trans hsuffdw))
            (fun a cs2 hs had => hRun a cs2 (hs.trans hsuffdw) had)
        refine List.chain'_append.mpr ⟨hch, hrest, ?_⟩
        intro x hx y hy
        have hpx : p x = true := hall x (List.mem_of_mem_getLast? hx)
        rw [mapRunsF_head_keep p f n (cs.dropWhile p)
          (head_dropWhile_false p cs)] at hy
        exact (hMix y x (head_dropWhile_false p cs y hy) hpx).2

theorem isLowerAZ_isAlpha {c : Char} (h : isLowerAZ c = true) :
    c.isAlpha = true := by
  simp only [isLowerAZ, Bool.and_eq_true, decide_eq_true_eq, Char.le_def,
    UInt32.le_def, BitVec.le_def] at h
  simp only [Char.isAlpha, Char.isLower, Char.isUpper, Bool.or_eq_true,
    Bool.and_eq_true, decide_eq_true_eq, UInt32.le_def, BitVec.le_def,
    ge_iff_le]
  have e1 : ('a').val.toBitVec.toNat = 97 := rfl
  have e2 : ('z').val.toBitVec.toNat = 122 := rfl
  have e3 : (UInt32.toBitVec 97).toNat = 97 := rfl
  have e4 : (UInt32.toBitVec 65).toNat = 65 := rfl
  have e5 : (UInt32.toBitVec 122).toNat = 122 := rfl
  have e6 : (UInt32.toBitVec 90).toNat = 90 := rfl
  omega

/-- Characters outside `\w` are neither digits nor letters. -/
theorem nonword_limits {c : Char} (h : wordChar c = false) :
    c.isDigit = false ∧ c.isAlpha = false := by
  simp only [wordChar, Bool.or_eq_false_iff] at h
  have := h.1
  simp only [Char.isAlphanum, Bool.or_eq_false_iff] at this
  exact ⟨this.2, this.1⟩

theorem ws_not_word {c : Char} (h : pyIsWs c = true) : wordChar c = false := by
  simp only [pyIsWs, Bool.or_eq_true, decide_eq_true_eq] at h
  rcases h with ((((h | h) | h) | h) | h) | h <;> subst h <;> decide

theorem ws_limits {c : Char} (h : pyIsWs c = true) :
    c.isDigit = false ∧ c.isAlpha = false :=
  nonword_limits (ws_not_word h)

/-- Whitespace next to anything never triggers the spacing substitutions. -/
theorem safePair_of_ws_left {a b : Char} (h : pyIsWs a = true) :
    safePair a b := by
  refine ⟨fun hx => ?_, fun hx => ?_⟩
  · rw [(ws_limits h).1] at hx; cases hx.1
  · rw [(ws_limits h).2] at hx; cases hx.1

theorem safePair_of_ws_right {a b : Char} (h : pyIsWs b = true) :
    safePair a b := by
  refine ⟨fun hx => ?_, fun hx => ?_⟩
  · rw [(ws_limits h).2] at hx; cases hx.2
  · rw [(ws_limits h).1] at hx; cases hx.2

theorem safePair_of_nonword_left {a b : Char} (h : wordChar a = false) :
    safePair a b := by
  refine ⟨fun hx => ?_, fun hx => ?_⟩
  · rw [(nonword_limits h).1] at hx; cases hx.1
  · rw [(nonword_limits h).2] at hx; cases hx.1

theorem safePair_of_nonword_right {a b : Char} (h : wordChar b = false) :
    safePair a b := by
  refine ⟨fun hx => ?_, fun hx => ?_⟩
  · rw [(nonword_limits h).2] at hx; cases hx.2
  · rw [(nonword_limits h).1] at hx; cases hx.2

theorem tableLookup_mem {c v : Char} :
    ∀ t : List (Char × Char), tableLookup c t = some v → (c, v) ∈ t := by
  intro t
  induction t with
  | nil => intro h; cases h
  | cons q t ih =>
    intro h
    rcases q with ⟨k, w⟩
    by_cases hk : c = k
    · subst hk
      have h2 : (if c = c then some w else tableLookup c t) = some v := h
      rw [if_pos rfl] at h2
      cases h2
      exact List.mem_cons_self _ _
    · simp only [tableLookup, if_neg hk] at h
      exact List.mem_cons_of_mem _ (ih h)

/-- `asciiLowerChar` either fixes its argument or maps through the table. -/
theorem asciiLowerChar_fix_or_table (c : Char) :
    asciiLowerChar c = c ∨
      ∃ v, (c, v) ∈ lowerTable ∧ asciiLowerChar c = v := by
  unfold asciiLowerChar
  split
  · exact Or.inl rfl
  · rcases htl : tableLookup c lowerTable with _ | v
    · exact Or.inl rfl
    · exact Or.inr ⟨v, tableLookup_mem lowerTable htl, rfl⟩

theorem asciiLowerChar_idem (c : Char) :
    asciiLowerChar (asciiLowerChar c) = asciiLowerChar c := by
  rcases asciiLowerChar_fix_or_table c with h | ⟨v, hv, h⟩
  · rw [h, h]
  · rw [h]
    have hall : ∀ q ∈ lowerTable, asciiLowerChar q.2 = q.2 := by decide
    exact hall (c, v) hv

theorem asciiLowerChar_ascii {c : Char} (h : c.toNat < 128) :
    (asciiLowerChar c).toNat < 128 := by
  rcases asciiLowerChar_fix_or_table c with hf | ⟨v, hv, hf⟩
  · rw [hf]; exact h
  · rw [hf]
    have hall : ∀ q ∈ lowerTable, q.2.toNat < 128 := by decide
    exact hall (c, v) hv

theorem asciiLowerChar_brace {c : Char} (h : c ≠ '\x7b') :
    asciiLowerChar c ≠ '\x7b' := by
  rcases asciiLowerChar_fix_or_table c with hf | ⟨v, hv, hf⟩
  · rw [hf]; exact h
  · rw [hf]
    have hall : ∀ q ∈ lowerTable, q.2 ≠ '\x7b' := by decide
    exact hall (c, v) hv

theorem asciiLowerChar_classes (c : Char) :
    (asciiLowerChar c).isDigit = c.isDigit ∧
      (asciiLowerChar c).isAlpha = c.isAlpha := by
  rcases asciiLowerChar_fix_or_table c with hf | ⟨v, hv, hf⟩
  · rw [hf]; exact ⟨rfl, rfl⟩
  · rw [hf]
    have hall : ∀ q ∈ lowerTable,
        q.2.isDigit = q.1.isDigit ∧ q.2.isAlpha = q.1.isAlpha := by decide
    exact hall (c, v) hv

theorem map_eq_self_of_fix {f : Char → Char} {l : List Char}
    (h : ∀ c ∈ l, f c = c) : l.map f = l :=
  (List.map_congr_left fun a ha => (h a ha).trans rfl).trans (List.map_id l)

theorem stripDiacritics_ascii {l : List Char} (h : ∀ c ∈ l, c.toNat < 128) :
    stripDiacritics l = l := by
  induction l with
  | nil => rfl
  | cons c cs ih =>
    have hc : c.toNat < 128 := h c (List.mem_cons_self c cs)
    simp only [stripDiacritics, List.filterMap_cons, if_pos hc]
    exact congrArg (c :: ·)
      (ih fun x hx => h x (List.mem_cons_of_mem c hx))

theorem dashReplace_ascii {l : List Char} (h : ∀ c ∈ l, c.toNat < 128) :
    dashReplace l = l := by
  refine map_eq_self_of_fix fun c hc => ?_
  have h1 : c ≠ '–' := by
    intro he
    have := h c hc
    rw [he] at this
    exact absurd this (by decide)
  have h2 : c ≠ '—' := by
    intro he
    have := h c hc
    rw [he] at this
    exact absurd this (by decide)
  rw [if_neg]
  simp only [Bool.or_eq_true, decide_eq_true_eq]
  rintro (hx | hx)
  · exact h1 hx
  · exact h2 hx

theorem existsMatch_false (m : Matcher) :
    ∀ l : List Char, (∀ c cs, (c :: cs) <:+ l → m (c :: cs) = none) →
      existsMatch m l = false := by
  intro l
  induction l with
  | nil => intro _; rfl
  | cons c cs ih =>
    intro h
    rw [existsMatch, h c cs (List.suffix_refl _),
      ih fun a as hs => h a as (hs.trans (List.suffix_cons c cs))]
    rfl

theorem punctMatch_none_of_no_brace {l : List Char} (hb : '\x7b' ∉ l)
    {c : Char} {cs : List Char} (hs : (c :: cs) <:+ l) :
    punctMatch (c :: cs) = none := by
  match cs with
  | [] => rfl
  | [c1] => rfl
  | [c1, c2] => rfl
  | c1 :: c2 :: c3 :: rest =>
    by_cases h1 : c1 = '\x7b'
    · subst h1
      exact absurd (hs.subset (by simp)) hb
    · simp only [punctMatch]
      rw [if_neg]
      simp only [Bool.and_eq_true, decide_eq_true_eq]
      intro hx
      exact h1 hx.1.1.2

theorem digitLetterMatch_none_of_chain {l : List Char}
    (hch : List.Chain' safePair l) {c : Char} {cs : List Char}
    (hs : (c :: cs) <:+ l) : digitLetterMatch (c :: cs) = none := by
  match cs with
  | [] => rfl
  | d :: rest =>
    have hsp : safePair c d := (hch.suffix hs).rel_head
    simp only [digitLetterMatch]
    rw [if_neg]
    simp only [Bool.and_eq_true]
    intro hx
    exact hsp.1 ⟨hx.1, isLowerAZ_isAlpha hx.2⟩

theorem letterDigitMatch_none_of_chain {l : List Char}
    (hch : List.Chain' safePair l) {c : Char} {cs : List Char}
    (hs : (c :: cs) <:+ l) : letterDigitMatch (c :: cs) = none := by
  match cs with
  | [] => rfl
  | d :: rest =>
    have hsp : safePair c d := (hch.suffix hs).rel_head
    simp only [letterDigitMatch]
    rw [if_neg]
    simp only [Bool.and_eq_true]
    intro hx
    exact hsp.2 ⟨isLowerAZ_isAlpha hx.1, hx.2⟩

theorem romanFold_cases (w : List Char) :
    romanFold w = w ∨
      romanFold w ∈ [['1'], ['2'], ['3'], ['4'], ['5'], ['6']] := by
  by_cases h1 : w = ['i']
  · subst h1; right; decide
  by_cases h2 : w = ['i', 'i']
  · subst h2; right; decide
  by_cases h3 : w = ['i', 'i', 'i']
  · subst h3; right; decide
  by_cases h4 : w = ['i', 'v']
  · subst h4; right; decide
  by_cases h5 : w = ['v']
  · subst h5; right; decide
  by_cases h6 : w = ['v', 'i']
  · subst h6; right; decide
  left
  unfold romanFold romanPairs
  simp only [List.foldl_cons, List.foldl_nil]
  rw [if_neg h1, if_neg h2, if_neg h3, if_neg h4, if_neg h5, if_neg h6]

theorem romanFold_idem (w : List Char) :
    romanFold (romanFold w) = romanFold w := by
  rcases romanFold_cases w with h | h
  · rw [h, h]
  · simp only [List.mem_cons, List.not_mem_nil, or_false] at h
    rcases h with h | h | h | h | h | h <;> rw [h] <;> decide

theorem romanFold_ne_nil {w : List Char} (hw : w ≠ []) : romanFold w ≠ [] := by
  rcases romanFold_cases w with h | h
  · rw [h]; exact hw
  · simp only [List.mem_cons, List.not_mem_nil, or_false] at h
    rcases h with h | h | h | h | h | h <;> rw [h] <;> decide

theorem romanFold_mem {w : List Char} :
    ∀ x ∈ romanFold w, x ∈ w ∨ x ∈ ['1', '2', '3', '4', '5', '6'] := by
  intro x hx
  rcases romanFold_cases w with h | h
  · rw [h] at hx; exact Or.inl hx
  · simp only [List.mem_cons, List.not_mem_nil, or_false] at h
    rcases h with h | h | h | h | h | h <;> rw [h] at hx <;>
      simp only [List.mem_cons, List.not_mem_nil, or_false] at hx <;>
      subst hx <;> right <;> decide

theorem romanFold_word {w : List Char} (hw : ∀ x ∈ w, wordChar x = true) :
    ∀ x ∈ romanFold w, wordChar x = true := by
  intro x hx
  rcases romanFold_mem x hx with h | h
  · exact hw x h
  · simp only [List.mem_cons, List.not_mem_nil, or_false] at h
    rcases h with h | h | h | h | h | h <;> subst h <;> decide

theorem romanFold_chain {w : List Char} (hw : List.Chain' safePair w) :
    List.Chain' safePair (romanFold w) := by
  rcases romanFold_cases w with h | h
  · rw [h]; exact hw
  · simp only [List.mem_cons, List.not_mem_nil, or_false] at h
    rcases h with h | h | h | h | h | h <;> rw [h] <;>
      exact List.chain'_singleton _

theorem lowerAll_ascii {l : List Char} (h : ∀ c ∈ l, c.toNat < 128) :
    ∀ c ∈ lowerAll l, c.toNat < 128 := by
  intro c hc
  rcases List.mem_map.mp hc with ⟨x, hx, rfl⟩
  exact asciiLowerChar_ascii (h x hx)

theorem lowerAll_nobrace {l : List Char} (h : '\x7b' ∉ l) :
    '\x7b' ∉ lowerAll l := by
  intro hc
  rcases List.mem_map.mp hc with ⟨x, hx, he⟩
  exact asciiLowerChar_brace (fun hxx => h (hxx ▸ hx)) he

theorem lowerAll_fix {l : List Char} :
    ∀ c ∈ lowerAll l, asciiLowerChar c = c := by
  intro c hc
  rcases List.mem_map.mp hc with ⟨x, _, rfl⟩
  exact asciiLowerChar_idem x

theorem lowerAll_chain {l : List Char} (h : List.Chain' safePair l) :
    List.Chain' safePair (lowerAll l) := by
  unfold lowerAll
  rw [List.chain'_map]
  refine h.imp fun a b hab => ⟨fun hx => ?_, fun hx => ?_⟩
  · exact hab.1 ⟨(asciiLowerChar_classes a).1 ▸ hx.1,
      (asciiLowerChar_classes b).2 ▸ hx.2⟩
  · exact hab.2 ⟨(asciiLowerChar_classes a).2 ▸ hx.1,
      (asciiLowerChar_classes b).1 ▸ hx.2⟩

theorem punctSub_id {l : List Char} (hb : '\x7b' ∉ l) : punctSub l = l := by
  unfold punctSub
  exact applySub_id punctMatch l
    (existsMatch_false punctMatch l fun c cs hs =>
      punctMatch_none_of_no_brace hb hs)

theorem subDigitLetter_id {l : List Char} (h : List.Chain' safePair l) :
    subDigitLetter l = l := by
  unfold subDigitLetter
  exact applySub_id digitLetterMatch l
    (existsMatch_false digitLetterMatch l fun c cs hs =>
      digitLetterMatch_none_of_chain h hs)

theorem subLetterDigit_id {l : List Char} (h : List.Chain' safePair l) :
    subLetterDigit l = l := by
  unfold subLetterDigit
  exact applySub_id letterDigitMatch l
    (existsMatch_false letterDigitMatch l fun c cs hs =>
      letterDigitMatch_none_of_chain h hs)

theorem romanSub_chain {l : List Char} (h : List.Chain' safePair l) :
    List.Chain' safePair (romanSub l) := by
  unfold romanSub mapRuns
  refine mapRunsF_chain wordChar romanFold
    (fun a b ha hb => ⟨safePair_of_nonword_left ha, safePair_of_nonword_right ha⟩)
    l.length l (le_refl _)
    (fun c d cs2 hs _ _ => (h.suffix hs).rel_head)
    (fun c cs2 hs hc => ?_)
  have hrunpre : (c :: cs2.takeWhile wordChar) <+: (c :: cs2) :=
    List.cons_prefix_cons.mpr ⟨rfl, List.takeWhile_prefix _⟩
  have hrunchain : List.Chain' safePair (c :: cs2.takeWhile wordChar) :=
    List.Chain'.prefix (h.suffix hs) hrunpre
  have hrunword : ∀ x ∈ c :: cs2.takeWhile wordChar, wordChar x = true := by
    intro x hx
    rcases List.mem_cons.mp hx with rfl | hx
    · exact hc
    · exact List.mem_takeWhile_imp hx
  exact ⟨romanFold_chain hrunchain, romanFold_word hrunword,
    romanFold_ne_nil (List.cons_ne_nil _ _)⟩

theorem collapseWs_run_shape :
    (∀ x ∈ [' '], pyIsWs x = true) ∧ ([' '] : List Char) ≠ [] := by
  refine ⟨?_, by simp⟩
  intro x hx
  rcases List.mem_cons.mp hx with rfl | hx
  · rfl
  · simp at hx

theorem collapseWs_chain {l : List Char} (h : List.Chain' safePair l) :
    List.Chain' safePair (collapseWs l) := by
  unfold collapseWs mapRuns
  exact mapRunsF_chain pyIsWs (fun _ => [' '])
    (fun a b _ hb => ⟨safePair_of_ws_right hb, safePair_of_ws_left hb⟩)
    l.length l (le_refl _)
    (fun c d cs2 hs _ _ => (h.suffix hs).rel_head)
    (fun c cs2 hs hc =>
      ⟨List.chain'_singleton _, collapseWs_run_shape.1,
        collapseWs_run_shape.2⟩)

theorem collapseWs_iso (l : List Char) :
    List.Chain' wsIso (collapseWs l) := by
  unfold collapseWs mapRuns
  exact mapRunsF_chain pyIsWs (fun _ => [' '])
    (fun a b ha _ => ⟨fun hx => (by rw [ha] at hx; cases hx.1 : False).elim,
      fun hx => (by rw [ha] at hx; cases hx.2 : False).elim⟩)
    l.length l (le_refl _)
    (fun c d cs2 _ hc _ => fun hx => by rw [hc] at hx; cases hx.1)
    (fun c cs2 hs hc =>
      ⟨List.chain'_singleton _, collapseWs_run_shape.1,
        collapseWs_run_shape.2⟩)

theorem collapseWs_ws_chars_aux :
    ∀ (n : Nat) (m : List Char), m.length ≤ n →
      ∀ x ∈ mapRunsF pyIsWs (fun _ => [' ']) n m, pyIsWs x = true → x = ' ' := by
  intro n
  induction n with
  | zero =>
    intro m h1 x hx _
    have : m = [] := List.eq_nil_of_length_eq_zero (by omega)
    subst this
    simp [mapRunsF] at hx
  | succ n ih =>
    intro m h1 x hx hw
    match m with
    | [] => simp [mapRunsF] at hx
    | c :: cs =>
      simp only [List.length_cons] at h1
      rcases hc : pyIsWs c with _ | _
      · simp only [mapRunsF, hc, Bool.false_eq_true, if_false] at hx
        rcases List.mem_cons.mp hx with rfl | hx
        · rw [hc] at hw; cases hw
        · exact ih cs (by omega) x hx hw
      · simp only [mapRunsF, hc, if_true] at hx
        rcases List.mem_append.mp hx with hx | hx
        · rcases List.mem_cons.mp hx with rfl | hx
          · rfl
          · simp at hx
        · exact ih (cs.dropWhile pyIsWs)
            (le_trans (List.dropWhile_suffix pyIsWs).length_le (by omega)) x hx hw

theorem collapseWs_ws_chars (l : List Char) :
    ∀ x ∈ collapseWs l, pyIsWs x = true → x = ' ' := by
  unfold collapseWs mapRuns
  exact collapseWs_ws_chars_aux l.length l (le_refl _)

theorem takeWhile_eq_nil_of_head (q : Char → Bool) (m : List Char)
    (h : ∀ y ∈ m.head?, q y = false) : m.takeWhile q = [] := by
  cases m with
  | nil => rfl
  | cons c cs => simp [List.takeWhile_cons, h c rfl]

theorem dropWhile_eq_self_of_head (q : Char → Bool) (m : List Char)
    (h : ∀ y ∈ m.head?, q y = false) : m.dropWhile q = m := by
  cases m with
  | nil => rfl
  | cons c cs => simp [List.dropWhile_cons, h c rfl]

/-- Re-reading the runs after a run-mapping yields exactly the mapped runs,
when the images are nonempty and stay inside the run class. -/
theorem runsOf_mapRuns_aux (p : Char → Bool) (f : List Char → List Char)
    (hf : ∀ w, w ≠ [] → (∀ x ∈ w, p x = true) →
      f w ≠ [] ∧ ∀ x ∈ f w, p x = true) :
    ∀ (n : Nat) (m : List Char), m.length ≤ n →
      runsOf p (mapRunsF p f n m) = (runsOfF p n m).map f := by
  intro n
  induction n with
  | zero =>
    intro m h1
    have : m = [] := List.eq_nil_of_length_eq_zero (by omega)
    subst this
    rfl
  | succ n ih =>
    intro m h1
    match m with
    | [] => rfl
    | c :: cs =>
      simp only [List.length_cons] at h1
      rcases hc : p c with _ | _
      · simp only [mapRunsF, runsOfF, hc, Bool.false_eq_true, if_false]
        rw [runsOf_cons_neg p _ hc]
        exact ih cs (by omega)
      · simp only [mapRunsF, runsOfF, hc, if_true]
        have hrw : ∀ x ∈ c :: cs.takeWhile p, p x = true := by
          intro x hx
          rcases List.mem_cons.mp hx with rfl | hx
          · exact hc
          · exact List.mem_takeWhile_imp hx
        rcases hf (c :: cs.takeWhile p) (List.cons_ne_nil _ _) hrw
          with ⟨hne, hall⟩
        rw [runsOf_append_block p _ _ hall hne
          (fun y hy => by
            rw [mapRunsF_head_keep p f n _ (head_dropWhile_false p cs)] at hy
            exact head_dropWhile_false p cs y hy)]
        rw [List.map_cons]
        exact congrArg (f (c :: cs.takeWhile p) :: ·)
          (ih (cs.dropWhile p)
            (le_trans (List.dropWhile_suffix p).length_le (by omega)))

theorem runsOf_romanSub (l : List Char) :
    runsOf wordChar (romanSub l) = (runsOf wordChar l).map romanFold := by
  unfold romanSub mapRuns
  exact runsOf_mapRuns_aux wordChar romanFold
    (fun w hne hall => ⟨romanFold_ne_nil hne, romanFold_word hall⟩)
    l.length l (le_refl _)

/-- A run-mapping over one character class leaves the runs of a disjoint
class untouched. -/
theorem runsOf_disjoint_aux (p q : Char → Bool) (f : List Char → List Char)
    (hpq : ∀ c, p c = true → q c = false)
    (hf : ∀ w, w ≠ [] → (∀ x ∈ w, p x = true) →
      f w ≠ [] ∧ ∀ x ∈ f w, p x = true) :
    ∀ (n : Nat) (m : List Char), m.length ≤ n →
      runsOf q (mapRunsF p f n m) = runsOf q m := by
  have hq_to_np : ∀ x : Char, q x = true → p x = false := by
    intro x hx
    rcases hpx : p x with _ | _
    · rfl
    · rw [hpq x hpx] at hx; cases hx
  have hrunshape : ∀ a (cs2 : List Char), a :: cs2 <:+ a :: cs2 → p a = true →
      (∀ x ∈ f (a :: cs2.takeWhile p), p x = true) ∧
        f (a :: cs2.takeWhile p) ≠ [] := by
    intro a cs2 _ ha
    have hw : ∀ x ∈ a :: cs2.takeWhile p, p x = true := by
      intro x hx
      rcases List.mem_cons.mp hx with rfl | hx
      · exact ha
      · exact List.mem_takeWhile_imp hx
    exact ⟨(hf _ (List.cons_ne_nil _ _) hw).2, (hf _ (List.cons_ne_nil _ _) hw).1⟩
  intro n
  induction n with
  | zero =>
    intro m h1
    have : m = [] := List.eq_nil_of_length_eq_zero (by omega)
    subst this
    rfl
  | succ n ih =>
    intro m h1
    match m with
    | [] => rfl
    | c :: cs =>
      simp only [List.length_cons] at h1
      rcases hc : p c with _ | _
      · -- kept character
        simp only [mapRunsF, hc, Bool.false_eq_true, if_false]
        rcases hqc : q c with _ | _
        · rw [runsOf_cons_neg q _ hqc, runsOf_cons_neg q _ hqc]
          rw [show mapRunsF p f n cs = mapRuns p f cs from
            mapRunsF_congr p f n cs.length cs (by omega) (le_refl _)]
          rw [show mapRuns p f cs = mapRunsF p f n cs from
            mapRunsF_congr p f cs.length n cs (le_refl _) (by omega)]
          exact ih cs (by omega)
        · rw [runsOf_cons_pos q _ hqc, runsOf_cons_pos q _ hqc]
          rw [show mapRunsF p f n cs = mapRuns p f cs from
            mapRunsF_congr p f n cs.length cs (by omega) (le_refl _)]
          have htw_np : ∀ x ∈ cs.takeWhile q, p x = false :=
            fun x hx => hq_to_np x (List.mem_takeWhile_imp hx)
          have hdec : mapRuns p f cs
              = cs.takeWhile q ++ mapRuns p f (cs.dropWhile q) := by
            conv_lhs => rw [← List.takeWhile_append_dropWhile q cs]
            exact mapRuns_append_nonp p f _ _ htw_np
          rw [hdec]
          have hMhead : ∀ y ∈ (mapRuns p f (cs.dropWhile q)).head?,
              q y = false := by
            intro y hy
            rcases mapRunsF_head_shape p f (cs.dropWhile q).length
                (cs.dropWhile q) (fun a cs2 hs ha => hrunshape a cs2
                  (List.suffix_refl _) ha) y hy with hpy | hhd
            · exact hpq y hpy
            · exact head_dropWhile_false q cs y hhd
          have htw_q : ∀ x ∈ cs.takeWhile q, q x = true :=
            fun x hx => List.mem_takeWhile_imp hx
          rw [List.takeWhile_append_of_pos htw_q,
            List.dropWhile_append_of_pos htw_q,
            takeWhile_eq_nil_of_head q _ hMhead,
            dropWhile_eq_self_of_head q _ hMhead, List.append_nil]
          congr 1
          rw [show mapRuns p f (cs.dropWhile q)
              = mapRunsF p f n (cs.dropWhile q) from
            mapRunsF_congr p f (cs.dropWhile q).length n (cs.dropWhile q)
              (le_refl _)
              (le_trans (List.dropWhile_suffix q).length_le (by omega))]
          exact ih (cs.dropWhile q)
            (le_trans (List.dropWhile_suffix q).length_le (by omega))
      · -- inside a `p`-run
        simp only [mapRunsF, hc, if_true]
        have hw : ∀ x ∈ c :: cs.takeWhile p, p x = true := by
          intro x hx
          rcases List.mem_cons.mp hx with rfl | hx
          · exact hc
          · exact List.mem_takeWhile_imp hx
        rcases hf _ (List.cons_ne_nil c (cs.takeWhile p)) hw with ⟨_, hall⟩
        rw [runsOf_append_nonq q _ _ (fun x hx => hpq x (hall x hx))]
        rw [ih (cs.dropWhile p)
          (le_trans (List.dropWhile_suffix p).length_le (by omega))]
        rw [runsOf_cons_neg q _ (hpq c hc)]
        conv_rhs => rw [← List.takeWhile_append_dropWhile p cs]
        exact (runsOf_append_nonq q _ _
          (fun x hx => hpq x (List.mem_takeWhile_imp hx))).symm

theorem runsOf_word_collapseWs (l : List Char) :
    runsOf wordChar (collapseWs l) = runsOf wordChar l := by
  unfold collapseWs mapRuns
  exact runsOf_disjoint_aux pyIsWs wordChar (fun _ => [' '])
    (fun c hc => ws_not_word hc)
    (fun w hne hall => ⟨by simp, collapseWs_run_shape.1⟩)
    l.length l (le_refl _)

theorem runsOf_append_right_nonq (q : Char → Bool) :
    ∀ (n : Nat) (a : List Char), a.length ≤ n → ∀ b : List Char,
      (∀ x ∈ b, q x = false) → runsOf q (a ++ b) = runsOf q a := by
  intro n
  induction n with
  | zero =>
    intro a h1 b hb
    have : a = [] := List.eq_nil_of_length_eq_zero (by omega)
    subst this
    rw [List.nil_append]
    have h2 := runsOf_append_nonq q b [] hb
    rw [List.append_nil] at h2
    exact h2
  | succ n ih =>
    intro a h1 b hb
    match a with
    | [] =>
      rw [List.nil_append]
      have h2 := runsOf_append_nonq q b [] hb
      rw [List.append_nil] at h2
      exact h2
    | c :: a' =>
      simp only [List.length_cons] at h1
      have hbhead : ∀ y ∈ b.head?, q y = false := by
        intro y hy
        cases b with
        | nil => cases hy
        | cons z zs =>
          cases hy
          exact hb _ (List.mem_cons_self _ _)
      rcases hqc : q c with _ | _
      · rw [List.cons_append, runsOf_cons_neg q _ hqc,
          runsOf_cons_neg q _ hqc]
        exact ih a' (by omega) b hb
      · rw [List.cons_append, runsOf_cons_pos q _ hqc,
          runsOf_cons_pos q _ hqc,
          takeWhile_append_stop q a' b hbhead,
          dropWhile_append_stop q a' b hbhead]
        congr 1
        exact ih (a'.dropWhile q)
          (le_trans (List.dropWhile_suffix q).length_le (by omega)) b hb

theorem runsOf_pyStrip (q : Char → Bool)
    (hq : ∀ c, pyIsWs c = true → q c = false) (l : List Char) :
    runsOf q (pyStrip l) = runsOf q l := by
  rw [pyStrip_eq_rdropWhile]
  have h1 : runsOf q l = runsOf q (l.dropWhile pyIsWs) := by
    conv_lhs => rw [← List.takeWhile_append_dropWhile pyIsWs l]
    exact runsOf_append_nonq q _ _
      (fun x hx => hq x (List.mem_takeWhile_imp hx))
  rw [h1]
  have h2 : runsOf q (l.dropWhile pyIsWs)
      = runsOf q (List.rdropWhile pyIsWs (l.dropWhile pyIsWs)) := by
    conv_lhs =>
      rw [← rdropWhile_append_rtakeWhile pyIsWs (l.dropWhile pyIsWs)]
    exact runsOf_append_right_nonq q
      (List.rdropWhile pyIsWs (l.dropWhile pyIsWs)).length _ (le_refl _) _
      (fun x hx => hq x (List.mem_rtakeWhile_imp hx))
  rw [h2]

/-- Pass-one reduction on bracketless ASCII input: the diacritic, dash and
punctuation stages are the identity (the punctuation pattern needs a literal
brace to fire). -/
theorem normalizeList_reduce {l : List Char} (hA : ∀ c ∈ l, c.toNat < 128)
    (hB : '\x7b' ∉ l) :
    normalizeList l
      = pyStrip (collapseWs (subLetterDigit (subDigitLetter
          (romanSub (lowerAll l))))) := by
  unfold normalizeList
  rw [stripDiacritics_ascii hA, dashReplace_ascii (lowerAll_ascii hA),
    punctSub_id (lowerAll_nobrace hB)]

theorem normalizeList_reduce_chain {l : List Char}
    (hA : ∀ c ∈ l, c.toNat < 128) (hB : '\x7b' ∉ l)
    (hC : List.Chain' safePair l) :
    normalizeList l = pyStrip (collapseWs (romanSub (lowerAll l))) := by
  rw [normalizeList_reduce hA hB,
    subDigitLetter_id (romanSub_chain (lowerAll_chain hC)),
    subLetterDigit_id (romanSub_chain (lowerAll_chain hC))]

theorem normalizeList_idem {l : List Char} (hA : ∀ c ∈ l, c.toNat < 128)
    (hB : '\x7b' ∉ l) (hC : List.Chain' safePair l) :
    normalizeList (normalizeList l) = normalizeList l := by
  have hred := normalizeList_reduce_chain hA hB hC
  have hA1 := lowerAll_ascii hA
  have hB1 := lowerAll_nobrace hB
  have hC1 := lowerAll_chain hC
  have hC2 := romanSub_chain hC1
  have hC3 := collapseWs_chain hC2
  set w2 := romanSub (lowerAll l) with hw2
  set w3 := collapseWs w2 with hw3
  set y := pyStrip w3 with hy
  have hdig : ∀ c ∈ ['1', '2', '3', '4', '5', '6'],
      c.toNat < 128 ∧ asciiLowerChar c = c ∧ c ≠ '\x7b' := by decide
  have hmem2 : ∀ x ∈ w2, x ∈ lowerAll l ∨ x ∈ ['1', '2', '3', '4', '5', '6'] := by
    rw [hw2]
    unfold romanSub
    exact mapRuns_mem wordChar romanFold _ (fun w x hx => romanFold_mem x hx)
      (lowerAll l)
  have hmem3 : ∀ x ∈ w3, x ∈ w2 ∨ x = ' ' := by
    rw [hw3]
    unfold collapseWs
    exact mapRuns_mem pyIsWs (fun _ => [' ']) _
      (fun w x hx => Or.inr (List.mem_singleton.mp hx)) w2
  have hmemy : ∀ x ∈ y, x ∈ w3 := by
    rw [hy]
    exact pyStrip_mem w3
  have hAy : ∀ c ∈ y, c.toNat < 128 := by
    intro c hc
    rcases hmem3 c (hmemy c hc) with h2 | he
    · rcases hmem2 c h2 with h1 | hd
      · exact hA1 c h1
      · exact (hdig c hd).1
    · subst he; decide
  have hBy : '\x7b' ∉ y := by
    intro hc
    rcases hmem3 _ (hmemy _ hc) with h2 | he
    · rcases hmem2 _ h2 with h1 | hd
      · exact hB1 h1
      · exact ((hdig _ hd).2.2) rfl
    · cases he
  have hLy : ∀ c ∈ y, asciiLowerChar c = c := by
    intro c hc
    rcases hmem3 c (hmemy c hc) with h2 | he
    · rcases hmem2 c h2 with h1 | hd
      · exact lowerAll_fix c h1
      · exact (hdig c hd).2.1
    · subst he; decide
  have hCy : List.Chain' safePair y := pyStrip_chain hC3
  have hIy : List.Chain' wsIso y := pyStrip_chain (collapseWs_iso w2)
  have hWy : ∀ c ∈ y, pyIsWs c = true → c = ' ' :=
    fun c hc => collapseWs_ws_chars w2 c (hmemy c hc)
  have hRfix : ∀ r ∈ runsOf wordChar y, romanFold r = r := by
    intro r hr
    rw [hy, runsOf_pyStrip wordChar (fun c hc => ws_not_word hc) w3, hw3,
      runsOf_word_collapseWs, hw2, runsOf_romanSub] at hr
    rcases List.mem_map.mp hr with ⟨w, _, rfl⟩
    exact romanFold_idem w
  have hWsRun : ∀ r ∈ runsOf pyIsWs y, (fun _ => [' ']) r = r := by
    intro r hr
    rcases runsOf_singleton pyIsWs y.length y (le_refl _) hIy r hr with ⟨c, rfl⟩
    rcases runsOf_sub pyIsWs y.length y (le_refl _) _ hr with ⟨_, hall⟩
    rcases hall c (List.mem_singleton.mpr rfl) with ⟨hcy, hcw⟩
    rw [hWy c hcy hcw]
  rw [hred]
  unfold normalizeList
  rw [stripDiacritics_ascii hAy,
    show lowerAll y = y from map_eq_self_of_fix hLy,
    dashReplace_ascii hAy, punctSub_id hBy,
    show romanSub y = y from mapRuns_eq_self wordChar romanFold y hRfix,
    subDigitLetter_id hCy, subLetterDigit_id hCy,
    show collapseWs y = y from
      mapRuns_eq_self pyIsWs (fun _ => [' ']) y hWsRun,
    show pyStrip y = y from by rw [hy]; exact pyStrip_idem w3]

/-- C1, amended.  The spec claims `normalize_text` is idempotent for every
input; the counterexample theorem refutes that.  The amended invariant:
`normalize_text` is idempotent on every ASCII reference string that contains
no literal brace and never puts a digit directly next to a letter — in
particular on every well-formed book/chapter/verse reference. -/
theorem normalize_text_idempotent_on_safe_input (s : String)
    (hA : ∀ c ∈ s.data, c.toNat < 128) (hB : '\x7b' ∉ s.data)
    (hC : List.Chain' safePair s.data) :
    normalize_text (normalize_text s) = normalize_text s := by
  have h := normalizeList_idem hA hB hC
  have e : ∀ t : String, normalize_text t = String.mk (normalizeList t.data) :=
    fun t => rfl
  rw [e (normalize_text s), e s,
    show (String.mk (normalizeList s.data)).data = normalizeList s.data from
      rfl]
  exact congrArg String.mk h

/-- The executable adjacency check certifies the chain hypothesis. -/
theorem chainSafe_chain :
    ∀ l : List Char, chainSafe l = true → List.Chain' safePair l := by
  intro l
  induction l with
  | nil => intro _; exact List.chain'_nil
  | cons a l ih =>
    intro h
    cases l with
    | nil => exact List.chain'_singleton a
    | cons b l2 =>
      simp only [chainSafe, Bool.and_eq_true, Bool.not_eq_true'] at h
      refine List.chain'_cons.mpr ⟨⟨fun hx => ?_, fun hx => ?_⟩, ih ?_⟩
      · rw [hx.1, hx.2] at h
        simp at h
      · rw [hx.1, hx.2] at h
        simp at h
      · have h2 := h.2
        simp only [chainSafe] at h2 ⊢
        exact h2

theorem normalize_text_idempotent_on_safe_input_witness :
    ((∀ c ∈ ("1 Kor 13:4 EN Openb. 3;16").data, c.toNat < 128) ∧
      '\x7b' ∉ ("1 Kor 13:4 EN Openb. 3;16").data ∧
      List.Chain' safePair ("1 Kor 13:4 EN Openb. 3;16").data) ∧
      normalize_text (normalize_text ("1 Kor 13:4 EN Openb. 3;16"))
        = normalize_text ("1 Kor 13:4 EN Openb. 3;16") :=
  ⟨⟨by decide, by decide, chainSafe_chain _ (by decide)⟩,
    normalize_text_idempotent_on_safe_input ("1 Kor 13:4 EN Openb. 3;16")
      (by decide) (by decide) (chainSafe_chain _ (by decide))⟩

end BibleScripts
